import Mathlib

/-!
# Voxel editor module: a shallow embedding of the editor glue

The three translation units of the `VoxelEditor` module are embedded as pure
functions over explicit host state:

* `AssetTools/AssetTypeActions_VoxelDataAsset.cpp`: the reimport menu entry;
* `Details/VoxelMaterialCollectionDetails.cpp`: the material collection
  details panel and the element customization;
* `VoxelEditorModule.cpp`: the module lifecycle, the retoggle command and the
  editor delegates.

Calls into the engine are recorded as values (lists of calls, registries), so
that what a function asks of the host can be stated and proved. The file
holds the embedding first, then the vocabulary of the statements and sample
inputs, then the theorems, claim by claim.
-/

namespace VoxelEditor

/-! ## Engine vocabulary -/

/-- Engine name type; names are compared by their text. -/
abbrev FName := String

/-- Engine string type. -/
abbrev FString := String

/-- Engine localized text; only the display string is kept. -/
abbrev FText := String

/-- Weak object pointer: `none` is a stale or null reference, `some a` a live
reference to `a`. -/
abbrev TWeakObjectPtr (α : Type) := Option α

/-- Validity test of a weak pointer (`TWeakObjectPtr::IsValid`). -/
def TWeakObjectPtr.IsValid {α : Type} (p : TWeakObjectPtr α) : Bool :=
  p.isSome

/-- Raw pointer held by a weak pointer (`TWeakObjectPtr::Get`), null when
stale. -/
def TWeakObjectPtr.Get {α : Type} (p : TWeakObjectPtr α) : Option α :=
  p

/-! ## Voxel data asset and its reimport action -/

/-- Import source tag of a voxel data asset. The enumeration is declared
outside the sources; `MagicaVox` and `RawVox` are the two values the sources
name, every other value is `Other tag`. -/
inductive EVoxelDataAssetImportSource
  | MagicaVox
  | RawVox
  | Other (tag : Nat)
  deriving DecidableEq, Repr

/-- Voxel data asset, reduced to its object name and its import source. -/
structure UVoxelDataAsset where
  Name : FName
  Source : EVoxelDataAssetImportSource
  deriving DecidableEq, Repr

/-- One call of `FReimportManager::Reimport`. -/
structure ReimportCall where
  Object : UVoxelDataAsset
  bAskForNewFileIfMissing : Bool
  deriving DecidableEq, Repr

namespace FAssetTypeActions_VoxelDataAsset

/-- Embedding of `CanExecuteReimport`: the loop returns `true` at the first
valid object whose source is MagicaVox or RawVox and `false` after the last
object. -/
def CanExecuteReimport : List (TWeakObjectPtr UVoxelDataAsset) → Bool
  | [] => false
  | Object :: Objects =>
    if Object.IsValid && (match Object.Get with
        | some Asset =>
          Asset.Source == EVoxelDataAssetImportSource.MagicaVox
            || Asset.Source == EVoxelDataAssetImportSource.RawVox
        | none => false) then
      true
    else
      CanExecuteReimport Objects

/-- Embedding of `ExecuteReimport`: the calls of `FReimportManager::Reimport`
issued by the loop, in the order they are issued. -/
def ExecuteReimport : List (TWeakObjectPtr UVoxelDataAsset) → List ReimportCall
  | [] => []
  | Object :: Objects =>
    (match Object.Get with
      | some Asset =>
        if Object.IsValid && (Asset.Source == EVoxelDataAssetImportSource.MagicaVox
            || Asset.Source == EVoxelDataAssetImportSource.RawVox) then
          [{ Object := Asset, bAskForNewFileIfMissing := true }]
        else
          []
      | none => []) ++ ExecuteReimport Objects

end FAssetTypeActions_VoxelDataAsset

/-- A weak reference is eligible for reimport when it is valid and its asset
was imported from MagicaVox or RawVox. -/
def ReimportEligible (Object : TWeakObjectPtr UVoxelDataAsset) : Prop :=
  ∃ Asset : UVoxelDataAsset, Object = some Asset ∧
    (Asset.Source = EVoxelDataAssetImportSource.MagicaVox
      ∨ Asset.Source = EVoxelDataAssetImportSource.RawVox)

/-- The eligible asset behind a weak reference, if any: the reading of the
reimport gate taken from the specification. -/
def eligibleAsset (Object : TWeakObjectPtr UVoxelDataAsset) : Option UVoxelDataAsset :=
  match Object with
  | some Asset =>
    match Asset.Source with
    | EVoxelDataAssetImportSource.MagicaVox => some Asset
    | EVoxelDataAssetImportSource.RawVox => some Asset
    | EVoxelDataAssetImportSource.Other _ => none
  | none => none


/-! ## Material collection data model -/

/-- Child entry of a collection element: an instance index, a material
instance and a physical material (member names as the element customization
reads them). Object references are kept by name, `none` being null. -/
structure FVoxelMaterialCollectionElementIndex where
  InstanceIndex : Nat
  MaterialInstance : Option FName
  PhysicalMaterial : Option FName
  deriving DecidableEq, Repr

/-- Element of a material collection: an index, a material function, a
physical material and the child entries. -/
structure FVoxelMaterialCollectionElement where
  Index : Nat
  MaterialFunction : Option FName
  PhysicalMaterial : Option FName
  Children : List FVoxelMaterialCollectionElementIndex
  deriving DecidableEq, Repr

/-- Material collection asset: its object name, the collection-level flag
hiding the physical materials, and its elements in order. -/
structure UVoxelMaterialCollection where
  Name : FName
  bHidePhysicalMaterials : Bool
  Materials : List FVoxelMaterialCollectionElement
  deriving DecidableEq, Repr

/-- Engine objects the editor glue can be handed: a material collection, a
voxel data asset, or an object of some other class. -/
inductive UObject
  | VoxelMaterialCollection (Collection : UVoxelMaterialCollection)
  | VoxelDataAsset (Asset : UVoxelDataAsset)
  | Other (ClassName : FName) (Name : FName)
  deriving DecidableEq, Repr

/-- Dynamic cast `Cast<UVoxelMaterialCollection>`: null for a null pointer
and for an object of another class. -/
def Cast_UVoxelMaterialCollection : Option UObject → Option UVoxelMaterialCollection
  | some (UObject.VoxelMaterialCollection Collection) => some Collection
  | _ => none

/-- Asserting cast `CastChecked<UVoxelMaterialCollection>`: the cast object,
or `none` when the assertion fails (null pointer or other class) and the
editor stops with a fatal error. -/
def CastChecked_UVoxelMaterialCollection : Option UObject → Option UVoxelMaterialCollection
  | some (UObject.VoxelMaterialCollection Collection) => some Collection
  | _ => none

/-! ## Dialogs, notifications and the material generation helper -/

/-- Kind of a modal message dialog; `Ok` and `YesNoCancel` are the kinds the
sources open. -/
inductive EAppMsgType
  | Ok
  | YesNoCancel
  | Other (tag : Nat)
  deriving DecidableEq, Repr

/-- Answer of a modal message dialog; `Yes`, `No` and `Cancel` are the answers
the sources name, every other engine value is `Other tag`. -/
inductive EAppReturnType
  | Yes
  | No
  | Cancel
  | Other (tag : Nat)
  deriving DecidableEq, Repr

/-- Notification toast, reduced to its text and its expiry duration in
seconds. -/
structure FNotificationInfo where
  Text : FText
  ExpireDuration : ℚ
  deriving DecidableEq

/-- Reply of a click handler. -/
inductive FReply
  | Handled
  | Unhandled
  deriving DecidableEq, Repr

/-- The three arities of material generation. -/
inductive EGenerateArity
  | Single
  | Double
  | Triple
  deriving DecidableEq, Repr

/-- What one call of a material generation helper leaves behind: the boolean
it returns, the content of the `OutError` string after the call, and the
collection object after the call. -/
structure FGenerateOutcome where
  Result : Bool
  OutError : FString
  Collection : Option UVoxelMaterialCollection
  deriving DecidableEq, Repr

/-- The external helper `FVoxelMaterialCollectionHelpers`, whose body is
outside the sources: each function is given the collection pointer and the
content of the error string on entry. -/
structure FVoxelMaterialCollectionHelpers where
  GenerateSingleMaterials : Option UVoxelMaterialCollection → FString → FGenerateOutcome
  GenerateDoubleMaterials : Option UVoxelMaterialCollection → FString → FGenerateOutcome
  GenerateTripleMaterials : Option UVoxelMaterialCollection → FString → FGenerateOutcome

/-- Calls a click handler makes, in the order it makes them. -/
inductive FHostCall
  | MessageDialog_Open (MessageType : EAppMsgType) (Message : FText)
  | GenerateMaterials (Arity : EGenerateArity) (Collection : Option UVoxelMaterialCollection)
  | AddNotification (Info : FNotificationInfo)
  deriving DecidableEq

/-- Whether a call is a call of the material generation helper. -/
def FHostCall.isGenerate : FHostCall → Bool
  | FHostCall.GenerateMaterials _ _ => true
  | _ => false

/-- Whether a call opens an OK-only modal dialog. -/
def FHostCall.isOkDialog : FHostCall → Bool
  | FHostCall.MessageDialog_Open EAppMsgType.Ok _ => true
  | _ => false

/-- Whether a call opens a modal dialog of any kind. -/
def FHostCall.isDialog : FHostCall → Bool
  | FHostCall.MessageDialog_Open _ _ => true
  | _ => false

/-- Whether a call adds a notification. -/
def FHostCall.isNotification : FHostCall → Bool
  | FHostCall.AddNotification _ => true
  | _ => false

/-! ## Details customization of the material collection -/

/-- The member functions a button can be bound to. -/
inductive EOnClicked
  | OnGenerateSingleMaterials
  | OnGenerateDoubleMaterials
  | OnGenerateTripleMaterials
  deriving DecidableEq, Repr

/-- One call of `FVoxelEditorUtilities::AddButtonToCategory`, argument by
argument. -/
structure FButtonRow where
  CategoryName : FName
  FilterString : FText
  TextLeftToButton : FText
  ButtonText : FText
  bForAdvanced : Bool
  OnClicked : EOnClicked
  deriving DecidableEq, Repr

/-- Detail layout builder: the objects being customized and the buttons
added so far, in order. -/
structure IDetailLayoutBuilder where
  ObjectsBeingCustomized : List (TWeakObjectPtr UObject)
  Buttons : List FButtonRow
  deriving DecidableEq, Repr

/-- The utility `FVoxelEditorUtilities::AddButtonToCategory` is outside the
sources; its call is recorded as one more button of the layout. -/
def FVoxelEditorUtilities.AddButtonToCategory (DetailLayout : IDetailLayoutBuilder)
    (CategoryName : FName) (FilterString TextLeftToButton ButtonText : FText)
    (bForAdvanced : Bool) (OnClicked : EOnClicked) : IDetailLayoutBuilder :=
  { DetailLayout with
    Buttons := DetailLayout.Buttons ++
      [{ CategoryName := CategoryName, FilterString := FilterString,
         TextLeftToButton := TextLeftToButton, ButtonText := ButtonText,
         bForAdvanced := bForAdvanced, OnClicked := OnClicked }] }

/-- State of `FVoxelMaterialCollectionDetails`: the weak pointer to the
customized collection. -/
structure FVoxelMaterialCollectionDetails where
  Collection : TWeakObjectPtr UVoxelMaterialCollection
  deriving DecidableEq, Repr

/-- Outcome of one click: the reply, the calls made, and the details object
with its collection as the helper left it. -/
structure FClickRun where
  Reply : FReply
  Calls : List FHostCall
  Details : FVoxelMaterialCollectionDetails

namespace FVoxelMaterialCollectionDetails

/-- Embedding of the constructor: the collection pointer starts null. -/
def MakeInstance : FVoxelMaterialCollectionDetails :=
  { Collection := none }

/-- Embedding of `CustomizeDetails`. The result is `none` when the
`CastChecked` assertion fails; otherwise it is the details object and the
layout after the call. -/
def CustomizeDetails (this : FVoxelMaterialCollectionDetails)
    (DetailLayout : IDetailLayoutBuilder) :
    Option (FVoxelMaterialCollectionDetails × IDetailLayoutBuilder) :=
  let Objects := DetailLayout.ObjectsBeingCustomized
  if Objects.length != 1 then
    some (this, DetailLayout)
  else
    match CastChecked_UVoxelMaterialCollection (Objects.head?.bind TWeakObjectPtr.Get) with
    | none => none
    | some Collection =>
      let this := { this with Collection := some Collection }
      let DetailLayout := FVoxelEditorUtilities.AddButtonToCategory DetailLayout
        "Generate" "Generate Single" "Generate Single Materials" "Generate Single"
        false EOnClicked.OnGenerateSingleMaterials
      let DetailLayout := FVoxelEditorUtilities.AddButtonToCategory DetailLayout
        "Generate" "Generate Double" "Generate Double Materials" "Generate Double"
        false EOnClicked.OnGenerateDoubleMaterials
      let DetailLayout := FVoxelEditorUtilities.AddButtonToCategory DetailLayout
        "Generate" "Generate Triple" "Generate Triple Materials" "Generate Triple"
        false EOnClicked.OnGenerateTripleMaterials
      some (this, DetailLayout)

/-- Embedding of `OnGenerateSingleMaterials`. -/
def OnGenerateSingleMaterials (Helpers : FVoxelMaterialCollectionHelpers)
    (this : FVoxelMaterialCollectionDetails) : FClickRun :=
  let Error : FString := ""
  let Outcome := Helpers.GenerateSingleMaterials this.Collection.Get Error
  let Called := FHostCall.GenerateMaterials EGenerateArity.Single this.Collection.Get
  let this := { this with Collection := Outcome.Collection }
  let Error := Outcome.OutError
  if Outcome.Result then
    let Info : FNotificationInfo := { Text := "Success", ExpireDuration := 5 }
    { Reply := FReply.Handled, Calls := [Called, FHostCall.AddNotification Info],
      Details := this }
  else
    { Reply := FReply.Handled,
      Calls := [Called, FHostCall.MessageDialog_Open EAppMsgType.Ok Error],
      Details := this }

/-- Embedding of `OnGenerateDoubleMaterials`. -/
def OnGenerateDoubleMaterials (Helpers : FVoxelMaterialCollectionHelpers)
    (this : FVoxelMaterialCollectionDetails) : FClickRun :=
  let Error : FString := ""
  let Outcome := Helpers.GenerateDoubleMaterials this.Collection.Get Error
  let Called := FHostCall.GenerateMaterials EGenerateArity.Double this.Collection.Get
  let this := { this with Collection := Outcome.Collection }
  let Error := Outcome.OutError
  if Outcome.Result then
    let Info : FNotificationInfo := { Text := "Success", ExpireDuration := 5 }
    { Reply := FReply.Handled, Calls := [Called, FHostCall.AddNotification Info],
      Details := this }
  else
    { Reply := FReply.Handled,
      Calls := [Called, FHostCall.MessageDialog_Open EAppMsgType.Ok Error],
      Details := this }

/-- Text of the confirmation asked before triple materials are generated. -/
def ThisWillTakeAWhile : FText :=
  "This will take a while! Triple materials are only needed when 3 different materials are on a same triangle, which is really rare. You don't need them to test your materials. Do you want to continue?"

/-- Embedding of `OnGenerateTripleMaterials`. `Open` is the modal dialog of
the host: given the kind and the text of a dialog it returns the answer of
the user. The `switch` names `Yes`, `No` and `Cancel` and has no default, so
every other answer falls through to the generation. -/
def OnGenerateTripleMaterials (Helpers : FVoxelMaterialCollectionHelpers)
    (Open : EAppMsgType → FText → EAppReturnType)
    (this : FVoxelMaterialCollectionDetails) : FClickRun :=
  let ThisWillTakeAWhileValue := Open EAppMsgType.YesNoCancel ThisWillTakeAWhile
  let Asked := FHostCall.MessageDialog_Open EAppMsgType.YesNoCancel ThisWillTakeAWhile
  match ThisWillTakeAWhileValue with
  | EAppReturnType.No => { Reply := FReply.Handled, Calls := [Asked], Details := this }
  | EAppReturnType.Cancel => { Reply := FReply.Handled, Calls := [Asked], Details := this }
  | _ =>
    let Error : FString := ""
    let Outcome := Helpers.GenerateTripleMaterials this.Collection.Get Error
    let Called := FHostCall.GenerateMaterials EGenerateArity.Triple this.Collection.Get
    let this := { this with Collection := Outcome.Collection }
    let Error := Outcome.OutError
    if Outcome.Result then
      let Info : FNotificationInfo := { Text := "Success", ExpireDuration := 5 }
      { Reply := FReply.Handled, Calls := [Asked, Called, FHostCall.AddNotification Info],
        Details := this }
    else
      { Reply := FReply.Handled,
        Calls := [Asked, Called, FHostCall.MessageDialog_Open EAppMsgType.Ok Error],
        Details := this }

end FVoxelMaterialCollectionDetails

/-! ## Property customization of a collection element -/

/-- Property handle on a collection element: the element it points at and the
outer objects that own it. -/
structure IPropertyHandle where
  OuterObjects : List (Option UObject)
  Value : FVoxelMaterialCollectionElement
  deriving DecidableEq, Repr

/-- Child handles the customization creates value widgets for: the members of
the element itself, and the members of the child entry at an array index. -/
inductive EChildHandle
  | Index
  | MaterialFunction
  | PhysicalMaterial
  | Children
  | InstanceIndex (ArrayIndex : Nat)
  | MaterialInstance (ArrayIndex : Nat)
  | ChildPhysicalMaterial (ArrayIndex : Nat)
  deriving DecidableEq, Repr

/-- Member functions a visibility attribute is bound to. -/
inductive EVisibilityGetter
  | NoChildrenOnlyVisibility
  | NoChildrenOnlyPhysicalMaterialsVisibility
  | PhysicalMaterialsVisibility
  deriving DecidableEq, Repr

/-- Member functions a max-height attribute is bound to. -/
inductive EMaxHeightGetter
  | NoChildrenOnlyPhysicalMaterialsMaxHeight
  | PhysicalMaterialsMaxHeight
  deriving DecidableEq, Repr

/-- Operations of the array handle behind the children of an element. -/
inductive EArrayCall
  | Insert (Index : Nat)
  | DeleteItem (Index : Nat)
  | DuplicateItem (Index : Nat)
  deriving DecidableEq, Repr

/-- The slot holding a physical-material value widget: the getter bound to
the slot's max height, the getter bound to the visibility of the box inside
it, and the handle whose value widget the box shows. -/
structure FPhysicalMaterialSlot where
  MaxHeight : EMaxHeightGetter
  Visibility : EVisibilityGetter
  Content : EChildHandle
  deriving DecidableEq, Repr

/-- Header row built by `CustomizeHeader`: the index widget with the getter
bound to its visibility, the material widget, and the physical-material
slot. -/
structure FHeaderRow where
  IndexWidget : EChildHandle
  IndexVisibility : EVisibilityGetter
  MaterialWidget : EChildHandle
  PhysicalMaterial : FPhysicalMaterialSlot
  deriving DecidableEq, Repr

/-- Child row built by `GenerateArrayElementWidget`: the index widget, the
material instance widget, the physical-material slot, the handle whose array
the three buttons call into, and the calls behind the insert, delete and
duplicate buttons. -/
structure FChildRow where
  IndexWidget : EChildHandle
  InstanceWidget : EChildHandle
  PhysicalMaterial : FPhysicalMaterialSlot
  ArrayHandle : EChildHandle
  InsertAction : EArrayCall
  DeleteAction : EArrayCall
  DuplicateAction : EArrayCall
  deriving DecidableEq, Repr

/-- State of `FVoxelMaterialCollectionElementCustomization`: the property
handle of the element and the outer objects read from it. The child handles
(`IndexHandle`, `MaterialHandle`, `PhysicalMaterialHandle`, `ChildrenHandle`)
are views into `PropertyHandle` and are not stored separately. -/
structure FVoxelMaterialCollectionElementCustomization where
  PropertyHandle : IPropertyHandle
  Outers : List (Option UObject)
  deriving DecidableEq, Repr

namespace FVoxelMaterialCollectionElementCustomization

/-- Loop of `ArePhysicalMaterialsHidden` over the outer objects: `true` at the
first outer that casts to a collection with the hide flag set. -/
def ArePhysicalMaterialsHidden_loop : List (Option UObject) → Bool
  | [] => false
  | Outer :: Outers =>
    match Cast_UVoxelMaterialCollection Outer with
    | some Collection =>
      if Collection.bHidePhysicalMaterials then true
      else ArePhysicalMaterialsHidden_loop Outers
    | none => ArePhysicalMaterialsHidden_loop Outers

/-- Embedding of `ArePhysicalMaterialsHidden`. -/
def ArePhysicalMaterialsHidden (this : FVoxelMaterialCollectionElementCustomization) : Bool :=
  ArePhysicalMaterialsHidden_loop this.Outers

/-- Embedding of `HasChildren`: the number of elements of the children array
is read through the array handle and compared with zero (an engine array
holds fewer than `2^31` elements, so the `uint32` holds the length). -/
def HasChildren (this : FVoxelMaterialCollectionElementCustomization) : Bool :=
  let Num : Nat := this.PropertyHandle.Value.Children.length
  decide (Num > 0)

/-- Embedding of `CustomizeHeader`: stores the handle and its outer objects
and builds the header row. -/
def CustomizeHeader (InPropertyHandle : IPropertyHandle) :
    FVoxelMaterialCollectionElementCustomization × FHeaderRow :=
  ({ PropertyHandle := InPropertyHandle, Outers := InPropertyHandle.OuterObjects },
   { IndexWidget := EChildHandle.Index,
     IndexVisibility := EVisibilityGetter.NoChildrenOnlyVisibility,
     MaterialWidget := EChildHandle.MaterialFunction,
     PhysicalMaterial :=
       { MaxHeight := EMaxHeightGetter.NoChildrenOnlyPhysicalMaterialsMaxHeight,
         Visibility := EVisibilityGetter.NoChildrenOnlyPhysicalMaterialsVisibility,
         Content := EChildHandle.PhysicalMaterial } })

/-- Embedding of `GenerateArrayElementWidget` for the child at `ArrayIndex`:
the custom row added to the children builder. -/
def GenerateArrayElementWidget (ArrayIndex : Nat) : FChildRow :=
  { IndexWidget := EChildHandle.InstanceIndex ArrayIndex,
    InstanceWidget := EChildHandle.MaterialInstance ArrayIndex,
    PhysicalMaterial :=
      { MaxHeight := EMaxHeightGetter.PhysicalMaterialsMaxHeight,
        Visibility := EVisibilityGetter.PhysicalMaterialsVisibility,
        Content := EChildHandle.ChildPhysicalMaterial ArrayIndex },
    ArrayHandle := EChildHandle.Children,
    InsertAction := EArrayCall.Insert ArrayIndex,
    DeleteAction := EArrayCall.DeleteItem ArrayIndex,
    DuplicateAction := EArrayCall.DuplicateItem ArrayIndex }

/-- Embedding of `CustomizeChildren`: the array builder over the children
handle generates one row per element of the children array, in order. -/
def CustomizeChildren (this : FVoxelMaterialCollectionElementCustomization) : List FChildRow :=
  (List.range this.PropertyHandle.Value.Children.length).map GenerateArrayElementWidget

end FVoxelMaterialCollectionElementCustomization

/-! ## Editor module: retoggle command -/

/-- Type of a world; `Editor` and `EditorPreview` are the two values the
sources name, every other engine value is `Other tag`. -/
inductive EWorldType
  | Editor
  | EditorPreview
  | Other (tag : Nat)
  deriving DecidableEq, Repr

/-- Voxel world actor: whether it is created, and the object behind its world
generator picker (null when none), by name. -/
structure AVoxelWorld where
  bIsCreated : Bool
  WorldGenerator : Option FName
  deriving DecidableEq, Repr

/-- Voxel asset actor. -/
structure AVoxelAssetActor where
  Name : FName
  deriving DecidableEq, Repr

/-- World: its type and its actors of the two iterated classes, in iteration
order. -/
structure UWorld where
  WorldType : EWorldType
  VoxelWorlds : List AVoxelWorld
  VoxelAssetActors : List AVoxelAssetActor
  deriving DecidableEq, Repr

/-- Viewport client: its world, possibly null. -/
structure FViewportClient where
  World : Option UWorld
  deriving DecidableEq, Repr

/-- Viewport: its client, possibly null. -/
structure FViewport where
  Client : Option FViewportClient
  deriving DecidableEq, Repr

/-- Calls made on actors; an actor is named by its position in the iteration
over its class. -/
inductive FActorCall
  | Toggle (VoxelWorld : Nat)
  | UpdatePreview (AssetActor : Nat)
  deriving DecidableEq, Repr

/-- First loop of `RefreshVoxelWorlds_Execute`, from iteration position `It`
on. -/
def RefreshVoxelWorlds_Execute_VoxelWorlds (MatchingGenerator : Option FName) :
    Nat → List AVoxelWorld → List FActorCall
  | _, [] => []
  | It, Actor :: Actors =>
    (if Actor.bIsCreated
        && (MatchingGenerator.isNone || Actor.WorldGenerator == MatchingGenerator) then
      [FActorCall.Toggle It, FActorCall.Toggle It]
    else
      []) ++ RefreshVoxelWorlds_Execute_VoxelWorlds MatchingGenerator (It + 1) Actors

/-- Second loop of `RefreshVoxelWorlds_Execute`, from iteration position `It`
on. -/
def RefreshVoxelWorlds_Execute_AssetActors : Nat → List AVoxelAssetActor → List FActorCall
  | _, [] => []
  | It, _ :: Actors =>
    FActorCall.UpdatePreview It :: RefreshVoxelWorlds_Execute_AssetActors (It + 1) Actors

/-- Embedding of `RefreshVoxelWorlds_Execute`. `ActiveViewport` is what
`GEditor->GetActiveViewport()` returns; the result is the calls made on the
actors, in order. -/
def RefreshVoxelWorlds_Execute (ActiveViewport : Option FViewport)
    (MatchingGenerator : Option FName) : List FActorCall :=
  match ActiveViewport with
  | none => []
  | some Viewport =>
    match Viewport.Client with
    | none => []
    | some Client =>
      match Client.World with
      | none => []
      | some World =>
        if World.WorldType == EWorldType.Editor
            || World.WorldType == EWorldType.EditorPreview then
          RefreshVoxelWorlds_Execute_VoxelWorlds MatchingGenerator 0 World.VoxelWorlds
            ++ RefreshVoxelWorlds_Execute_AssetActors 0 World.VoxelAssetActors
        else
          []

/-! ## Editor module: editor delegates -/

/-- The five multicast delegates `BindEditorDelegates` binds to; each is the
list of objects its weak-lambda bindings are tied to, in binding order. -/
structure FEditorDelegates where
  PreSaveWorld : List FName
  PreBeginPIE : List FName
  EndPIE : List FName
  PrepareToCleanseEditorObject : List FName
  OnPreExit : List FName
  deriving DecidableEq, Repr

/-- Whether a delegate holds a binding tied to the object. -/
def IsBoundToObject (Delegate : List FName) (Object : FName) : Bool :=
  Delegate.contains Object

/-- Adds a weak-lambda binding tied to the object. -/
def AddWeakLambda (Delegate : List FName) (Object : FName) : List FName :=
  Delegate ++ [Object]

/-- Embedding of `BindEditorDelegates`; `none` when the `check` on the two
pointers fails. -/
def BindEditorDelegates (Interface Object : Option FName) (Delegates : FEditorDelegates) :
    Option FEditorDelegates :=
  match Interface, Object with
  | some _, some Object =>
    let Delegates :=
      if !IsBoundToObject Delegates.PreSaveWorld Object then
        { Delegates with PreSaveWorld := AddWeakLambda Delegates.PreSaveWorld Object }
      else Delegates
    let Delegates :=
      if !IsBoundToObject Delegates.PreBeginPIE Object then
        { Delegates with PreBeginPIE := AddWeakLambda Delegates.PreBeginPIE Object }
      else Delegates
    let Delegates :=
      if !IsBoundToObject Delegates.EndPIE Object then
        { Delegates with EndPIE := AddWeakLambda Delegates.EndPIE Object }
      else Delegates
    let Delegates :=
      if !IsBoundToObject Delegates.PrepareToCleanseEditorObject Object then
        { Delegates with
          PrepareToCleanseEditorObject :=
            AddWeakLambda Delegates.PrepareToCleanseEditorObject Object }
      else Delegates
    let Delegates :=
      if !IsBoundToObject Delegates.OnPreExit Object then
        { Delegates with OnPreExit := AddWeakLambda Delegates.OnPreExit Object }
      else Delegates
    some Delegates
  | _, _ => none

/-! ## Editor module: the host registries

The registries belong to the engine. Each one is kept as the list of its
entries in registration order: registering appends an entry, unregistering a
key removes every entry under that key. Every call the module makes is also
appended to a call log. -/

/-- Asset type actions object: the action class it is an instance of and the
asset category it was constructed with. -/
structure FAssetTypeActions where
  ActionClass : FName
  AssetCategory : Nat
  deriving DecidableEq, Repr

/-- Placeable item: its actor factory (null when none) and the class of the
asset data it wraps. -/
structure FPlaceableItem where
  Factory : Option FName
  AssetClass : FName
  deriving DecidableEq, Repr

/-- Placement category description. -/
structure FPlacementCategoryInfo where
  DisplayName : FText
  UniqueHandle : FName
  TagMetaData : FString
  SortOrder : Int
  deriving DecidableEq, Repr

/-- Registered placement category with its items. -/
structure FPlacementCategory where
  Info : FPlacementCategoryInfo
  Items : List FPlaceableItem
  deriving DecidableEq, Repr

/-- Where the image of a brush is found: under the content directory of the
Voxel plugin, or under the content root of the style set. -/
inductive FBrushImage
  | ContentDir (RelativePath : FString)
  | RootToContentDir (RelativePath : FString)
  deriving DecidableEq, Repr

/-- Image brush: its image and its size (icons are square, the side is
kept). -/
structure FSlateImageBrush where
  Image : FBrushImage
  ImageSize : Nat
  deriving DecidableEq, Repr

/-- Slate style set: its name, its content roots relative to the engine
content directory, and its brushes by property name in the order they are
set. -/
structure FSlateStyleSet where
  StyleSetName : FName
  ContentRoot : FString
  CoreContentRoot : FString
  Brushes : List (FName × FSlateImageBrush)
  deriving DecidableEq, Repr

/-- Registered editor mode: display name, icon (style set, name, small name)
and visibility, under its mode identifier. -/
structure FEditorModeInfo where
  Name : FText
  IconStyleSet : FName
  IconName : FName
  IconSmallName : FName
  bVisible : Bool
  deriving DecidableEq, Repr

/-- Options of a message log listing. -/
structure FMessageLogInitializationOptions where
  bShowFilters : Bool
  bShowPages : Bool
  bAllowClear : Bool
  deriving DecidableEq, Repr

/-- Action mapped into the global level editor actions: the command, and the
generator argument the bound `RefreshVoxelWorlds_Execute` is called with. -/
structure FMappedAction where
  Command : FName
  MatchingGenerator : Option FName
  deriving DecidableEq, Repr

/-- Calls the module makes on the host, argument by argument where the
arguments identify what is registered. -/
inductive FModuleCall
  | OnPostReimport_AddLambda
  | Commands_Register (ContextName : FName)
  | MapAction (Command : FName)
  | BindEditorDelegatesDelegate_AddStatic
  | LogMessageDelegate_AddStatic
  | ShowNotificationDelegate_AddStatic
  | RegisterLogListing (LogName : FName)
  | RegisterAdvancedAssetCategory (CategoryKey : FName)
  | RegisterPlacementCategory (UniqueHandle : FName)
  | RegisterPlaceableItem (UniqueHandle : FName) (AssetClass : FName)
  | RegenerateItemsForCategory (Category : FName)
  | UnregisterPlacementCategory (UniqueHandle : FName)
  | RegisterCustomClassLayout (Name : FName) (Customization : FName)
  | RegisterCustomPropertyTypeLayout (Name : FName) (Customization : FName)
  | NotifyCustomizationModuleChanged
  | UnregisterCustomClassLayout (Name : FName)
  | UnregisterCustomPropertyTypeLayout (Name : FName)
  | RegisterAssetTypeActions (Action : FAssetTypeActions)
  | UnregisterAssetTypeActions (Action : FAssetTypeActions)
  | RegisterCustomRenderer (AssetClass : FName) (RendererClass : FName)
  | UnregisterCustomRenderer (AssetClass : FName)
  | RegisterSlateStyle (StyleSetName : FName)
  | UnRegisterSlateStyle (StyleSetName : FName)
  | RegisterMode (ModeID : FName)
  | UnregisterMode (ModeID : FName)
  deriving DecidableEq, Repr

/-- Registers an entry under a key. -/
def RegistryAdd {ν : Type} (Registry : List (FName × ν)) (Key : FName) (Value : ν) :
    List (FName × ν) :=
  Registry ++ [(Key, Value)]

/-- Removes every entry under a key. -/
def RegistryRemove {ν : Type} (Registry : List (FName × ν)) (Key : FName) :
    List (FName × ν) :=
  Registry.filter (fun Entry => Entry.1 != Key)

/-- Removes every placement category with the given handle. -/
def CategoriesRemove (Categories : List FPlacementCategory) (UniqueHandle : FName) :
    List FPlacementCategory :=
  Categories.filter (fun Category => Category.Info.UniqueHandle != UniqueHandle)

/-- Removes every occurrence of an asset type actions object. -/
def ActionsRemove (Actions : List FAssetTypeActions) (Action : FAssetTypeActions) :
    List FAssetTypeActions :=
  Actions.filter (fun Registered => Registered != Action)

/-- The host as the module sees it: which engine modules are loaded, whether
the object system is initialised, the registries, and the log of the calls
made by the module. -/
structure FVoxelHost where
  bUObjectInitialized : Bool
  bPlacementModeLoaded : Bool
  bPropertyEditorLoaded : Bool
  bAssetToolsLoaded : Bool
  bLevelEditorLoaded : Bool
  bMessageLogLoaded : Bool
  PostReimport : List FName
  CommandContexts : List FName
  GlobalLevelEditorActions : List FMappedAction
  BindEditorDelegatesDelegate : List FName
  LogMessageDelegate : List FName
  ShowNotificationDelegate : List FName
  LogListings : List (FName × FMessageLogInitializationOptions)
  AdvancedAssetCategories : List (FName × Nat)
  NextAssetCategoryBit : Nat
  PlacementCategories : List FPlacementCategory
  ClassLayouts : List (FName × FName)
  PropertyLayouts : List (FName × FName)
  AssetTypeActions : List FAssetTypeActions
  ThumbnailRenderers : List (FName × FName)
  SlateStyles : List (FName × FSlateStyleSet)
  EditorModes : List (FName × FEditorModeInfo)
  CallLog : List FModuleCall
  deriving DecidableEq, Repr

/-- Engine modules the voxel editor module loads or looks up by name. -/
inductive EHostModule
  | LevelEditor
  | MessageLog
  | AssetTools
  | PropertyEditor
  | PlacementMode
  deriving DecidableEq, Repr

namespace FVoxelHost

/-- Host call `FModuleManager::LoadModuleChecked`: the module is loaded from
then on. -/
def LoadModuleChecked (Host : FVoxelHost) : EHostModule → FVoxelHost
  | EHostModule.LevelEditor => { Host with bLevelEditorLoaded := true }
  | EHostModule.MessageLog => { Host with bMessageLogLoaded := true }
  | EHostModule.AssetTools => { Host with bAssetToolsLoaded := true }
  | EHostModule.PropertyEditor => { Host with bPropertyEditorLoaded := true }
  | EHostModule.PlacementMode => { Host with bPlacementModeLoaded := true }

/-- Host call `FModuleManager::GetModulePtr` (and `IsAvailable`): whether the
module is loaded. -/
def IsModuleLoaded (Host : FVoxelHost) : EHostModule → Bool
  | EHostModule.LevelEditor => Host.bLevelEditorLoaded
  | EHostModule.MessageLog => Host.bMessageLogLoaded
  | EHostModule.AssetTools => Host.bAssetToolsLoaded
  | EHostModule.PropertyEditor => Host.bPropertyEditorLoaded
  | EHostModule.PlacementMode => Host.bPlacementModeLoaded

/-- Call `BindEditorDelegatesDelegate.AddStatic` on the delegate of the voxel
runtime. -/
@[simps]
def BindEditorDelegatesDelegate_AddStatic (Host : FVoxelHost) (Function : FName) : FVoxelHost :=
  { Host with
    BindEditorDelegatesDelegate := Host.BindEditorDelegatesDelegate ++ [Function],
    CallLog := Host.CallLog ++ [FModuleCall.BindEditorDelegatesDelegate_AddStatic] }

/-- Call `LogMessageDelegate.AddStatic` on the delegate of the voxel runtime. -/
@[simps]
def LogMessageDelegate_AddStatic (Host : FVoxelHost) (Function : FName) : FVoxelHost :=
  { Host with
    LogMessageDelegate := Host.LogMessageDelegate ++ [Function],
    CallLog := Host.CallLog ++ [FModuleCall.LogMessageDelegate_AddStatic] }

/-- Call `ShowNotificationDelegate.AddStatic` on the delegate of the voxel
runtime. -/
@[simps]
def ShowNotificationDelegate_AddStatic (Host : FVoxelHost) (Function : FName) : FVoxelHost :=
  { Host with
    ShowNotificationDelegate := Host.ShowNotificationDelegate ++ [Function],
    CallLog := Host.CallLog ++ [FModuleCall.ShowNotificationDelegate_AddStatic] }

/-- Host call `FReimportManager::OnPostReimport().AddLambda`. -/
@[simps]
def OnPostReimport_AddLambda (Host : FVoxelHost) (Lambda : FName) : FVoxelHost :=
  { Host with
    PostReimport := Host.PostReimport ++ [Lambda],
    CallLog := Host.CallLog ++ [FModuleCall.OnPostReimport_AddLambda] }

/-- Host call `TCommands::Register`: the command context is created and
registered unless it already is. -/
@[simps]
def Commands_Register (Host : FVoxelHost) (ContextName : FName) : FVoxelHost :=
  { Host with
    CommandContexts :=
      if Host.CommandContexts.contains ContextName then Host.CommandContexts
      else Host.CommandContexts ++ [ContextName],
    CallLog := Host.CallLog ++ [FModuleCall.Commands_Register ContextName] }

/-- Host call `FUICommandList::MapAction` on the global level editor actions. -/
@[simps]
def MapAction (Host : FVoxelHost) (Action : FMappedAction) : FVoxelHost :=
  { Host with
    GlobalLevelEditorActions := Host.GlobalLevelEditorActions ++ [Action],
    CallLog := Host.CallLog ++ [FModuleCall.MapAction Action.Command] }

/-- Host call `RegisterLogListing` of the message log module. -/
@[simps]
def RegisterLogListing (Host : FVoxelHost) (LogName : FName)
    (InitOptions : FMessageLogInitializationOptions) : FVoxelHost :=
  { Host with
    LogListings := RegistryAdd Host.LogListings LogName InitOptions,
    CallLog := Host.CallLog ++ [FModuleCall.RegisterLogListing LogName] }

/-- Host call `RegisterAdvancedAssetCategory`: the bit already allocated to
the key, or else the next free bit, which is then allocated to the key. -/
def RegisterAdvancedAssetCategory (Host : FVoxelHost) (CategoryKey : FName) :
    Nat × FVoxelHost :=
  ((Host.AdvancedAssetCategories.lookup CategoryKey).getD Host.NextAssetCategoryBit,
    { Host with
      AdvancedAssetCategories :=
        match Host.AdvancedAssetCategories.lookup CategoryKey with
        | some _ => Host.AdvancedAssetCategories
        | none => RegistryAdd Host.AdvancedAssetCategories CategoryKey Host.NextAssetCategoryBit,
      NextAssetCategoryBit :=
        match Host.AdvancedAssetCategories.lookup CategoryKey with
        | some _ => Host.NextAssetCategoryBit
        | none => 2 * Host.NextAssetCategoryBit,
      CallLog := Host.CallLog ++ [FModuleCall.RegisterAdvancedAssetCategory CategoryKey] })

/-- Host call `RegisterPlacementCategory`: the category is added unless one
with the same handle exists. -/
@[simps]
def RegisterPlacementCategory (Host : FVoxelHost) (Info : FPlacementCategoryInfo) :
    FVoxelHost :=
  { Host with
    PlacementCategories :=
      if Host.PlacementCategories.any (fun Category => Category.Info.UniqueHandle
          == Info.UniqueHandle) then Host.PlacementCategories
      else Host.PlacementCategories ++ [{ Info := Info, Items := [] }],
    CallLog := Host.CallLog ++ [FModuleCall.RegisterPlacementCategory Info.UniqueHandle] }

/-- Host call `RegisterPlaceableItem`: the item is added to the category with
the given handle. -/
@[simps]
def RegisterPlaceableItem (Host : FVoxelHost) (UniqueHandle : FName) (Item : FPlaceableItem) :
    FVoxelHost :=
  { Host with
    PlacementCategories := Host.PlacementCategories.map (fun Category =>
          if Category.Info.UniqueHandle == UniqueHandle then
            { Category with Items := Category.Items ++ [Item] }
          else Category),
    CallLog := Host.CallLog ++ [FModuleCall.RegisterPlaceableItem UniqueHandle Item.AssetClass] }

/-- Host call `RegenerateItemsForCategory`: a refresh, no registry changes. -/
@[simps]
def RegenerateItemsForCategory (Host : FVoxelHost) (Category : FName) : FVoxelHost :=
  { Host with CallLog := Host.CallLog ++ [FModuleCall.RegenerateItemsForCategory Category] }

/-- Host call `UnregisterPlacementCategory`. -/
@[simps]
def UnregisterPlacementCategory (Host : FVoxelHost) (UniqueHandle : FName) : FVoxelHost :=
  { Host with
    PlacementCategories := CategoriesRemove Host.PlacementCategories UniqueHandle,
    CallLog := Host.CallLog ++ [FModuleCall.UnregisterPlacementCategory UniqueHandle] }

/-- Host call `RegisterCustomClassLayout` of the property editor module. -/
@[simps]
def RegisterCustomClassLayout (Host : FVoxelHost) (Name Customization : FName) : FVoxelHost :=
  { Host with
    ClassLayouts := RegistryAdd Host.ClassLayouts Name Customization,
    CallLog := Host.CallLog ++ [FModuleCall.RegisterCustomClassLayout Name Customization] }

/-- Host call `RegisterCustomPropertyTypeLayout` of the property editor
module. -/
@[simps]
def RegisterCustomPropertyTypeLayout (Host : FVoxelHost) (Name Customization : FName) :
    FVoxelHost :=
  { Host with
    PropertyLayouts := RegistryAdd Host.PropertyLayouts Name Customization,
    CallLog := Host.CallLog ++ [FModuleCall.RegisterCustomPropertyTypeLayout Name Customization] }

/-- Host call `NotifyCustomizationModuleChanged`: a refresh, no registry
changes. -/
@[simps]
def NotifyCustomizationModuleChanged (Host : FVoxelHost) : FVoxelHost :=
  { Host with CallLog := Host.CallLog ++ [FModuleCall.NotifyCustomizationModuleChanged] }

/-- Host call `UnregisterCustomClassLayout`. -/
@[simps]
def UnregisterCustomClassLayout (Host : FVoxelHost) (Name : FName) : FVoxelHost :=
  { Host with
    ClassLayouts := RegistryRemove Host.ClassLayouts Name,
    CallLog := Host.CallLog ++ [FModuleCall.UnregisterCustomClassLayout Name] }

/-- Host call `UnregisterCustomPropertyTypeLayout`. -/
@[simps]
def UnregisterCustomPropertyTypeLayout (Host : FVoxelHost) (Name : FName) : FVoxelHost :=
  { Host with
    PropertyLayouts := RegistryRemove Host.PropertyLayouts Name,
    CallLog := Host.CallLog ++ [FModuleCall.UnregisterCustomPropertyTypeLayout Name] }

/-- Host call `RegisterAssetTypeActions` of the asset tools. -/
@[simps]
def RegisterAssetTypeActions (Host : FVoxelHost) (Action : FAssetTypeActions) : FVoxelHost :=
  { Host with
    AssetTypeActions := Host.AssetTypeActions ++ [Action],
    CallLog := Host.CallLog ++ [FModuleCall.RegisterAssetTypeActions Action] }

/-- Host call `UnregisterAssetTypeActions` of the asset tools. -/
@[simps]
def UnregisterAssetTypeActions (Host : FVoxelHost) (Action : FAssetTypeActions) : FVoxelHost :=
  { Host with
    AssetTypeActions := ActionsRemove Host.AssetTypeActions Action,
    CallLog := Host.CallLog ++ [FModuleCall.UnregisterAssetTypeActions Action] }

/-- Host call `RegisterCustomRenderer` of the thumbnail manager. -/
@[simps]
def RegisterCustomRenderer (Host : FVoxelHost) (AssetClass RendererClass : FName) : FVoxelHost :=
  { Host with
    ThumbnailRenderers := RegistryAdd Host.ThumbnailRenderers AssetClass RendererClass,
    CallLog := Host.CallLog ++ [FModuleCall.RegisterCustomRenderer AssetClass RendererClass] }

/-- Host call `UnregisterCustomRenderer` of the thumbnail manager. -/
@[simps]
def UnregisterCustomRenderer (Host : FVoxelHost) (AssetClass : FName) : FVoxelHost :=
  { Host with
    ThumbnailRenderers := RegistryRemove Host.ThumbnailRenderers AssetClass,
    CallLog := Host.CallLog ++ [FModuleCall.UnregisterCustomRenderer AssetClass] }

/-- Host call `FSlateStyleRegistry::RegisterSlateStyle`. -/
@[simps]
def RegisterSlateStyle (Host : FVoxelHost) (Style : FSlateStyleSet) : FVoxelHost :=
  { Host with
    SlateStyles := RegistryAdd Host.SlateStyles Style.StyleSetName Style,
    CallLog := Host.CallLog ++ [FModuleCall.RegisterSlateStyle Style.StyleSetName] }

/-- Host call `FSlateStyleRegistry::UnRegisterSlateStyle`. -/
@[simps]
def UnRegisterSlateStyle (Host : FVoxelHost) (Style : FSlateStyleSet) : FVoxelHost :=
  { Host with
    SlateStyles := RegistryRemove Host.SlateStyles Style.StyleSetName,
    CallLog := Host.CallLog ++ [FModuleCall.UnRegisterSlateStyle Style.StyleSetName] }

/-- Host call `FEditorModeRegistry::RegisterMode`. -/
@[simps]
def RegisterMode (Host : FVoxelHost) (ModeID : FName) (Info : FEditorModeInfo) : FVoxelHost :=
  { Host with
    EditorModes := RegistryAdd Host.EditorModes ModeID Info,
    CallLog := Host.CallLog ++ [FModuleCall.RegisterMode ModeID] }

/-- Host call `FEditorModeRegistry::UnregisterMode`. -/
@[simps]
def UnregisterMode (Host : FVoxelHost) (ModeID : FName) : FVoxelHost :=
  { Host with
    EditorModes := RegistryRemove Host.EditorModes ModeID,
    CallLog := Host.CallLog ++ [FModuleCall.UnregisterMode ModeID] }

end FVoxelHost

/-! ## Editor module: lifecycle -/

/-- Icon side lengths of the module. -/
def Icon16x16 : Nat := 16

/-- Icon side length 40. -/
def Icon40x40 : Nat := 40

/-- Icon side length 64. -/
def Icon64x64 : Nat := 64

/-- Identifier of the voxel editor mode; the constant is defined with
`FEdModeVoxel`, outside the sources, and is kept by its name. -/
def FEdModeVoxel.EM_Voxel : FName := "EM_Voxel"

/-- Command set `FVoxelEditorCommands`: context name, and the one command it
registers with its label, description and chord. -/
structure FVoxelEditorCommands where
  ContextName : FName
  StyleSetName : FName
  RefreshVoxelWorlds : FName
  Label : FString
  Description : FString
  Chord : FString
  deriving DecidableEq, Repr

/-- The command set as its constructor and `RegisterCommands` build it. -/
def FVoxelEditorCommands.Get : FVoxelEditorCommands :=
  { ContextName := "VoxelEditor", StyleSetName := "VoxelStyle",
    RefreshVoxelWorlds := "RefreshVoxelWorlds", Label := "Retoggle",
    Description := "Retoggle the voxel worlds", Chord := "Control+F5" }

/-- State of `FVoxelEditorModule`: its private members. -/
structure FVoxelEditorModule where
  RegisteredAssetTypeActions : List FAssetTypeActions
  RegisteredCustomClassLayouts : List FName
  RegisteredCustomPropertyLayouts : List FName
  VoxelAssetCategoryBit : Nat
  PlacementCategoryInfo : FPlacementCategoryInfo
  StyleSet : Option FSlateStyleSet
  deriving DecidableEq, Repr

/-- The asset category `EAssetTypeCategories::None`. -/
def EAssetTypeCategories.None : Nat := 0

namespace FVoxelEditorModule

/-- A fresh module: the member initialisers of the class. -/
def Fresh : FVoxelEditorModule :=
  { RegisteredAssetTypeActions := [],
    RegisteredCustomClassLayouts := [],
    RegisteredCustomPropertyLayouts := [],
    VoxelAssetCategoryBit := EAssetTypeCategories.None,
    PlacementCategoryInfo :=
      { DisplayName := "Voxel", UniqueHandle := "Voxel", TagMetaData := "PMVoxel",
        SortOrder := 25 },
    StyleSet := none }

/-- Embedding of `RegisterPlacementModeExtension<T>`. -/
def RegisterPlacementModeExtension (this : FVoxelEditorModule) (Host : FVoxelHost)
    (T : FName) (Factory : Option FName) : FVoxelHost :=
  Host.RegisterPlaceableItem this.PlacementCategoryInfo.UniqueHandle
    { Factory := Factory, AssetClass := T }

/-- Embedding of `RegisterPlacementModeExtensions`; `IPlacementModeModule::Get`
loads the placement mode module. -/
def RegisterPlacementModeExtensions (this : FVoxelEditorModule) (Host : FVoxelHost) :
    FVoxelHost :=
  let Host := Host.LoadModuleChecked EHostModule.PlacementMode
  let Host := Host.RegisterPlacementCategory this.PlacementCategoryInfo
  let Host := this.RegisterPlacementModeExtension Host "AVoxelWorld"
    (some "UActorFactoryVoxelWorld")
  let Host := this.RegisterPlacementModeExtension Host "AVoxelDisableEditsBox"
    (some "UActorFactoryVoxelDisableEditsBox")
  let Host := this.RegisterPlacementModeExtension Host "AVoxelAssetActor"
    (some "UActorFactoryVoxelAssetActor")
  let Host := this.RegisterPlacementModeExtension Host "AVoxelMeshImporter"
    (some "UActorFactoryVoxelMeshImporter")
  let Host := this.RegisterPlacementModeExtension Host "AVoxelLandscapeImporter" none
  Host.RegenerateItemsForCategory "AllClasses"

/-- Embedding of `UnregisterPlacementModeExtensions`. -/
def UnregisterPlacementModeExtensions (this : FVoxelEditorModule) (Host : FVoxelHost) :
    FVoxelHost :=
  if Host.IsModuleLoaded EHostModule.PlacementMode then
    Host.UnregisterPlacementCategory this.PlacementCategoryInfo.UniqueHandle
  else
    Host

/-- Embedding of `RegisterCustomClassLayout<T>`. -/
def RegisterCustomClassLayout (Run : FVoxelEditorModule × FVoxelHost) (T Name : FName) :
    FVoxelEditorModule × FVoxelHost :=
  ({ Run.1 with RegisteredCustomClassLayouts := Run.1.RegisteredCustomClassLayouts ++ [Name] },
   Run.2.RegisterCustomClassLayout Name T)

/-- Embedding of `RegisterCustomPropertyLayout<T>`. -/
def RegisterCustomPropertyLayout (Run : FVoxelEditorModule × FVoxelHost) (T Name : FName) :
    FVoxelEditorModule × FVoxelHost :=
  ({ Run.1 with
     RegisteredCustomPropertyLayouts := Run.1.RegisteredCustomPropertyLayouts ++ [Name] },
   Run.2.RegisterCustomPropertyTypeLayout Name T)

/-- Embedding of `RegisterCustomClassLayouts`; `LoadModuleChecked` loads the
property editor module. -/
def RegisterCustomClassLayouts (this : FVoxelEditorModule) (Host : FVoxelHost) :
    FVoxelEditorModule × FVoxelHost :=
  let Run := (this, Host.LoadModuleChecked EHostModule.PropertyEditor)
  let Run := RegisterCustomClassLayout Run "FVoxelWorldDetails" "VoxelWorld"
  let Run := RegisterCustomClassLayout Run "FVoxelMaterialCollectionDetails"
    "VoxelMaterialCollection"
  let Run := RegisterCustomClassLayout Run "FVoxelLandscapeImporterDetails"
    "VoxelLandscapeImporter"
  let Run := RegisterCustomClassLayout Run "FVoxelMeshImporterDetails" "VoxelMeshImporter"
  let Run := RegisterCustomClassLayout Run "FVoxelAssetActorDetails" "VoxelAssetActor"
  let Run := RegisterCustomClassLayout Run "FRangeAnalysisDebuggerDetails"
    "VoxelNode_RangeAnalysisDebuggerFloat"
  let Run := RegisterCustomClassLayout Run "FVoxelMeshSpawnerBaseDetails" "VoxelMeshSpawnerBase"
  let Run := RegisterCustomPropertyLayout Run "FVoxelWorldGeneratorPickerCustomization"
    "VoxelWorldGeneratorPicker"
  let Run := RegisterCustomPropertyLayout Run "FVoxelWorldGeneratorPickerCustomization"
    "VoxelTransformableWorldGeneratorPicker"
  let Run := RegisterCustomPropertyLayout Run "FVoxelMaterialCollectionElementCustomization"
    "VoxelMaterialCollectionElement"
  let Run := RegisterCustomPropertyLayout Run "FVoxelPaintMaterialCustomization"
    "VoxelPaintMaterial"
  let Run := RegisterCustomPropertyLayout Run "FBoolVectorCustomization" "BoolVector"
  let Run := RegisterCustomPropertyLayout Run "FVoxelBasicSpawnerScaleSettingsCustomization"
    "VoxelBasicSpawnerScaleSettings"
  let Run := RegisterCustomPropertyLayout Run "FVoxelSpawnerOutputNameCustomization"
    "VoxelSpawnerOutputName"
  let Run := RegisterCustomPropertyLayout Run "FVoxelGraphOutputCustomization"
    "VoxelGraphOutput"
  (Run.1, Run.2.NotifyCustomizationModuleChanged)

/-- Embedding of `UnregisterClassLayout`. -/
def UnregisterClassLayout (this : FVoxelEditorModule) (Host : FVoxelHost) : FVoxelHost :=
  if Host.IsModuleLoaded EHostModule.PropertyEditor then
    let Host := this.RegisteredCustomClassLayouts.foldl
      (fun Host Name => Host.UnregisterCustomClassLayout Name) Host
    let Host := this.RegisteredCustomPropertyLayouts.foldl
      (fun Host Name => Host.UnregisterCustomPropertyTypeLayout Name) Host
    Host.NotifyCustomizationModuleChanged
  else
    Host

/-- Embedding of `RegisterAssetTypeAction<T>`: the action is constructed with
the category bit the module holds at the time of the call. -/
def RegisterAssetTypeAction (Run : FVoxelEditorModule × FVoxelHost) (T : FName) :
    FVoxelEditorModule × FVoxelHost :=
  let Action : FAssetTypeActions :=
    { ActionClass := T, AssetCategory := Run.1.VoxelAssetCategoryBit }
  ({ Run.1 with RegisteredAssetTypeActions := Run.1.RegisteredAssetTypeActions ++ [Action] },
   Run.2.RegisterAssetTypeActions Action)

/-- Embedding of `RegisterAssetTools`; `LoadModuleChecked` loads the asset
tools module. -/
def RegisterAssetTools (this : FVoxelEditorModule) (Host : FVoxelHost) :
    FVoxelEditorModule × FVoxelHost :=
  let Run := (this, Host.LoadModuleChecked EHostModule.AssetTools)
  let Run := RegisterAssetTypeAction Run "FAssetTypeActions_VoxelWorldSaveObject"
  let Run := RegisterAssetTypeAction Run "FAssetTypeActions_VoxelMaterialCollection"
  let Run := RegisterAssetTypeAction Run "FAssetTypeActions_VoxelBasicMaterialCollection"
  let Run := RegisterAssetTypeAction Run "FAssetTypeActions_VoxelDataAsset"
  let Run := RegisterAssetTypeAction Run "FAssetTypeActions_VoxelSpawnerConfig"
  let Run := RegisterAssetTypeAction Run "FAssetTypeActions_VoxelAssetSpawner"
  let Run := RegisterAssetTypeAction Run "FAssetTypeActions_VoxelMeshSpawner"
  let Run := RegisterAssetTypeAction Run "FAssetTypeActions_VoxelMeshSpawnerGroup"
  let Run := RegisterAssetTypeAction Run "FAssetTypeActions_VoxelSpawnerGroup"
  let Run := RegisterAssetTypeAction Run "FAssetTypeActions_VoxelHeightmapAsset"
  let Run := RegisterAssetTypeAction Run "FAssetTypeActions_VoxelGraphWorldGenerator"
  let Run := RegisterAssetTypeAction Run "FAssetTypeActions_VoxelGraphMacro"
  RegisterAssetTypeAction Run "FAssetTypeActions_VoxelGraphOutputsConfig"

/-- Embedding of `UnregisterAssetTools`. -/
def UnregisterAssetTools (this : FVoxelEditorModule) (Host : FVoxelHost) : FVoxelHost :=
  if Host.IsModuleLoaded EHostModule.AssetTools then
    this.RegisteredAssetTypeActions.foldl
      (fun Host Action => Host.UnregisterAssetTypeActions Action) Host
  else
    Host

end FVoxelEditorModule

namespace FVoxelEditorModule

/-- The style set `StartupModule` builds: name, content roots and brushes, in
the order of the `Set` calls. -/
def VoxelStyle : FSlateStyleSet :=
  { StyleSetName := "VoxelStyle",
    ContentRoot := "Editor/Slate",
    CoreContentRoot := "Slate",
    Brushes :=
      [ ("ClassThumbnail.VoxelWorld", ⟨.ContentDir "Icons/AssetIcons/World_64x.png", Icon64x64⟩),
        ("ClassIcon.VoxelWorld", ⟨.ContentDir "Icons/AssetIcons/World_16x.png", Icon16x16⟩),
        ("ClassThumbnail.VoxelMaterialCollection",
          ⟨.RootToContentDir "Icons/AssetIcons/PaperTileMap_64x.png", Icon64x64⟩),
        ("ClassIcon.VoxelMaterialCollection",
          ⟨.RootToContentDir "Icons/AssetIcons/PaperTileMap_16x.png", Icon16x16⟩),
        ("ClassThumbnail.VoxelBasicMaterialCollection",
          ⟨.RootToContentDir "Icons/AssetIcons/PaperTileMap_64x.png", Icon64x64⟩),
        ("ClassIcon.VoxelBasicMaterialCollection",
          ⟨.RootToContentDir "Icons/AssetIcons/PaperTileMap_16x.png", Icon16x16⟩),
        ("ClassThumbnail.VoxelLandscapeImporter",
          ⟨.ContentDir "Icons/AssetIcons/Import_64x.png", Icon64x64⟩),
        ("ClassIcon.VoxelLandscapeImporter",
          ⟨.ContentDir "Icons/AssetIcons/Import_16x.png", Icon16x16⟩),
        ("ClassThumbnail.VoxelMeshImporter",
          ⟨.ContentDir "Icons/AssetIcons/Import_64x.png", Icon64x64⟩),
        ("ClassIcon.VoxelMeshImporter",
          ⟨.ContentDir "Icons/AssetIcons/Import_16x.png", Icon16x16⟩),
        ("ClassThumbnail.VoxelSpawnerConfig",
          ⟨.ContentDir "Icons/AssetIcons/SpawnerConfig_64x.png", Icon64x64⟩),
        ("ClassIcon.VoxelSpawnerConfig",
          ⟨.ContentDir "Icons/AssetIcons/SpawnerConfig_16x.png", Icon16x16⟩),
        ("ClassThumbnail.VoxelSpawner",
          ⟨.ContentDir "Icons/AssetIcons/Spawner_64x.png", Icon64x64⟩),
        ("ClassIcon.VoxelSpawner", ⟨.ContentDir "Icons/AssetIcons/Spawner_16x.png", Icon16x16⟩),
        ("ClassThumbnail.VoxelSpawnerGroup",
          ⟨.ContentDir "Icons/AssetIcons/SpawnerGroup_64x.png", Icon64x64⟩),
        ("ClassIcon.VoxelSpawnerGroup",
          ⟨.ContentDir "Icons/AssetIcons/SpawnerGroup_16x.png", Icon16x16⟩),
        ("ClassThumbnail.VoxelMeshSpawnerGroup",
          ⟨.ContentDir "Icons/AssetIcons/SpawnerGroup_64x.png", Icon64x64⟩),
        ("ClassIcon.VoxelMeshSpawnerGroup",
          ⟨.ContentDir "Icons/AssetIcons/SpawnerGroup_16x.png", Icon16x16⟩),
        ("ClassThumbnail.VoxelGraphGenerator",
          ⟨.ContentDir "Icons/AssetIcons/VoxelGraph_64x.png", Icon64x64⟩),
        ("ClassIcon.VoxelGraphGenerator",
          ⟨.ContentDir "Icons/AssetIcons/VoxelGraph_16x.png", Icon16x16⟩),
        ("ClassThumbnail.VoxelDataAsset",
          ⟨.ContentDir "Icons/AssetIcons/DataAsset_64x.png", Icon64x64⟩),
        ("ClassIcon.VoxelDataAsset",
          ⟨.ContentDir "Icons/AssetIcons/DataAsset_16x.png", Icon16x16⟩),
        ("ClassThumbnail.VoxelLandscapeAsset",
          ⟨.ContentDir "Icons/AssetIcons/Landscape_64x.png", Icon64x64⟩),
        ("ClassIcon.VoxelLandscapeAsset",
          ⟨.ContentDir "Icons/AssetIcons/Landscape_16x.png", Icon16x16⟩),
        ("VoxelDataAssetEditor.InvertDataAsset",
          ⟨.RootToContentDir "Icons/icon_rotateb_40x.png", Icon40x40⟩),
        ("VoxelTools.Tab", ⟨.ContentDir "Icons/UIIcons/mode_40.png", Icon40x40⟩),
        ("VoxelTools.Tab.Small", ⟨.ContentDir "Icons/UIIcons/mode_40.png", Icon16x16⟩),
        ("ClassThumbnail.VoxelWorldGenerator",
          ⟨.ContentDir "Icons/AssetIcons/WorldGenerator_64x.png", Icon64x64⟩),
        ("ClassIcon.VoxelWorldGenerator",
          ⟨.ContentDir "Icons/AssetIcons/WorldGenerator_16x.png", Icon16x16⟩),
        ("ClassThumbnail.VoxelWorldSaveObject",
          ⟨.ContentDir "Icons/AssetIcons/VoxelWorldSaveObject_64x.png", Icon64x64⟩),
        ("ClassIcon.VoxelWorldSaveObject",
          ⟨.ContentDir "Icons/AssetIcons/VoxelWorldSaveObject_16x.png", Icon16x16⟩) ] }

/-- Embedding of `StartupModule`: the module and the host after the call. -/
def StartupModule (this : FVoxelEditorModule) (Host : FVoxelHost) :
    FVoxelEditorModule × FVoxelHost :=
  let Host : FVoxelHost := Host.OnPostReimport_AddLambda "FVoxelTextureUtilities::ClearCache"
  let Host : FVoxelHost := Host.Commands_Register FVoxelEditorCommands.Get.ContextName
  let Host : FVoxelHost := Host.LoadModuleChecked EHostModule.LevelEditor
  let Host : FVoxelHost := Host.MapAction
    { Command := FVoxelEditorCommands.Get.RefreshVoxelWorlds, MatchingGenerator := none }
  let Host : FVoxelHost := Host.BindEditorDelegatesDelegate_AddStatic "BindEditorDelegates"
  let Host : FVoxelHost := Host.LogMessageDelegate_AddStatic "FVoxelMessagesEditor::LogMessage"
  let Host : FVoxelHost := Host.ShowNotificationDelegate_AddStatic "FVoxelMessagesEditor::ShowNotification"
  let Host : FVoxelHost := Host.LoadModuleChecked EHostModule.MessageLog
  let InitOptions : FMessageLogInitializationOptions :=
    { bShowFilters := true, bShowPages := false, bAllowClear := true }
  let Host : FVoxelHost := Host.RegisterLogListing "Voxel" InitOptions
  let Host : FVoxelHost := Host.LoadModuleChecked EHostModule.AssetTools
  let Category : Nat × FVoxelHost := Host.RegisterAdvancedAssetCategory "Voxel"
  let this : FVoxelEditorModule := { this with VoxelAssetCategoryBit := Category.1 }
  let Host : FVoxelHost := Category.2
  let Host : FVoxelHost := this.RegisterPlacementModeExtensions Host
  let Layouts : FVoxelEditorModule × FVoxelHost := this.RegisterCustomClassLayouts Host
  let Tools : FVoxelEditorModule × FVoxelHost := Layouts.1.RegisterAssetTools Layouts.2
  let this : FVoxelEditorModule := Tools.1
  let Host : FVoxelHost := Tools.2
  let Host : FVoxelHost := Host.RegisterCustomRenderer "UVoxelGraphGenerator"
    "UVoxelGraphGeneratorThumbnailRenderer"
  let Host : FVoxelHost := Host.RegisterCustomRenderer "UVoxelDataAsset" "UVoxelDataAssetThumbnailRenderer"
  let Host : FVoxelHost := Host.RegisterCustomRenderer "UVoxelHeightmapAsset"
    "UVoxelHeightmapAssetThumbnailRenderer"
  let Host : FVoxelHost := Host.RegisterCustomRenderer "UVoxelMeshSpawner" "UVoxelMeshSpawnerThumbnailRenderer"
  let Host : FVoxelHost := Host.RegisterCustomRenderer "UVoxelMeshSpawnerGroup"
    "UVoxelMeshSpawnerGroupThumbnailRenderer"
  let Host : FVoxelHost := Host.RegisterCustomRenderer "UVoxelAssetSpawner"
    "UVoxelAssetSpawnerThumbnailRenderer"
  let Host : FVoxelHost := Host.RegisterCustomRenderer "UVoxelSpawnerGroup"
    "UVoxelSpawnerGroupThumbnailRenderer"
  let this : FVoxelEditorModule := { this with StyleSet := some VoxelStyle }
  let Host : FVoxelHost := Host.RegisterSlateStyle VoxelStyle
  let Host : FVoxelHost := Host.RegisterMode FEdModeVoxel.EM_Voxel
    { Name := "Voxels", IconStyleSet := "VoxelStyle", IconName := "VoxelTools.Tab",
      IconSmallName := "VoxelTools.Tab.Small", bVisible := true }
  (this, Host)

/-- Embedding of `ShutdownModule`: the module and the host after the call. -/
def ShutdownModule (this : FVoxelEditorModule) (Host : FVoxelHost) :
    FVoxelEditorModule × FVoxelHost :=
  let Host : FVoxelHost := Host.UnregisterMode FEdModeVoxel.EM_Voxel
  let Host :=
    if Host.bUObjectInitialized then
      let Host : FVoxelHost := Host.UnregisterCustomRenderer "UVoxelGraphGenerator"
      let Host : FVoxelHost := Host.UnregisterCustomRenderer "UVoxelDataAsset"
      let Host : FVoxelHost := Host.UnregisterCustomRenderer "UVoxelHeightmapAsset"
      let Host : FVoxelHost := Host.UnregisterCustomRenderer "UVoxelMeshSpawner"
      let Host : FVoxelHost := Host.UnregisterCustomRenderer "UVoxelMeshSpawnerGroup"
      let Host : FVoxelHost := Host.UnregisterCustomRenderer "UVoxelAssetSpawner"
      Host.UnregisterCustomRenderer "UVoxelSpawnerGroup"
    else
      Host
  let Host : FVoxelHost := this.UnregisterPlacementModeExtensions Host
  let Host : FVoxelHost := this.UnregisterClassLayout Host
  let Host : FVoxelHost := this.UnregisterAssetTools Host
  match this.StyleSet with
  | some Style => ({ this with StyleSet := none }, Host.UnRegisterSlateStyle Style)
  | none => (this, Host)

/-- Embedding of `SupportsDynamicReloading`. -/
def SupportsDynamicReloading : Bool :=
  true

/-- Embedding of the module's `GenerateSingleMaterials`. -/
def GenerateSingleMaterials (Helpers : FVoxelMaterialCollectionHelpers)
    (Collection : Option UVoxelMaterialCollection) (OutError : FString) : FGenerateOutcome :=
  Helpers.GenerateSingleMaterials Collection OutError

/-- Embedding of the module's `GenerateDoubleMaterials`. -/
def GenerateDoubleMaterials (Helpers : FVoxelMaterialCollectionHelpers)
    (Collection : Option UVoxelMaterialCollection) (OutError : FString) : FGenerateOutcome :=
  Helpers.GenerateDoubleMaterials Collection OutError

/-- Embedding of the module's `GenerateTripleMaterials`. -/
def GenerateTripleMaterials (Helpers : FVoxelMaterialCollectionHelpers)
    (Collection : Option UVoxelMaterialCollection) (OutError : FString) : FGenerateOutcome :=
  Helpers.GenerateTripleMaterials Collection OutError

/-- Embedding of the module's `RefreshVoxelWorlds`. -/
def RefreshVoxelWorlds (ActiveViewport : Option FViewport) (MatchingGenerator : Option FName) :
    List FActorCall :=
  RefreshVoxelWorlds_Execute ActiveViewport MatchingGenerator

end FVoxelEditorModule

/-- The action mapped to the retoggle command (Ctrl+F5): the static
`RefreshVoxelWorlds_Execute` bound with a null generator. -/
def FMappedAction.Execute (Action : FMappedAction) (ActiveViewport : Option FViewport) :
    List FActorCall :=
  RefreshVoxelWorlds_Execute ActiveViewport Action.MatchingGenerator

/-! ## Vocabulary of the statements -/

/-- The three buttons of the "Generate" category, in the order they are
added. -/
def GenerateButtons : List FButtonRow :=
  [{ CategoryName := "Generate", FilterString := "Generate Single",
     TextLeftToButton := "Generate Single Materials", ButtonText := "Generate Single",
     bForAdvanced := false, OnClicked := EOnClicked.OnGenerateSingleMaterials },
   { CategoryName := "Generate", FilterString := "Generate Double",
     TextLeftToButton := "Generate Double Materials", ButtonText := "Generate Double",
     bForAdvanced := false, OnClicked := EOnClicked.OnGenerateDoubleMaterials },
   { CategoryName := "Generate", FilterString := "Generate Triple",
     TextLeftToButton := "Generate Triple Materials", ButtonText := "Generate Triple",
     bForAdvanced := false, OnClicked := EOnClicked.OnGenerateTripleMaterials }]

/-- The active viewport showing a world. -/
def ViewportOn (World : UWorld) : Option FViewport :=
  some { Client := some { World := some World } }


/-- Names of the class layouts of the module. -/
def VoxelClassLayoutNames : List FName :=
  ["VoxelWorld", "VoxelMaterialCollection", "VoxelLandscapeImporter", "VoxelMeshImporter",
   "VoxelAssetActor", "VoxelNode_RangeAnalysisDebuggerFloat", "VoxelMeshSpawnerBase"]

/-- Names of the property type layouts of the module. -/
def VoxelPropertyLayoutNames : List FName :=
  ["VoxelWorldGeneratorPicker", "VoxelTransformableWorldGeneratorPicker",
   "VoxelMaterialCollectionElement", "VoxelPaintMaterial", "BoolVector",
   "VoxelBasicSpawnerScaleSettings", "VoxelSpawnerOutputName", "VoxelGraphOutput"]

/-- Asset classes the module registers a thumbnail renderer for. -/
def VoxelThumbnailClasses : List FName :=
  ["UVoxelGraphGenerator", "UVoxelDataAsset", "UVoxelHeightmapAsset", "UVoxelMeshSpawner",
   "UVoxelMeshSpawnerGroup", "UVoxelAssetSpawner", "UVoxelSpawnerGroup"]

/-- Classes of the asset type actions of the module. -/
def VoxelAssetTypeActionClasses : List FName :=
  ["FAssetTypeActions_VoxelWorldSaveObject", "FAssetTypeActions_VoxelMaterialCollection",
   "FAssetTypeActions_VoxelBasicMaterialCollection", "FAssetTypeActions_VoxelDataAsset",
   "FAssetTypeActions_VoxelSpawnerConfig", "FAssetTypeActions_VoxelAssetSpawner",
   "FAssetTypeActions_VoxelMeshSpawner", "FAssetTypeActions_VoxelMeshSpawnerGroup",
   "FAssetTypeActions_VoxelSpawnerGroup", "FAssetTypeActions_VoxelHeightmapAsset",
   "FAssetTypeActions_VoxelGraphWorldGenerator", "FAssetTypeActions_VoxelGraphMacro",
   "FAssetTypeActions_VoxelGraphOutputsConfig"]

/-- The host holds no entry of the voxel editor module yet: no style set
named VoxelStyle, no thumbnail renderer for a voxel asset class, no placement
category with the handle Voxel, no class or property layout under a name of
the module, no asset type actions of a class of the module, and no editor
mode under the voxel mode identifier. -/
structure FVoxelHost.HoldsNoVoxelEntry (Host : FVoxelHost) : Prop where
  SlateStyles : ∀ Entry ∈ Host.SlateStyles, Entry.1 ≠ "VoxelStyle"
  ThumbnailRenderers : ∀ Entry ∈ Host.ThumbnailRenderers, Entry.1 ∉ VoxelThumbnailClasses
  PlacementCategories : ∀ Category ∈ Host.PlacementCategories,
    Category.Info.UniqueHandle ≠ "Voxel"
  ClassLayouts : ∀ Entry ∈ Host.ClassLayouts, Entry.1 ∉ VoxelClassLayoutNames
  PropertyLayouts : ∀ Entry ∈ Host.PropertyLayouts, Entry.1 ∉ VoxelPropertyLayoutNames
  AssetTypeActions : ∀ Action ∈ Host.AssetTypeActions,
    Action.ActionClass ∉ VoxelAssetTypeActionClasses
  EditorModes : ∀ Entry ∈ Host.EditorModes, Entry.1 ≠ FEdModeVoxel.EM_Voxel

/-- The asset type actions objects of the module, constructed with a category
bit. -/
def VoxelAssetTypeActions (AssetCategory : Nat) : List FAssetTypeActions :=
  VoxelAssetTypeActionClasses.map
    (fun ActionClass => { ActionClass := ActionClass, AssetCategory := AssetCategory })

/-- The placeable items of the module, in registration order. -/
def VoxelPlaceableItems : List FPlaceableItem :=
  [{ Factory := some "UActorFactoryVoxelWorld", AssetClass := "AVoxelWorld" },
   { Factory := some "UActorFactoryVoxelDisableEditsBox", AssetClass := "AVoxelDisableEditsBox" },
   { Factory := some "UActorFactoryVoxelAssetActor", AssetClass := "AVoxelAssetActor" },
   { Factory := some "UActorFactoryVoxelMeshImporter", AssetClass := "AVoxelMeshImporter" },
   { Factory := none, AssetClass := "AVoxelLandscapeImporter" }]

/-- The registries of styles, thumbnails, placement items, class layouts,
property layouts, asset type actions and editor modes hold in `After` what
they hold in `Before`. -/
def RegistriesRestored (Before After : FVoxelHost) : Prop :=
  After.SlateStyles = Before.SlateStyles
    ∧ After.ThumbnailRenderers = Before.ThumbnailRenderers
    ∧ After.PlacementCategories = Before.PlacementCategories
    ∧ After.ClassLayouts = Before.ClassLayouts
    ∧ After.PropertyLayouts = Before.PropertyLayouts
    ∧ After.AssetTypeActions = Before.AssetTypeActions
    ∧ After.EditorModes = Before.EditorModes

/-- A host with every engine module loaded, the object system initialised
and every registry empty. -/
def EmptyHost : FVoxelHost :=
  { bUObjectInitialized := true, bPlacementModeLoaded := true, bPropertyEditorLoaded := true,
    bAssetToolsLoaded := true, bLevelEditorLoaded := true, bMessageLogLoaded := true,
    PostReimport := [], CommandContexts := [], GlobalLevelEditorActions := [],
    BindEditorDelegatesDelegate := [], LogMessageDelegate := [], ShowNotificationDelegate := [],
    LogListings := [], AdvancedAssetCategories := [], NextAssetCategoryBit := 1,
    PlacementCategories := [], ClassLayouts := [], PropertyLayouts := [],
    AssetTypeActions := [], ThumbnailRenderers := [], SlateStyles := [], EditorModes := [],
    CallLog := [] }

/-- A host that already holds entries of the engine and of other plugins in
its registries, none of them under a key of the voxel editor module. -/
def SampleHost : FVoxelHost :=
  { EmptyHost with
    CommandContexts := ["LevelEditor"],
    GlobalLevelEditorActions := [{ Command := "Save", MatchingGenerator := none }],
    AdvancedAssetCategories := [("Paper2D", 1)],
    NextAssetCategoryBit := 2,
    PlacementCategories :=
      [{ Info := { DisplayName := "Basic", UniqueHandle := "Basic", TagMetaData := "PMBasic",
                   SortOrder := 10 },
         Items := [{ Factory := none, AssetClass := "ACameraActor" }] }],
    ClassLayouts := [("StaticMeshActor", "FStaticMeshActorDetails")],
    PropertyLayouts := [("Vector", "FVectorStructCustomization")],
    AssetTypeActions := [{ ActionClass := "FAssetTypeActions_Texture", AssetCategory := 0 }],
    ThumbnailRenderers := [("UTexture2D", "UTextureThumbnailRenderer")],
    SlateStyles := [("EditorStyle", { StyleSetName := "EditorStyle", ContentRoot := "Editor/Slate",
                                      CoreContentRoot := "Slate", Brushes := [] })],
    EditorModes := [("EM_Landscape",
      { Name := "Landscape", IconStyleSet := "EditorStyle", IconName := "LevelEditor.LandscapeMode",
        IconSmallName := "LevelEditor.LandscapeMode.Small", bVisible := true })] }

/-- The calls made on the host between two of its states: the entries the
call log gained. -/
def IssuedCalls (Before After : FVoxelHost) : List FModuleCall :=
  After.CallLog.drop Before.CallLog.length

/-- The name a call registers a class layout under, if it is such a call. -/
def FModuleCall.registeredClassLayout : FModuleCall → Option FName
  | FModuleCall.RegisterCustomClassLayout Name _ => some Name
  | _ => none

/-- The name a call unregisters a class layout under, if it is such a call. -/
def FModuleCall.unregisteredClassLayout : FModuleCall → Option FName
  | FModuleCall.UnregisterCustomClassLayout Name => some Name
  | _ => none

/-- The name a call registers a property type layout under, if it is such a
call. -/
def FModuleCall.registeredPropertyLayout : FModuleCall → Option FName
  | FModuleCall.RegisterCustomPropertyTypeLayout Name _ => some Name
  | _ => none

/-- The name a call unregisters a property type layout under, if it is such a
call. -/
def FModuleCall.unregisteredPropertyLayout : FModuleCall → Option FName
  | FModuleCall.UnregisterCustomPropertyTypeLayout Name => some Name
  | _ => none

/-- The asset type actions object a call registers, if it is such a call. -/
def FModuleCall.registeredAssetTypeActions : FModuleCall → Option FAssetTypeActions
  | FModuleCall.RegisterAssetTypeActions Action => some Action
  | _ => none

/-- The asset type actions object a call unregisters, if it is such a call. -/
def FModuleCall.unregisteredAssetTypeActions : FModuleCall → Option FAssetTypeActions
  | FModuleCall.UnregisterAssetTypeActions Action => some Action
  | _ => none

/-- The asset class a call registers a thumbnail renderer for, if it is such
a call. -/
def FModuleCall.registeredThumbnailClass : FModuleCall → Option FName
  | FModuleCall.RegisterCustomRenderer AssetClass _ => some AssetClass
  | _ => none

/-- The asset class a call unregisters the thumbnail renderer of, if it is
such a call. -/
def FModuleCall.unregisteredThumbnailClass : FModuleCall → Option FName
  | FModuleCall.UnregisterCustomRenderer AssetClass => some AssetClass
  | _ => none

/-- The value widgets a child row shows, in the order they are created. -/
def FChildRow.ValueWidgets (Row : FChildRow) : List EChildHandle :=
  [Row.IndexWidget, Row.InstanceWidget, Row.PhysicalMaterial.Content]

/-- An outer object is a material collection that hides the physical
materials. -/
def HidesPhysicalMaterials (Outer : Option UObject) : Prop :=
  ∃ Collection : UVoxelMaterialCollection,
    Outer = some (UObject.VoxelMaterialCollection Collection)
      ∧ Collection.bHidePhysicalMaterials = true

/-- What one call of `BindEditorDelegates` for an object may do to a
delegate: a delegate holding no binding to the object gains one binding to
it, at the end; a delegate already bound to the object stays as it is; the
bindings to other objects are kept in both cases. -/
def BoundOnce (Object : FName) (Before After : List FName) : Prop :=
  (Object ∉ Before → After = Before ++ [Object] ∧ After.count Object = 1)
    ∧ (Object ∈ Before → After = Before)
    ∧ (∀ Other : FName, Other ≠ Object → After.count Other = Before.count Other)

/-- Editor delegates with no binding at all. -/
def NoDelegateBound : FEditorDelegates :=
  { PreSaveWorld := [], PreBeginPIE := [], EndPIE := [], PrepareToCleanseEditorObject := [],
    OnPreExit := [] }

/-- The name a call registers a style set under, if it is such a call. -/
def FModuleCall.registeredSlateStyle : FModuleCall → Option FName
  | FModuleCall.RegisterSlateStyle StyleSetName => some StyleSetName
  | _ => none

/-- The name a call unregisters a style set under, if it is such a call. -/
def FModuleCall.unregisteredSlateStyle : FModuleCall → Option FName
  | FModuleCall.UnRegisterSlateStyle StyleSetName => some StyleSetName
  | _ => none

/-- The identifier a call registers an editor mode under, if it is such a
call. -/
def FModuleCall.registeredMode : FModuleCall → Option FName
  | FModuleCall.RegisterMode ModeID => some ModeID
  | _ => none

/-- The identifier a call unregisters an editor mode under, if it is such a
call. -/
def FModuleCall.unregisteredMode : FModuleCall → Option FName
  | FModuleCall.UnregisterMode ModeID => some ModeID
  | _ => none

/-- The handle a call registers a placement category under, if it is such a
call. -/
def FModuleCall.registeredPlacementCategory : FModuleCall → Option FName
  | FModuleCall.RegisterPlacementCategory UniqueHandle => some UniqueHandle
  | _ => none

/-- The handle of the placement category a call unregisters, if it is such a
call. -/
def FModuleCall.unregisteredPlacementCategory : FModuleCall → Option FName
  | FModuleCall.UnregisterPlacementCategory UniqueHandle => some UniqueHandle
  | _ => none

/-- The handle of the placement category a call registers a placeable item
in, if it is such a call. -/
def FModuleCall.placeableItemCategory : FModuleCall → Option FName
  | FModuleCall.RegisterPlaceableItem UniqueHandle _ => some UniqueHandle
  | _ => none

/-- The unregistrations among the calls of shutdown match the registrations
among the calls of startup, for each of styles, thumbnails, placement items,
class layouts, property layouts, asset type actions and the editor mode:
shutdown unregisters, by kind, exactly the keys (for asset type actions, the
objects) startup registered, and every placeable item startup registered is
in a category shutdown unregisters. -/
def UnregistrationsMatch (StartupCalls ShutdownCalls : List FModuleCall) : Prop :=
  ShutdownCalls.filterMap FModuleCall.unregisteredSlateStyle
      = StartupCalls.filterMap FModuleCall.registeredSlateStyle
    ∧ ShutdownCalls.filterMap FModuleCall.unregisteredThumbnailClass
      = StartupCalls.filterMap FModuleCall.registeredThumbnailClass
    ∧ ShutdownCalls.filterMap FModuleCall.unregisteredPlacementCategory
      = StartupCalls.filterMap FModuleCall.registeredPlacementCategory
    ∧ (∀ UniqueHandle ∈ StartupCalls.filterMap FModuleCall.placeableItemCategory,
        UniqueHandle ∈ ShutdownCalls.filterMap FModuleCall.unregisteredPlacementCategory)
    ∧ ShutdownCalls.filterMap FModuleCall.unregisteredClassLayout
      = StartupCalls.filterMap FModuleCall.registeredClassLayout
    ∧ ShutdownCalls.filterMap FModuleCall.unregisteredPropertyLayout
      = StartupCalls.filterMap FModuleCall.registeredPropertyLayout
    ∧ ShutdownCalls.filterMap FModuleCall.unregisteredAssetTypeActions
      = StartupCalls.filterMap FModuleCall.registeredAssetTypeActions
    ∧ ShutdownCalls.filterMap FModuleCall.unregisteredMode
      = StartupCalls.filterMap FModuleCall.registeredMode

/-- A host on which another customization is already registered for the
class VoxelWorld, every other registry being empty. -/
def HostWithVoxelWorldLayout : FVoxelHost :=
  { EmptyHost with ClassLayouts := [("VoxelWorld", "FOtherVoxelWorldDetails")] }

/-! ## Sample inputs -/

/-- A collection with one element that has one child. -/
def SampleCollection : UVoxelMaterialCollection :=
  { Name := "MC_Terrain", bHidePhysicalMaterials := false,
    Materials :=
      [{ Index := 0, MaterialFunction := some "MF_Grass", PhysicalMaterial := none,
         Children := [{ InstanceIndex := 1, MaterialInstance := some "MI_Grass",
                        PhysicalMaterial := none }] }] }

/-- Helpers that fail at every arity, each with an error text of its own, and
leave the collection as it is. -/
def FailingHelpers : FVoxelMaterialCollectionHelpers :=
  { GenerateSingleMaterials := fun Collection _ =>
      { Result := false, OutError := "Single: missing material", Collection := Collection },
    GenerateDoubleMaterials := fun Collection _ =>
      { Result := false, OutError := "Double: missing material", Collection := Collection },
    GenerateTripleMaterials := fun Collection _ =>
      { Result := false, OutError := "Triple: missing material", Collection := Collection } }

/-- Helpers that succeed at every arity and leave the error string and the
collection as they are. -/
def SucceedingHelpers : FVoxelMaterialCollectionHelpers :=
  { GenerateSingleMaterials := fun Collection OutError =>
      { Result := true, OutError := OutError, Collection := Collection },
    GenerateDoubleMaterials := fun Collection OutError =>
      { Result := true, OutError := OutError, Collection := Collection },
    GenerateTripleMaterials := fun Collection OutError =>
      { Result := true, OutError := OutError, Collection := Collection } }

/-- A user who answers Yes to every dialog. -/
def AnswerYes : EAppMsgType → FText → EAppReturnType :=
  fun _ _ => EAppReturnType.Yes

/-- A user who answers No to every dialog. -/
def AnswerNo : EAppMsgType → FText → EAppReturnType :=
  fun _ _ => EAppReturnType.No

/-- A details object customizing the sample collection. -/
def SampleDetails : FVoxelMaterialCollectionDetails :=
  { Collection := some SampleCollection }

/-- A customization state: an element with one child, owned by a collection
that hides the physical materials. -/
def SampleElementStateA : FVoxelMaterialCollectionElementCustomization :=
  { PropertyHandle :=
      { OuterObjects := [some (UObject.VoxelMaterialCollection
          { SampleCollection with bHidePhysicalMaterials := true })],
        Value := { Index := 0, MaterialFunction := some "MF_Grass", PhysicalMaterial := none,
                   Children := [{ InstanceIndex := 1, MaterialInstance := some "MI_Grass",
                                  PhysicalMaterial := none }] } },
    Outers := [some (UObject.VoxelMaterialCollection
      { SampleCollection with bHidePhysicalMaterials := true })] }

/-- Another customization state: an element with two children and another
index, whose outers are a null pointer, an object of another class and a
collection of another name that hides the physical materials. -/
def SampleElementStateB : FVoxelMaterialCollectionElementCustomization :=
  { PropertyHandle :=
      { OuterObjects := [],
        Value := { Index := 7, MaterialFunction := none, PhysicalMaterial := some "PM_Rock",
                   Children := [{ InstanceIndex := 2, MaterialInstance := none,
                                  PhysicalMaterial := some "PM_Rock" },
                                { InstanceIndex := 3, MaterialInstance := none,
                                  PhysicalMaterial := none }] } },
    Outers := [none, some (UObject.Other "UMaterial" "M_Rock"),
      some (UObject.VoxelMaterialCollection
        { Name := "MC_Caves", bHidePhysicalMaterials := true, Materials := [] })] }

/-- An editor world with three voxel worlds (created with generator G_Hills,
not created, created with generator G_Caves) and one asset actor. -/
def SampleWorld : UWorld :=
  { WorldType := EWorldType.Editor,
    VoxelWorlds :=
      [{ bIsCreated := true, WorldGenerator := some "G_Hills" },
       { bIsCreated := false, WorldGenerator := some "G_Hills" },
       { bIsCreated := true, WorldGenerator := some "G_Caves" }],
    VoxelAssetActors := [{ Name := "AssetActor_0" }] }
/-! ## Theorems -/

/-- C1: `CanExecuteReimport` returns true exactly when some reference of the
list is valid and its asset's source is MagicaVox or RawVox; it returns false
on the empty list and on every list whose valid assets all carry another
source. -/
theorem canExecuteReimport_iff_eligible :
    (∀ Objects : List (TWeakObjectPtr UVoxelDataAsset),
      FAssetTypeActions_VoxelDataAsset.CanExecuteReimport Objects = true ↔
        ∃ Object ∈ Objects, ReimportEligible Object)
    ∧ FAssetTypeActions_VoxelDataAsset.CanExecuteReimport [] = false
    ∧ (∀ Objects : List (TWeakObjectPtr UVoxelDataAsset),
        (∀ Asset : UVoxelDataAsset, some Asset ∈ Objects →
          Asset.Source ≠ EVoxelDataAssetImportSource.MagicaVox
            ∧ Asset.Source ≠ EVoxelDataAssetImportSource.RawVox) →
        FAssetTypeActions_VoxelDataAsset.CanExecuteReimport Objects = false) := by
  have key : ∀ Objects : List (TWeakObjectPtr UVoxelDataAsset),
      FAssetTypeActions_VoxelDataAsset.CanExecuteReimport Objects = true ↔
        ∃ Object ∈ Objects, ReimportEligible Object := by
    intro Objects
    induction Objects with
    | nil => simp [FAssetTypeActions_VoxelDataAsset.CanExecuteReimport]
    | cons Object Objects ih =>
      cases Object with
      | none =>
        simp [FAssetTypeActions_VoxelDataAsset.CanExecuteReimport, TWeakObjectPtr.IsValid,
          TWeakObjectPtr.Get, ih, ReimportEligible]
      | some Asset =>
        simp only [FAssetTypeActions_VoxelDataAsset.CanExecuteReimport, TWeakObjectPtr.IsValid,
          TWeakObjectPtr.Get, Option.isSome_some, Bool.true_and, List.exists_mem_cons_iff] at *
        by_cases h : (Asset.Source == EVoxelDataAssetImportSource.MagicaVox
            || Asset.Source == EVoxelDataAssetImportSource.RawVox) = true
        · simp only [h, if_true, true_iff]
          left
          refine ⟨Asset, rfl, ?_⟩
          simpa using h
        · rw [if_neg h, ih]
          constructor
          · intro hex
            exact Or.inr hex
          · rintro (⟨A, hA, hsrc⟩ | hex)
            · exfalso
              apply h
              cases hA
              simpa using hsrc
            · exact hex
  refine ⟨key, rfl, ?_⟩
  intro Objects hall
  cases hres : FAssetTypeActions_VoxelDataAsset.CanExecuteReimport Objects with
  | false => rfl
  | true =>
    exfalso
    obtain ⟨Object, hmem, Asset, hObj, hsrc⟩ := (key Objects).mp hres
    subst hObj
    have hne := hall Asset hmem
    cases hsrc with
    | inl h => exact hne.1 h
    | inr h => exact hne.2 h


/-- Witness for C1: a list with a stale reference, an asset of another source
and a RawVox asset is eligible; without the RawVox asset it is not. -/
theorem canExecuteReimport_iff_eligible_witness :
    FAssetTypeActions_VoxelDataAsset.CanExecuteReimport
        [none, some ⟨"Castle", EVoxelDataAssetImportSource.Other 0⟩,
          some ⟨"Tree", EVoxelDataAssetImportSource.RawVox⟩] = true
    ∧ FAssetTypeActions_VoxelDataAsset.CanExecuteReimport
        [none, some ⟨"Castle", EVoxelDataAssetImportSource.Other 0⟩] = false :=
  ⟨(canExecuteReimport_iff_eligible.1 _).mpr
      ⟨some ⟨"Tree", EVoxelDataAssetImportSource.RawVox⟩, by simp,
        ⟨"Tree", EVoxelDataAssetImportSource.RawVox⟩, rfl, Or.inr rfl⟩,
    canExecuteReimport_iff_eligible.2.2 _ (by
      intro Asset hmem
      have hA : Asset = ⟨"Castle", EVoxelDataAssetImportSource.Other 0⟩ := by
        simpa using hmem
      subst hA
      exact ⟨by decide, by decide⟩)⟩

/-- C2: the `Reimport` calls issued by `ExecuteReimport` are exactly the
eligible assets of the list (valid, source MagicaVox or RawVox), one call per
such entry, in list order, each with `bAskForNewFileIfMissing = true`; no call
is issued for a stale reference or for an asset of another source. -/
theorem executeReimport_calls_eligible_in_order
    (Objects : List (TWeakObjectPtr UVoxelDataAsset)) :
    FAssetTypeActions_VoxelDataAsset.ExecuteReimport Objects
        = (Objects.filterMap eligibleAsset).map
            (fun Asset => { Object := Asset, bAskForNewFileIfMissing := true })
    ∧ (∀ Call ∈ FAssetTypeActions_VoxelDataAsset.ExecuteReimport Objects,
        Call.bAskForNewFileIfMissing = true
          ∧ some Call.Object ∈ Objects
          ∧ (Call.Object.Source = EVoxelDataAssetImportSource.MagicaVox
              ∨ Call.Object.Source = EVoxelDataAssetImportSource.RawVox)) := by
  have key : ∀ Objs : List (TWeakObjectPtr UVoxelDataAsset),
      FAssetTypeActions_VoxelDataAsset.ExecuteReimport Objs
        = (Objs.filterMap eligibleAsset).map
            (fun Asset => { Object := Asset, bAskForNewFileIfMissing := true }) := by
    intro Objs
    induction Objs with
    | nil => rfl
    | cons Object Objs ih =>
      cases Object with
      | none =>
        simp [FAssetTypeActions_VoxelDataAsset.ExecuteReimport, TWeakObjectPtr.Get,
          eligibleAsset, ih]
      | some Asset =>
        obtain ⟨Name, Source⟩ := Asset
        cases Source <;>
          simp [FAssetTypeActions_VoxelDataAsset.ExecuteReimport, TWeakObjectPtr.Get,
            TWeakObjectPtr.IsValid, eligibleAsset, ih]
  refine ⟨key Objects, ?_⟩
  intro Call hCall
  rw [key Objects] at hCall
  simp only [List.mem_map, List.mem_filterMap] at hCall
  obtain ⟨Asset, ⟨Object, hmem, hel⟩, rfl⟩ := hCall
  cases Object with
  | none => simp [eligibleAsset] at hel
  | some A =>
    obtain ⟨Name, Source⟩ := A
    cases Source <;> simp [eligibleAsset] at hel
    · subst hel
      exact ⟨rfl, hmem, Or.inl rfl⟩
    · subst hel
      exact ⟨rfl, hmem, Or.inr rfl⟩

/-- Witness for C2: of a stale reference, a MagicaVox asset, an asset of
another source and a RawVox asset, the two eligible assets are reimported, in
order. -/
theorem executeReimport_calls_eligible_in_order_witness :
    FAssetTypeActions_VoxelDataAsset.ExecuteReimport
        [none, some ⟨"Castle", EVoxelDataAssetImportSource.MagicaVox⟩,
          some ⟨"Rock", EVoxelDataAssetImportSource.Other 3⟩,
          some ⟨"Tree", EVoxelDataAssetImportSource.RawVox⟩]
      = [⟨⟨"Castle", EVoxelDataAssetImportSource.MagicaVox⟩, true⟩,
          ⟨⟨"Tree", EVoxelDataAssetImportSource.RawVox⟩, true⟩] :=
  (executeReimport_calls_eligible_in_order
    [none, some ⟨"Castle", EVoxelDataAssetImportSource.MagicaVox⟩,
      some ⟨"Rock", EVoxelDataAssetImportSource.Other 3⟩,
      some ⟨"Tree", EVoxelDataAssetImportSource.RawVox⟩]).1.trans rfl

/-! ### Click handlers of the details panel -/

open FVoxelMaterialCollectionDetails FHostCall

/-- C3: when the material generation helper returns failure, each of the
three handlers (the triple one after the answer Yes to the confirmation)
opens exactly one OK-only modal dialog, whose text is the error string the
helper left in `Error`, and adds no notification; the only other dialog is
the confirmation of the triple handler. -/
theorem generate_failure_opens_one_error_dialog
    (Helpers : FVoxelMaterialCollectionHelpers) (Open : EAppMsgType → FText → EAppReturnType)
    (this : FVoxelMaterialCollectionDetails) :
    ((Helpers.GenerateSingleMaterials this.Collection.Get "").Result = false →
      (OnGenerateSingleMaterials Helpers this).Calls.filter isOkDialog
          = [MessageDialog_Open EAppMsgType.Ok
              (Helpers.GenerateSingleMaterials this.Collection.Get "").OutError]
        ∧ (OnGenerateSingleMaterials Helpers this).Calls.filter isDialog
          = [MessageDialog_Open EAppMsgType.Ok
              (Helpers.GenerateSingleMaterials this.Collection.Get "").OutError]
        ∧ (OnGenerateSingleMaterials Helpers this).Calls.filter isNotification = [])
    ∧ ((Helpers.GenerateDoubleMaterials this.Collection.Get "").Result = false →
      (OnGenerateDoubleMaterials Helpers this).Calls.filter isOkDialog
          = [MessageDialog_Open EAppMsgType.Ok
              (Helpers.GenerateDoubleMaterials this.Collection.Get "").OutError]
        ∧ (OnGenerateDoubleMaterials Helpers this).Calls.filter isDialog
          = [MessageDialog_Open EAppMsgType.Ok
              (Helpers.GenerateDoubleMaterials this.Collection.Get "").OutError]
        ∧ (OnGenerateDoubleMaterials Helpers this).Calls.filter isNotification = [])
    ∧ (Open EAppMsgType.YesNoCancel ThisWillTakeAWhile = EAppReturnType.Yes →
      (Helpers.GenerateTripleMaterials this.Collection.Get "").Result = false →
      (OnGenerateTripleMaterials Helpers Open this).Calls.filter isOkDialog
          = [MessageDialog_Open EAppMsgType.Ok
              (Helpers.GenerateTripleMaterials this.Collection.Get "").OutError]
        ∧ (OnGenerateTripleMaterials Helpers Open this).Calls.filter isDialog
          = [MessageDialog_Open EAppMsgType.YesNoCancel ThisWillTakeAWhile,
             MessageDialog_Open EAppMsgType.Ok
              (Helpers.GenerateTripleMaterials this.Collection.Get "").OutError]
        ∧ (OnGenerateTripleMaterials Helpers Open this).Calls.filter isNotification = []) := by
  refine ⟨?_, ?_, ?_⟩
  · intro hfail
    simp [OnGenerateSingleMaterials, hfail, isOkDialog, isDialog, isNotification]
  · intro hfail
    simp [OnGenerateDoubleMaterials, hfail, isOkDialog, isDialog, isNotification]
  · intro hyes hfail
    simp [OnGenerateTripleMaterials, hyes, hfail, isOkDialog, isDialog, isNotification]

/-- Witness for C3: with helpers that fail, each handler opens one OK-only
dialog carrying the error text of its own helper and adds no notification. -/
theorem generate_failure_opens_one_error_dialog_witness :
    ((OnGenerateSingleMaterials FailingHelpers SampleDetails).Calls.filter isOkDialog
        = [MessageDialog_Open EAppMsgType.Ok "Single: missing material"]
      ∧ (OnGenerateSingleMaterials FailingHelpers SampleDetails).Calls.filter isNotification = [])
    ∧ ((OnGenerateDoubleMaterials FailingHelpers SampleDetails).Calls.filter isOkDialog
        = [MessageDialog_Open EAppMsgType.Ok "Double: missing material"]
      ∧ (OnGenerateDoubleMaterials FailingHelpers SampleDetails).Calls.filter isNotification = [])
    ∧ ((OnGenerateTripleMaterials FailingHelpers AnswerYes SampleDetails).Calls.filter isOkDialog
        = [MessageDialog_Open EAppMsgType.Ok "Triple: missing material"]
      ∧ (OnGenerateTripleMaterials FailingHelpers AnswerYes SampleDetails).Calls.filter isNotification = []) :=
  ⟨⟨((generate_failure_opens_one_error_dialog FailingHelpers AnswerYes SampleDetails).1 rfl).1,
    ((generate_failure_opens_one_error_dialog FailingHelpers AnswerYes SampleDetails).1 rfl).2.2⟩,
   ⟨((generate_failure_opens_one_error_dialog FailingHelpers AnswerYes SampleDetails).2.1 rfl).1,
    ((generate_failure_opens_one_error_dialog FailingHelpers AnswerYes SampleDetails).2.1 rfl).2.2⟩,
   ⟨((generate_failure_opens_one_error_dialog FailingHelpers AnswerYes SampleDetails).2.2 rfl rfl).1,
    ((generate_failure_opens_one_error_dialog FailingHelpers AnswerYes SampleDetails).2.2 rfl rfl).2.2⟩⟩

/-- C4: when the material generation helper returns success, each of the
three handlers (the triple one after the answer Yes to the confirmation) adds
exactly one notification, with text "Success" and an expiry duration of 5
seconds, and opens no error dialog: no OK-only dialog, and no dialog at all
but the confirmation of the triple handler. -/
theorem generate_success_adds_one_notification
    (Helpers : FVoxelMaterialCollectionHelpers) (Open : EAppMsgType → FText → EAppReturnType)
    (this : FVoxelMaterialCollectionDetails) :
    ((Helpers.GenerateSingleMaterials this.Collection.Get "").Result = true →
      (OnGenerateSingleMaterials Helpers this).Calls.filter isNotification
          = [AddNotification { Text := "Success", ExpireDuration := 5 }]
        ∧ (OnGenerateSingleMaterials Helpers this).Calls.filter isOkDialog = []
        ∧ (OnGenerateSingleMaterials Helpers this).Calls.filter isDialog
          = [])
    ∧ ((Helpers.GenerateDoubleMaterials this.Collection.Get "").Result = true →
      (OnGenerateDoubleMaterials Helpers this).Calls.filter isNotification
          = [AddNotification { Text := "Success", ExpireDuration := 5 }]
        ∧ (OnGenerateDoubleMaterials Helpers this).Calls.filter isOkDialog = []
        ∧ (OnGenerateDoubleMaterials Helpers this).Calls.filter isDialog
          = [])
    ∧ (Open EAppMsgType.YesNoCancel ThisWillTakeAWhile = EAppReturnType.Yes →
      (Helpers.GenerateTripleMaterials this.Collection.Get "").Result = true →
      (OnGenerateTripleMaterials Helpers Open this).Calls.filter isNotification
          = [AddNotification { Text := "Success", ExpireDuration := 5 }]
        ∧ (OnGenerateTripleMaterials Helpers Open this).Calls.filter isOkDialog = []
        ∧ (OnGenerateTripleMaterials Helpers Open this).Calls.filter isDialog
          = [MessageDialog_Open EAppMsgType.YesNoCancel ThisWillTakeAWhile]) := by
  refine ⟨?_, ?_, ?_⟩
  · intro hok
    simp [OnGenerateSingleMaterials, hok, isOkDialog, isDialog, isNotification]
  · intro hok
    simp [OnGenerateDoubleMaterials, hok, isOkDialog, isDialog, isNotification]
  · intro hyes hok
    simp [OnGenerateTripleMaterials, hyes, hok, isOkDialog, isDialog, isNotification]

/-- Witness for C4: with helpers that succeed, each handler adds the one
"Success" notification of 5 seconds and opens no OK-only dialog. -/
theorem generate_success_adds_one_notification_witness :
    ((OnGenerateSingleMaterials SucceedingHelpers SampleDetails).Calls.filter isNotification
        = [AddNotification { Text := "Success", ExpireDuration := 5 }]
      ∧ (OnGenerateSingleMaterials SucceedingHelpers SampleDetails).Calls.filter isOkDialog = [])
    ∧ ((OnGenerateDoubleMaterials SucceedingHelpers SampleDetails).Calls.filter isNotification
        = [AddNotification { Text := "Success", ExpireDuration := 5 }]
      ∧ (OnGenerateDoubleMaterials SucceedingHelpers SampleDetails).Calls.filter isOkDialog = [])
    ∧ ((OnGenerateTripleMaterials SucceedingHelpers AnswerYes SampleDetails).Calls.filter isNotification
        = [AddNotification { Text := "Success", ExpireDuration := 5 }]
      ∧ (OnGenerateTripleMaterials SucceedingHelpers AnswerYes SampleDetails).Calls.filter isOkDialog = []) :=
  ⟨⟨((generate_success_adds_one_notification SucceedingHelpers AnswerYes SampleDetails).1 rfl).1,
    ((generate_success_adds_one_notification SucceedingHelpers AnswerYes SampleDetails).1 rfl).2.1⟩,
   ⟨((generate_success_adds_one_notification SucceedingHelpers AnswerYes SampleDetails).2.1 rfl).1,
    ((generate_success_adds_one_notification SucceedingHelpers AnswerYes SampleDetails).2.1 rfl).2.1⟩,
   ⟨((generate_success_adds_one_notification SucceedingHelpers AnswerYes SampleDetails).2.2 rfl rfl).1,
    ((generate_success_adds_one_notification SucceedingHelpers AnswerYes SampleDetails).2.2 rfl rfl).2.1⟩⟩

/-- C7: when exactly one object is being customized, a material collection
(the class the customization is registered for, which `CastChecked` asserts),
`CustomizeDetails` adds exactly three buttons to the "Generate" category, in
the order Generate Single, Generate Double, Generate Triple, bound to
`OnGenerateSingleMaterials`, `OnGenerateDoubleMaterials` and
`OnGenerateTripleMaterials`, and records that object as the collection; when
the number of customized objects is zero or greater than one it adds no
button and leaves the recorded collection unchanged. -/
theorem customizeDetails_adds_three_buttons_for_one_collection
    (this : FVoxelMaterialCollectionDetails) (DetailLayout : IDetailLayoutBuilder) :
    (∀ Collection : UVoxelMaterialCollection,
      DetailLayout.ObjectsBeingCustomized = [some (UObject.VoxelMaterialCollection Collection)] →
      FVoxelMaterialCollectionDetails.CustomizeDetails this DetailLayout
        = some ({ Collection := some Collection },
                { ObjectsBeingCustomized := DetailLayout.ObjectsBeingCustomized,
                  Buttons := DetailLayout.Buttons ++ GenerateButtons }))
    ∧ (GenerateButtons.length = 3
      ∧ GenerateButtons.map FButtonRow.CategoryName = ["Generate", "Generate", "Generate"]
      ∧ GenerateButtons.map FButtonRow.ButtonText
        = ["Generate Single", "Generate Double", "Generate Triple"]
      ∧ GenerateButtons.map FButtonRow.OnClicked
        = [EOnClicked.OnGenerateSingleMaterials, EOnClicked.OnGenerateDoubleMaterials,
           EOnClicked.OnGenerateTripleMaterials])
    ∧ (DetailLayout.ObjectsBeingCustomized.length = 0
        ∨ DetailLayout.ObjectsBeingCustomized.length > 1 →
      FVoxelMaterialCollectionDetails.CustomizeDetails this DetailLayout
        = some (this, DetailLayout)) := by
  refine ⟨?_, ⟨rfl, rfl, rfl, rfl⟩, ?_⟩
  · intro Collection hObjects
    simp [FVoxelMaterialCollectionDetails.CustomizeDetails, hObjects, TWeakObjectPtr.Get,
      CastChecked_UVoxelMaterialCollection, FVoxelEditorUtilities.AddButtonToCategory,
      GenerateButtons]
  · intro hlen
    have hne : DetailLayout.ObjectsBeingCustomized.length ≠ 1 := by omega
    simp [FVoxelMaterialCollectionDetails.CustomizeDetails, hne]

/-- Witness for C7: customizing the sample collection on an empty layout
yields the three buttons and records the collection; customizing two objects
adds no button and keeps the recorded collection; so does customizing
none. -/
theorem customizeDetails_adds_three_buttons_for_one_collection_witness :
    FVoxelMaterialCollectionDetails.CustomizeDetails
        FVoxelMaterialCollectionDetails.MakeInstance
        { ObjectsBeingCustomized := [some (UObject.VoxelMaterialCollection SampleCollection)],
          Buttons := [] }
      = some ({ Collection := some SampleCollection },
              { ObjectsBeingCustomized :=
                  [some (UObject.VoxelMaterialCollection SampleCollection)],
                Buttons := GenerateButtons })
    ∧ FVoxelMaterialCollectionDetails.CustomizeDetails SampleDetails
        { ObjectsBeingCustomized :=
            [some (UObject.VoxelMaterialCollection SampleCollection),
             some (UObject.VoxelMaterialCollection SampleCollection)],
          Buttons := [] }
      = some (SampleDetails,
              { ObjectsBeingCustomized :=
                  [some (UObject.VoxelMaterialCollection SampleCollection),
                   some (UObject.VoxelMaterialCollection SampleCollection)],
                Buttons := [] })
    ∧ FVoxelMaterialCollectionDetails.CustomizeDetails SampleDetails
        { ObjectsBeingCustomized := [], Buttons := [] }
      = some (SampleDetails, { ObjectsBeingCustomized := [], Buttons := [] }) :=
  ⟨(customizeDetails_adds_three_buttons_for_one_collection
      FVoxelMaterialCollectionDetails.MakeInstance
      { ObjectsBeingCustomized := [some (UObject.VoxelMaterialCollection SampleCollection)],
        Buttons := [] }).1 SampleCollection rfl,
   (customizeDetails_adds_three_buttons_for_one_collection SampleDetails
      { ObjectsBeingCustomized :=
          [some (UObject.VoxelMaterialCollection SampleCollection),
           some (UObject.VoxelMaterialCollection SampleCollection)],
        Buttons := [] }).2.2 (Or.inr (by decide)),
   (customizeDetails_adds_three_buttons_for_one_collection SampleDetails
      { ObjectsBeingCustomized := [], Buttons := [] }).2.2 (Or.inl rfl)⟩

/-! ### Lifecycle: registry algebra -/

/-- Removing a key distributes over the concatenation of registries. -/
theorem registryRemove_append {ν : Type} (r s : List (FName × ν)) (k : FName) :
    RegistryRemove (r ++ s) k = RegistryRemove r k ++ RegistryRemove s k := by
  simp [RegistryRemove]

/-- Removing a key from the empty registry. -/
theorem registryRemove_nil {ν : Type} (k : FName) :
    RegistryRemove ([] : List (FName × ν)) k = [] := rfl

/-- Removing a key from a registry, entry by entry. -/
theorem registryRemove_cons {ν : Type} (e : FName × ν) (r : List (FName × ν)) (k : FName) :
    RegistryRemove (e :: r) k
      = if e.1 = k then RegistryRemove r k else e :: RegistryRemove r k := by
  by_cases h : e.1 = k <;> simp [RegistryRemove, List.filter_cons, h]

/-- Removing a key that no entry of the registry is under changes nothing. -/
theorem registryRemove_of_fresh {ν : Type} {r : List (FName × ν)} {k : FName}
    (h : ∀ e ∈ r, e.1 ≠ k) : RegistryRemove r k = r := by
  unfold RegistryRemove
  rw [List.filter_eq_self]
  intro e he
  simpa using h e he

/-- Removing one of several keys that no entry of the registry is under
changes nothing. -/
theorem registryRemove_of_fresh_names {ν : Type} {r : List (FName × ν)} {names : List FName}
    (h : ∀ e ∈ r, e.1 ∉ names) {k : FName} (hk : k ∈ names) : RegistryRemove r k = r :=
  registryRemove_of_fresh (fun e he heq => h e he (heq ▸ hk))

/-- Removing an asset type actions object distributes over concatenation. -/
theorem actionsRemove_append (r s : List FAssetTypeActions) (Action : FAssetTypeActions) :
    ActionsRemove (r ++ s) Action = ActionsRemove r Action ++ ActionsRemove s Action := by
  simp [ActionsRemove]

/-- Removing an asset type actions object from the empty list. -/
theorem actionsRemove_nil (Action : FAssetTypeActions) : ActionsRemove [] Action = [] := rfl

/-- Removing an asset type actions object, entry by entry. -/
theorem actionsRemove_cons (Registered : FAssetTypeActions) (r : List FAssetTypeActions)
    (Action : FAssetTypeActions) :
    ActionsRemove (Registered :: r) Action
      = if Registered = Action then ActionsRemove r Action
        else Registered :: ActionsRemove r Action := by
  by_cases h : Registered = Action <;> simp [ActionsRemove, List.filter_cons, h]

/-- Unregistering an asset type actions object of a class that no registered
object has changes nothing. -/
theorem actionsRemove_of_fresh {Actions : List FAssetTypeActions} {names : List FName}
    (h : ∀ Action ∈ Actions, Action.ActionClass ∉ names) {ActionClass : FName}
    (hk : ActionClass ∈ names) (AssetCategory : Nat) :
    ActionsRemove Actions { ActionClass := ActionClass, AssetCategory := AssetCategory }
      = Actions := by
  unfold ActionsRemove
  rw [List.filter_eq_self]
  intro Action hmem
  have hne : Action.ActionClass ≠ ActionClass := fun heq => h Action hmem (heq ▸ hk)
  simp only [bne_iff_ne, ne_eq]
  intro heq
  exact hne (by rw [heq])

/-- Removing a placement category distributes over concatenation. -/
theorem categoriesRemove_append (r s : List FPlacementCategory) (UniqueHandle : FName) :
    CategoriesRemove (r ++ s) UniqueHandle
      = CategoriesRemove r UniqueHandle ++ CategoriesRemove s UniqueHandle := by
  simp [CategoriesRemove]

/-- Removing the one category that has the handle. -/
theorem categoriesRemove_singleton (Category : FPlacementCategory) :
    CategoriesRemove [Category] Category.Info.UniqueHandle = [] := by
  simp [CategoriesRemove]

/-- Removing a handle that no category has changes nothing. -/
theorem categoriesRemove_of_fresh {Categories : List FPlacementCategory} {UniqueHandle : FName}
    (h : ∀ Category ∈ Categories, Category.Info.UniqueHandle ≠ UniqueHandle) :
    CategoriesRemove Categories UniqueHandle = Categories := by
  unfold CategoriesRemove
  rw [List.filter_eq_self]
  intro Category hmem
  simpa using h Category hmem

/-- Adding an item to the category of a handle leaves categories of other
handles as they are. -/
theorem map_addItem_of_fresh (Categories : List FPlacementCategory) (UniqueHandle : FName)
    (Item : FPlaceableItem)
    (hFresh : ∀ Category ∈ Categories, Category.Info.UniqueHandle ≠ UniqueHandle) :
    Categories.map (fun Category =>
        if Category.Info.UniqueHandle == UniqueHandle then
          { Category with Items := Category.Items ++ [Item] }
        else Category) = Categories := by
  induction Categories with
  | nil => rfl
  | cons Category Categories ih =>
    have h1 : Category.Info.UniqueHandle ≠ UniqueHandle := hFresh Category (by simp)
    have h2 := ih (fun C hC => hFresh C (by simp [hC]))
    simp only [List.map_cons, h2]
    simp [h1]

/-- The placement categories after `RegisterPlacementModeExtensions`, when the
host holds no category under the handle of the module yet. -/
theorem registerPlacementModeExtensions_placementCategories (this : FVoxelEditorModule)
    (Host : FVoxelHost)
    (hFresh : ∀ Category ∈ Host.PlacementCategories,
      Category.Info.UniqueHandle ≠ this.PlacementCategoryInfo.UniqueHandle) :
    (this.RegisterPlacementModeExtensions Host).PlacementCategories
      = Host.PlacementCategories
          ++ [{ Info := this.PlacementCategoryInfo, Items := VoxelPlaceableItems }] := by
  have hany : (Host.PlacementCategories.any (fun Category => Category.Info.UniqueHandle
      == this.PlacementCategoryInfo.UniqueHandle)) = false := by
    rw [List.any_eq_false]
    intro Category hmem
    simpa using hFresh Category hmem
  simp only [FVoxelEditorModule.RegisterPlacementModeExtensions,
    FVoxelEditorModule.RegisterPlacementModeExtension,
    FVoxelHost.RegenerateItemsForCategory_PlacementCategories,
    FVoxelHost.RegisterPlaceableItem_PlacementCategories,
    FVoxelHost.RegisterPlacementCategory_PlacementCategories, FVoxelHost.LoadModuleChecked]
  rw [hany]
  simp only [Bool.false_eq_true, if_false, List.map_append, map_addItem_of_fresh _ _ _ hFresh,
    List.map_cons, List.map_nil, beq_self_eq_true, if_true]
  simp [VoxelPlaceableItems]

/-! ### Lifecycle: the module and the host after startup -/

set_option maxRecDepth 100000 in
set_option maxHeartbeats 4000000 in
/-- The registries and the flags of the host after `StartupModule` on a fresh
module. -/
theorem startupModule_host_registries (Host : FVoxelHost) :
    (FVoxelEditorModule.StartupModule FVoxelEditorModule.Fresh Host).2.ClassLayouts
        = Host.ClassLayouts ++
          [("VoxelWorld", "FVoxelWorldDetails"),
           ("VoxelMaterialCollection", "FVoxelMaterialCollectionDetails"),
           ("VoxelLandscapeImporter", "FVoxelLandscapeImporterDetails"),
           ("VoxelMeshImporter", "FVoxelMeshImporterDetails"),
           ("VoxelAssetActor", "FVoxelAssetActorDetails"),
           ("VoxelNode_RangeAnalysisDebuggerFloat", "FRangeAnalysisDebuggerDetails"),
           ("VoxelMeshSpawnerBase", "FVoxelMeshSpawnerBaseDetails")]
    ∧ (FVoxelEditorModule.StartupModule FVoxelEditorModule.Fresh Host).2.PropertyLayouts
        = Host.PropertyLayouts ++
          [("VoxelWorldGeneratorPicker", "FVoxelWorldGeneratorPickerCustomization"),
           ("VoxelTransformableWorldGeneratorPicker", "FVoxelWorldGeneratorPickerCustomization"),
           ("VoxelMaterialCollectionElement", "FVoxelMaterialCollectionElementCustomization"),
           ("VoxelPaintMaterial", "FVoxelPaintMaterialCustomization"),
           ("BoolVector", "FBoolVectorCustomization"),
           ("VoxelBasicSpawnerScaleSettings", "FVoxelBasicSpawnerScaleSettingsCustomization"),
           ("VoxelSpawnerOutputName", "FVoxelSpawnerOutputNameCustomization"),
           ("VoxelGraphOutput", "FVoxelGraphOutputCustomization")]
    ∧ (FVoxelEditorModule.StartupModule FVoxelEditorModule.Fresh Host).2.AssetTypeActions
        = Host.AssetTypeActions ++ VoxelAssetTypeActions
            ((Host.AdvancedAssetCategories.lookup "Voxel").getD Host.NextAssetCategoryBit)
    ∧ (FVoxelEditorModule.StartupModule FVoxelEditorModule.Fresh Host).2.ThumbnailRenderers
        = Host.ThumbnailRenderers ++
          [("UVoxelGraphGenerator", "UVoxelGraphGeneratorThumbnailRenderer"),
           ("UVoxelDataAsset", "UVoxelDataAssetThumbnailRenderer"),
           ("UVoxelHeightmapAsset", "UVoxelHeightmapAssetThumbnailRenderer"),
           ("UVoxelMeshSpawner", "UVoxelMeshSpawnerThumbnailRenderer"),
           ("UVoxelMeshSpawnerGroup", "UVoxelMeshSpawnerGroupThumbnailRenderer"),
           ("UVoxelAssetSpawner", "UVoxelAssetSpawnerThumbnailRenderer"),
           ("UVoxelSpawnerGroup", "UVoxelSpawnerGroupThumbnailRenderer")]
    ∧ (FVoxelEditorModule.StartupModule FVoxelEditorModule.Fresh Host).2.SlateStyles
        = Host.SlateStyles ++ [("VoxelStyle", FVoxelEditorModule.VoxelStyle)]
    ∧ (FVoxelEditorModule.StartupModule FVoxelEditorModule.Fresh Host).2.EditorModes
        = Host.EditorModes ++
          [(FEdModeVoxel.EM_Voxel,
            { Name := "Voxels", IconStyleSet := "VoxelStyle", IconName := "VoxelTools.Tab",
              IconSmallName := "VoxelTools.Tab.Small", bVisible := true })]
    ∧ (FVoxelEditorModule.StartupModule FVoxelEditorModule.Fresh Host).2.CommandContexts
        = (if Host.CommandContexts.contains "VoxelEditor" then Host.CommandContexts
           else Host.CommandContexts ++ ["VoxelEditor"])
    ∧ (FVoxelEditorModule.StartupModule FVoxelEditorModule.Fresh Host).2.GlobalLevelEditorActions
        = Host.GlobalLevelEditorActions
            ++ [{ Command := "RefreshVoxelWorlds", MatchingGenerator := none }]
    ∧ (FVoxelEditorModule.StartupModule FVoxelEditorModule.Fresh Host).2.bUObjectInitialized
        = Host.bUObjectInitialized
    ∧ (FVoxelEditorModule.StartupModule FVoxelEditorModule.Fresh Host).2.bPlacementModeLoaded
        = true
    ∧ (FVoxelEditorModule.StartupModule FVoxelEditorModule.Fresh Host).2.bPropertyEditorLoaded
        = true
    ∧ (FVoxelEditorModule.StartupModule FVoxelEditorModule.Fresh Host).2.bAssetToolsLoaded
        = true := by
  refine ⟨?_, ?_, ?_, ?_, ?_, ?_, ?_, ?_, ?_, ?_, ?_, ?_⟩ <;>
    simp [FVoxelEditorModule.StartupModule, FVoxelEditorModule.RegisterAssetTools,
      FVoxelEditorModule.RegisterAssetTypeAction, FVoxelEditorModule.RegisterCustomClassLayouts,
      FVoxelEditorModule.RegisterCustomClassLayout,
      FVoxelEditorModule.RegisterCustomPropertyLayout,
      FVoxelEditorModule.RegisterPlacementModeExtensions,
      FVoxelEditorModule.RegisterPlacementModeExtension, FVoxelEditorModule.Fresh,
      FVoxelHost.RegisterAdvancedAssetCategory, FVoxelHost.LoadModuleChecked, RegistryAdd,
      VoxelAssetTypeActions, VoxelAssetTypeActionClasses, FVoxelEditorCommands.Get,
      FVoxelEditorModule.VoxelStyle]

set_option maxRecDepth 100000 in
set_option maxHeartbeats 4000000 in
/-- The module after `StartupModule` on a fresh module. -/
theorem startupModule_module (Host : FVoxelHost) :
    (FVoxelEditorModule.StartupModule FVoxelEditorModule.Fresh Host).1
      = { RegisteredAssetTypeActions := VoxelAssetTypeActions
            ((Host.AdvancedAssetCategories.lookup "Voxel").getD Host.NextAssetCategoryBit),
          RegisteredCustomClassLayouts := VoxelClassLayoutNames,
          RegisteredCustomPropertyLayouts := VoxelPropertyLayoutNames,
          VoxelAssetCategoryBit :=
            (Host.AdvancedAssetCategories.lookup "Voxel").getD Host.NextAssetCategoryBit,
          PlacementCategoryInfo := FVoxelEditorModule.Fresh.PlacementCategoryInfo,
          StyleSet := some FVoxelEditorModule.VoxelStyle } := by
  simp [FVoxelEditorModule.StartupModule, FVoxelEditorModule.RegisterAssetTools,
    FVoxelEditorModule.RegisterAssetTypeAction, FVoxelEditorModule.RegisterCustomClassLayouts,
    FVoxelEditorModule.RegisterCustomClassLayout,
    FVoxelEditorModule.RegisterCustomPropertyLayout, FVoxelEditorModule.Fresh,
    FVoxelHost.RegisterAdvancedAssetCategory, FVoxelHost.LoadModuleChecked,
    VoxelAssetTypeActions, VoxelAssetTypeActionClasses, VoxelClassLayoutNames,
    VoxelPropertyLayoutNames]


set_option maxRecDepth 100000 in
set_option maxHeartbeats 4000000 in
/-- The placement categories after `StartupModule` on a fresh module, when the
host holds no category under the handle Voxel yet. -/
theorem startupModule_placementCategories (Host : FVoxelHost)
    (hFresh : ∀ Category ∈ Host.PlacementCategories, Category.Info.UniqueHandle ≠ "Voxel") :
    (FVoxelEditorModule.StartupModule FVoxelEditorModule.Fresh Host).2.PlacementCategories
      = Host.PlacementCategories
          ++ [{ Info := FVoxelEditorModule.Fresh.PlacementCategoryInfo,
                Items := VoxelPlaceableItems }] := by
  simp [FVoxelEditorModule.StartupModule, FVoxelEditorModule.RegisterAssetTools,
    FVoxelEditorModule.RegisterAssetTypeAction, FVoxelEditorModule.RegisterCustomClassLayouts,
    FVoxelEditorModule.RegisterCustomClassLayout,
    FVoxelEditorModule.RegisterCustomPropertyLayout, FVoxelEditorModule.Fresh,
    FVoxelHost.RegisterAdvancedAssetCategory, FVoxelHost.LoadModuleChecked,
    FVoxelEditorCommands.Get]
  rw [registerPlacementModeExtensions_placementCategories]
  exact hFresh

/-- The toggle condition of the first loop of `RefreshVoxelWorlds_Execute`. -/
theorem toggle_condition_iff (MatchingGenerator : Option FName) (Actor : AVoxelWorld) :
    (Actor.bIsCreated
        && (MatchingGenerator.isNone || Actor.WorldGenerator == MatchingGenerator)) = true
      ↔ Actor.bIsCreated = true
          ∧ (MatchingGenerator = none ∨ Actor.WorldGenerator = MatchingGenerator) := by
  cases MatchingGenerator <;> simp

/-- Number of `Toggle` calls the first loop makes on the actor at an
iteration position, the loop starting at position `Start`. -/
theorem toggle_count_voxelWorlds (MatchingGenerator : Option FName) (It : Nat) :
    ∀ (Actors : List AVoxelWorld) (Start : Nat),
      (RefreshVoxelWorlds_Execute_VoxelWorlds MatchingGenerator Start Actors).count
          (FActorCall.Toggle It)
        = if Start ≤ It then
            match Actors[It - Start]? with
            | some Actor =>
              if Actor.bIsCreated
                  && (MatchingGenerator.isNone || Actor.WorldGenerator == MatchingGenerator)
              then 2 else 0
            | none => 0
          else 0 := by
  intro Actors
  induction Actors with
  | nil =>
    intro Start
    simp [RefreshVoxelWorlds_Execute_VoxelWorlds]
  | cons Actor Actors ih =>
    intro Start
    rw [RefreshVoxelWorlds_Execute_VoxelWorlds, List.count_append, ih (Start + 1)]
    rcases Nat.lt_trichotomy It Start with hlt | heq | hgt
    · have h1 : ¬ Start ≤ It := by omega
      have h2 : ¬ Start + 1 ≤ It := by omega
      have h3 : Start ≠ It := by omega
      rw [if_neg h1, if_neg h2]
      split <;> simp [List.count_cons, h3]
    · subst heq
      have h2 : ¬ It + 1 ≤ It := by omega
      rw [if_neg h2, if_pos (Nat.le_refl It)]
      simp only [Nat.sub_self, List.getElem?_cons_zero]
      split <;> simp [List.count_cons]
    · have h1 : Start ≤ It := by omega
      have h2 : Start + 1 ≤ It := by omega
      have h3 : Start ≠ It := by omega
      have h4 : It - Start = (It - (Start + 1)) + 1 := by omega
      rw [if_pos h1, if_pos h2, h4, List.getElem?_cons_succ]
      split <;> simp [List.count_cons, h3]

/-- The second loop of `RefreshVoxelWorlds_Execute` makes no `Toggle` call. -/
theorem toggle_count_assetActors (It : Nat) :
    ∀ (Actors : List AVoxelAssetActor) (Start : Nat),
      (RefreshVoxelWorlds_Execute_AssetActors Start Actors).count (FActorCall.Toggle It) = 0 := by
  intro Actors
  induction Actors with
  | nil =>
    intro Start
    simp [RefreshVoxelWorlds_Execute_AssetActors]
  | cons Actor Actors ih =>
    intro Start
    simp [RefreshVoxelWorlds_Execute_AssetActors, List.count_cons, ih (Start + 1)]

/-- Number of `Toggle` calls `RefreshVoxelWorlds_Execute` makes on the voxel
world at an iteration position of an editor world. -/
theorem toggle_count_execute (World : UWorld) (MatchingGenerator : Option FName)
    (hEditor : World.WorldType = EWorldType.Editor ∨ World.WorldType = EWorldType.EditorPreview)
    (It : Nat) (Actor : AVoxelWorld) (hActor : World.VoxelWorlds[It]? = some Actor) :
    (RefreshVoxelWorlds_Execute (ViewportOn World) MatchingGenerator).count (FActorCall.Toggle It)
      = if Actor.bIsCreated = true
            ∧ (MatchingGenerator = none ∨ Actor.WorldGenerator = MatchingGenerator)
        then 2 else 0 := by
  have hType : (World.WorldType == EWorldType.Editor
      || World.WorldType == EWorldType.EditorPreview) = true := by
    rcases hEditor with h | h <;> simp [h]
  simp only [RefreshVoxelWorlds_Execute, ViewportOn, hType, if_true, List.count_append,
    toggle_count_voxelWorlds, toggle_count_assetActors, Nat.zero_le, Nat.sub_zero, hActor,
    Nat.add_zero]
  by_cases hc : Actor.bIsCreated = true
      ∧ (MatchingGenerator = none ∨ Actor.WorldGenerator = MatchingGenerator)
  · rw [if_pos hc, if_pos ((toggle_condition_iff MatchingGenerator Actor).mpr hc)]
  · rw [if_neg hc, if_neg (fun h => hc ((toggle_condition_iff MatchingGenerator Actor).mp h))]

/-- C10: in a world of type Editor or EditorPreview shown by the active
viewport, `RefreshVoxelWorlds` calls `Toggle` exactly twice on every voxel
world that is created and whose generator is `MatchingGenerator` when that is
not null, and never on another voxel world; with a null `MatchingGenerator`,
which is what the action mapped to the Ctrl+F5 command passes, every created
voxel world is toggled exactly twice. -/
theorem refreshVoxelWorlds_toggles_twice (World : UWorld) (MatchingGenerator : Option FName)
    (hEditor : World.WorldType = EWorldType.Editor
      ∨ World.WorldType = EWorldType.EditorPreview) :
    (∀ (It : Nat) (Actor : AVoxelWorld), World.VoxelWorlds[It]? = some Actor →
      (FVoxelEditorModule.RefreshVoxelWorlds (ViewportOn World) MatchingGenerator).count
          (FActorCall.Toggle It)
        = if Actor.bIsCreated = true
              ∧ (MatchingGenerator = none ∨ Actor.WorldGenerator = MatchingGenerator)
          then 2 else 0)
    ∧ (∀ (It : Nat) (Actor : AVoxelWorld), World.VoxelWorlds[It]? = some Actor →
      (FVoxelEditorModule.RefreshVoxelWorlds (ViewportOn World) none).count
          (FActorCall.Toggle It)
        = if Actor.bIsCreated = true then 2 else 0)
    ∧ (∀ Host : FVoxelHost,
      (FVoxelEditorModule.StartupModule FVoxelEditorModule.Fresh Host).2.GlobalLevelEditorActions
        = Host.GlobalLevelEditorActions
            ++ [{ Command := "RefreshVoxelWorlds", MatchingGenerator := none }])
    ∧ (∀ (It : Nat) (Actor : AVoxelWorld), World.VoxelWorlds[It]? = some Actor →
      ((FMappedAction.mk "RefreshVoxelWorlds" none).Execute (ViewportOn World)).count
          (FActorCall.Toggle It)
        = if Actor.bIsCreated = true then 2 else 0) := by
  refine ⟨?_, ?_, ?_, ?_⟩
  · intro It Actor hActor
    exact toggle_count_execute World MatchingGenerator hEditor It Actor hActor
  · intro It Actor hActor
    have h := toggle_count_execute World none hEditor It Actor hActor
    simpa [FVoxelEditorModule.RefreshVoxelWorlds] using h
  · intro Host
    exact (startupModule_host_registries Host).2.2.2.2.2.2.2.1
  · intro It Actor hActor
    have h := toggle_count_execute World none hEditor It Actor hActor
    simpa [FMappedAction.Execute] using h

/-- Witness for C10: in the sample editor world, refreshing for the generator
G_Hills toggles the first voxel world twice and the other two never;
refreshing without a generator toggles the third one twice as well. -/
theorem refreshVoxelWorlds_toggles_twice_witness :
    (FVoxelEditorModule.RefreshVoxelWorlds (ViewportOn SampleWorld) (some "G_Hills")).count
        (FActorCall.Toggle 0) = 2
    ∧ (FVoxelEditorModule.RefreshVoxelWorlds (ViewportOn SampleWorld) (some "G_Hills")).count
        (FActorCall.Toggle 1) = 0
    ∧ (FVoxelEditorModule.RefreshVoxelWorlds (ViewportOn SampleWorld) (some "G_Hills")).count
        (FActorCall.Toggle 2) = 0
    ∧ (FVoxelEditorModule.RefreshVoxelWorlds (ViewportOn SampleWorld) none).count
        (FActorCall.Toggle 2) = 2 :=
  ⟨((refreshVoxelWorlds_toggles_twice SampleWorld (some "G_Hills") (Or.inl rfl)).1 0
      { bIsCreated := true, WorldGenerator := some "G_Hills" } rfl).trans (by decide),
   ((refreshVoxelWorlds_toggles_twice SampleWorld (some "G_Hills") (Or.inl rfl)).1 1
      { bIsCreated := false, WorldGenerator := some "G_Hills" } rfl).trans (by decide),
   ((refreshVoxelWorlds_toggles_twice SampleWorld (some "G_Hills") (Or.inl rfl)).1 2
      { bIsCreated := true, WorldGenerator := some "G_Caves" } rfl).trans (by decide),
   ((refreshVoxelWorlds_toggles_twice SampleWorld none (Or.inl rfl)).2.1 2
      { bIsCreated := true, WorldGenerator := some "G_Caves" } rfl).trans (by decide)⟩

/-! ### Lifecycle: the calls of startup and shutdown -/

set_option maxRecDepth 100000 in
set_option maxHeartbeats 4000000 in
/-- The calls `StartupModule` makes on the host, on a fresh module, in order;
the asset type actions carry the category bit the host returned. -/
theorem startupModule_callLog (Host : FVoxelHost) :
    (FVoxelEditorModule.StartupModule FVoxelEditorModule.Fresh Host).2.CallLog
      = Host.CallLog ++
        ([FModuleCall.OnPostReimport_AddLambda,
          FModuleCall.Commands_Register "VoxelEditor",
          FModuleCall.MapAction "RefreshVoxelWorlds",
          FModuleCall.BindEditorDelegatesDelegate_AddStatic,
          FModuleCall.LogMessageDelegate_AddStatic,
          FModuleCall.ShowNotificationDelegate_AddStatic,
          FModuleCall.RegisterLogListing "Voxel",
          FModuleCall.RegisterAdvancedAssetCategory "Voxel",
          FModuleCall.RegisterPlacementCategory "Voxel",
          FModuleCall.RegisterPlaceableItem "Voxel" "AVoxelWorld",
          FModuleCall.RegisterPlaceableItem "Voxel" "AVoxelDisableEditsBox",
          FModuleCall.RegisterPlaceableItem "Voxel" "AVoxelAssetActor",
          FModuleCall.RegisterPlaceableItem "Voxel" "AVoxelMeshImporter",
          FModuleCall.RegisterPlaceableItem "Voxel" "AVoxelLandscapeImporter",
          FModuleCall.RegenerateItemsForCategory "AllClasses",
          FModuleCall.RegisterCustomClassLayout "VoxelWorld" "FVoxelWorldDetails",
          FModuleCall.RegisterCustomClassLayout "VoxelMaterialCollection"
            "FVoxelMaterialCollectionDetails",
          FModuleCall.RegisterCustomClassLayout "VoxelLandscapeImporter"
            "FVoxelLandscapeImporterDetails",
          FModuleCall.RegisterCustomClassLayout "VoxelMeshImporter" "FVoxelMeshImporterDetails",
          FModuleCall.RegisterCustomClassLayout "VoxelAssetActor" "FVoxelAssetActorDetails",
          FModuleCall.RegisterCustomClassLayout "VoxelNode_RangeAnalysisDebuggerFloat"
            "FRangeAnalysisDebuggerDetails",
          FModuleCall.RegisterCustomClassLayout "VoxelMeshSpawnerBase"
            "FVoxelMeshSpawnerBaseDetails",
          FModuleCall.RegisterCustomPropertyTypeLayout "VoxelWorldGeneratorPicker"
            "FVoxelWorldGeneratorPickerCustomization",
          FModuleCall.RegisterCustomPropertyTypeLayout "VoxelTransformableWorldGeneratorPicker"
            "FVoxelWorldGeneratorPickerCustomization",
          FModuleCall.RegisterCustomPropertyTypeLayout "VoxelMaterialCollectionElement"
            "FVoxelMaterialCollectionElementCustomization",
          FModuleCall.RegisterCustomPropertyTypeLayout "VoxelPaintMaterial"
            "FVoxelPaintMaterialCustomization",
          FModuleCall.RegisterCustomPropertyTypeLayout "BoolVector" "FBoolVectorCustomization",
          FModuleCall.RegisterCustomPropertyTypeLayout "VoxelBasicSpawnerScaleSettings"
            "FVoxelBasicSpawnerScaleSettingsCustomization",
          FModuleCall.RegisterCustomPropertyTypeLayout "VoxelSpawnerOutputName"
            "FVoxelSpawnerOutputNameCustomization",
          FModuleCall.RegisterCustomPropertyTypeLayout "VoxelGraphOutput"
            "FVoxelGraphOutputCustomization",
          FModuleCall.NotifyCustomizationModuleChanged]
        ++ (VoxelAssetTypeActions
              ((Host.AdvancedAssetCategories.lookup "Voxel").getD
                Host.NextAssetCategoryBit)).map FModuleCall.RegisterAssetTypeActions
        ++ [FModuleCall.RegisterCustomRenderer "UVoxelGraphGenerator"
              "UVoxelGraphGeneratorThumbnailRenderer",
            FModuleCall.RegisterCustomRenderer "UVoxelDataAsset"
              "UVoxelDataAssetThumbnailRenderer",
            FModuleCall.RegisterCustomRenderer "UVoxelHeightmapAsset"
              "UVoxelHeightmapAssetThumbnailRenderer",
            FModuleCall.RegisterCustomRenderer "UVoxelMeshSpawner"
              "UVoxelMeshSpawnerThumbnailRenderer",
            FModuleCall.RegisterCustomRenderer "UVoxelMeshSpawnerGroup"
              "UVoxelMeshSpawnerGroupThumbnailRenderer",
            FModuleCall.RegisterCustomRenderer "UVoxelAssetSpawner"
              "UVoxelAssetSpawnerThumbnailRenderer",
            FModuleCall.RegisterCustomRenderer "UVoxelSpawnerGroup"
              "UVoxelSpawnerGroupThumbnailRenderer",
            FModuleCall.RegisterSlateStyle "VoxelStyle",
            FModuleCall.RegisterMode FEdModeVoxel.EM_Voxel]) := by
  simp [FVoxelEditorModule.StartupModule, FVoxelEditorModule.RegisterAssetTools,
    FVoxelEditorModule.RegisterAssetTypeAction, FVoxelEditorModule.RegisterCustomClassLayouts,
    FVoxelEditorModule.RegisterCustomClassLayout,
    FVoxelEditorModule.RegisterCustomPropertyLayout,
    FVoxelEditorModule.RegisterPlacementModeExtensions,
    FVoxelEditorModule.RegisterPlacementModeExtension, FVoxelEditorModule.Fresh,
    FVoxelHost.RegisterAdvancedAssetCategory, FVoxelHost.LoadModuleChecked,
    VoxelAssetTypeActions, VoxelAssetTypeActionClasses, FVoxelEditorCommands.Get,
    FVoxelEditorModule.VoxelStyle]

/-- Calls and frame of the class layout loop of `UnregisterClassLayout`. -/
theorem foldl_unregisterCustomClassLayout (Names : List FName) :
    ∀ Host : FVoxelHost,
      (Names.foldl (fun Host Name => Host.UnregisterCustomClassLayout Name) Host).CallLog
          = Host.CallLog ++ Names.map FModuleCall.UnregisterCustomClassLayout
        ∧ (Names.foldl (fun Host Name => Host.UnregisterCustomClassLayout Name)
            Host).bAssetToolsLoaded = Host.bAssetToolsLoaded := by
  induction Names with
  | nil => intro Host; simp
  | cons Name Names ih =>
    intro Host
    simp [List.foldl_cons, ih (Host.UnregisterCustomClassLayout Name)]

/-- Calls and frame of the property layout loop of `UnregisterClassLayout`. -/
theorem foldl_unregisterCustomPropertyTypeLayout (Names : List FName) :
    ∀ Host : FVoxelHost,
      (Names.foldl (fun Host Name => Host.UnregisterCustomPropertyTypeLayout Name) Host).CallLog
          = Host.CallLog ++ Names.map FModuleCall.UnregisterCustomPropertyTypeLayout
        ∧ (Names.foldl (fun Host Name => Host.UnregisterCustomPropertyTypeLayout Name)
            Host).bAssetToolsLoaded = Host.bAssetToolsLoaded := by
  induction Names with
  | nil => intro Host; simp
  | cons Name Names ih =>
    intro Host
    simp [List.foldl_cons, ih (Host.UnregisterCustomPropertyTypeLayout Name)]

/-- Calls of the loop of `UnregisterAssetTools`. -/
theorem foldl_unregisterAssetTypeActions (Actions : List FAssetTypeActions) :
    ∀ Host : FVoxelHost,
      (Actions.foldl (fun Host Action => Host.UnregisterAssetTypeActions Action) Host).CallLog
          = Host.CallLog ++ Actions.map FModuleCall.UnregisterAssetTypeActions := by
  induction Actions with
  | nil => intro Host; simp
  | cons Action Actions ih =>
    intro Host
    simp [List.foldl_cons, ih (Host.UnregisterAssetTypeActions Action)]

/-- The calls `ShutdownModule` makes on the host, in order, for any module
state and any host. -/
theorem shutdownModule_callLog (this : FVoxelEditorModule) (Host : FVoxelHost) :
    (FVoxelEditorModule.ShutdownModule this Host).2.CallLog
      = Host.CallLog
        ++ [FModuleCall.UnregisterMode FEdModeVoxel.EM_Voxel]
        ++ (if Host.bUObjectInitialized then
              VoxelThumbnailClasses.map FModuleCall.UnregisterCustomRenderer
            else [])
        ++ (if Host.bPlacementModeLoaded then
              [FModuleCall.UnregisterPlacementCategory this.PlacementCategoryInfo.UniqueHandle]
            else [])
        ++ (if Host.bPropertyEditorLoaded then
              this.RegisteredCustomClassLayouts.map FModuleCall.UnregisterCustomClassLayout
                ++ this.RegisteredCustomPropertyLayouts.map
                    FModuleCall.UnregisterCustomPropertyTypeLayout
                ++ [FModuleCall.NotifyCustomizationModuleChanged]
            else [])
        ++ (if Host.bAssetToolsLoaded then
              this.RegisteredAssetTypeActions.map FModuleCall.UnregisterAssetTypeActions
            else [])
        ++ (match this.StyleSet with
            | some Style => [FModuleCall.UnRegisterSlateStyle Style.StyleSetName]
            | none => []) := by
  cases hS : this.StyleSet <;> cases h1 : Host.bUObjectInitialized <;>
    cases h2 : Host.bPlacementModeLoaded <;> cases h3 : Host.bPropertyEditorLoaded <;>
    cases h4 : Host.bAssetToolsLoaded <;>
    simp [FVoxelEditorModule.ShutdownModule, FVoxelEditorModule.UnregisterAssetTools,
      FVoxelEditorModule.UnregisterClassLayout,
      FVoxelEditorModule.UnregisterPlacementModeExtensions, FVoxelHost.IsModuleLoaded,
      hS, h1, h2, h3, h4, VoxelThumbnailClasses, foldl_unregisterCustomClassLayout,
      foldl_unregisterCustomPropertyTypeLayout, foldl_unregisterAssetTypeActions]

/-- The calls issued by something that extends the call log by `Calls`. -/
theorem issuedCalls_of_append (Before After : FVoxelHost) (Calls : List FModuleCall)
    (h : After.CallLog = Before.CallLog ++ Calls) : IssuedCalls Before After = Calls := by
  simp [IssuedCalls, h]

/-- The class and property layouts and the thumbnail classes `StartupModule`
registers on a fresh module, and the asset type actions it registers, read
off the calls it issues. -/
theorem startupModule_registered (Host : FVoxelHost) :
    (IssuedCalls Host
        (FVoxelEditorModule.StartupModule FVoxelEditorModule.Fresh Host).2).filterMap
        FModuleCall.registeredClassLayout = VoxelClassLayoutNames
    ∧ (IssuedCalls Host
        (FVoxelEditorModule.StartupModule FVoxelEditorModule.Fresh Host).2).filterMap
        FModuleCall.registeredPropertyLayout = VoxelPropertyLayoutNames
    ∧ (IssuedCalls Host
        (FVoxelEditorModule.StartupModule FVoxelEditorModule.Fresh Host).2).filterMap
        FModuleCall.registeredThumbnailClass = VoxelThumbnailClasses
    ∧ (IssuedCalls Host
        (FVoxelEditorModule.StartupModule FVoxelEditorModule.Fresh Host).2).filterMap
        FModuleCall.registeredAssetTypeActions
      = VoxelAssetTypeActions
          ((Host.AdvancedAssetCategories.lookup "Voxel").getD Host.NextAssetCategoryBit) := by
  rw [issuedCalls_of_append _ _ _ (startupModule_callLog Host)]
  refine ⟨?_, ?_, ?_, ?_⟩ <;>
    simp [FModuleCall.registeredClassLayout, FModuleCall.registeredPropertyLayout,
      FModuleCall.registeredThumbnailClass, FModuleCall.registeredAssetTypeActions,
      VoxelClassLayoutNames, VoxelPropertyLayoutNames, VoxelThumbnailClasses,
      VoxelAssetTypeActions, VoxelAssetTypeActionClasses]

/-- Filtering the unregistered class layouts out of calls of another kind. -/
theorem filterMap_unregisteredClassLayout_map (Names : List FName) :
    (Names.map FModuleCall.UnregisterCustomClassLayout).filterMap
        FModuleCall.unregisteredClassLayout = Names
    ∧ (Names.map FModuleCall.UnregisterCustomClassLayout).filterMap
        FModuleCall.unregisteredPropertyLayout = []
    ∧ (Names.map FModuleCall.UnregisterCustomClassLayout).filterMap
        FModuleCall.unregisteredAssetTypeActions = []
    ∧ (Names.map FModuleCall.UnregisterCustomClassLayout).filterMap
        FModuleCall.unregisteredThumbnailClass = [] := by
  induction Names with
  | nil => simp
  | cons Name Names ih =>
    obtain ⟨h1, h2, h3, h4⟩ := ih
    simp [FModuleCall.unregisteredClassLayout, FModuleCall.unregisteredPropertyLayout,
      FModuleCall.unregisteredAssetTypeActions, FModuleCall.unregisteredThumbnailClass,
      h1, h2, h3, h4]

/-- Filtering the unregistered property layouts out of calls of another
kind. -/
theorem filterMap_unregisteredPropertyLayout_map (Names : List FName) :
    (Names.map FModuleCall.UnregisterCustomPropertyTypeLayout).filterMap
        FModuleCall.unregisteredPropertyLayout = Names
    ∧ (Names.map FModuleCall.UnregisterCustomPropertyTypeLayout).filterMap
        FModuleCall.unregisteredClassLayout = []
    ∧ (Names.map FModuleCall.UnregisterCustomPropertyTypeLayout).filterMap
        FModuleCall.unregisteredAssetTypeActions = []
    ∧ (Names.map FModuleCall.UnregisterCustomPropertyTypeLayout).filterMap
        FModuleCall.unregisteredThumbnailClass = [] := by
  induction Names with
  | nil => simp
  | cons Name Names ih =>
    obtain ⟨h1, h2, h3, h4⟩ := ih
    simp [FModuleCall.unregisteredClassLayout, FModuleCall.unregisteredPropertyLayout,
      FModuleCall.unregisteredAssetTypeActions, FModuleCall.unregisteredThumbnailClass,
      h1, h2, h3, h4]

/-- Filtering the unregistered asset type actions out of calls of another
kind. -/
theorem filterMap_unregisteredAssetTypeActions_map (Actions : List FAssetTypeActions) :
    (Actions.map FModuleCall.UnregisterAssetTypeActions).filterMap
        FModuleCall.unregisteredAssetTypeActions = Actions
    ∧ (Actions.map FModuleCall.UnregisterAssetTypeActions).filterMap
        FModuleCall.unregisteredClassLayout = []
    ∧ (Actions.map FModuleCall.UnregisterAssetTypeActions).filterMap
        FModuleCall.unregisteredPropertyLayout = []
    ∧ (Actions.map FModuleCall.UnregisterAssetTypeActions).filterMap
        FModuleCall.unregisteredThumbnailClass = [] := by
  induction Actions with
  | nil => simp
  | cons Action Actions ih =>
    obtain ⟨h1, h2, h3, h4⟩ := ih
    simp [FModuleCall.unregisteredClassLayout, FModuleCall.unregisteredPropertyLayout,
      FModuleCall.unregisteredAssetTypeActions, FModuleCall.unregisteredThumbnailClass,
      h1, h2, h3, h4]

/-- What `ShutdownModule` unregisters, by kind, read off the calls it issues,
for any module state and any host. -/
theorem shutdownModule_unregistered (this : FVoxelEditorModule) (Host : FVoxelHost) :
    (IssuedCalls Host (FVoxelEditorModule.ShutdownModule this Host).2).filterMap
        FModuleCall.unregisteredClassLayout
      = (if Host.bPropertyEditorLoaded then this.RegisteredCustomClassLayouts else [])
    ∧ (IssuedCalls Host (FVoxelEditorModule.ShutdownModule this Host).2).filterMap
        FModuleCall.unregisteredPropertyLayout
      = (if Host.bPropertyEditorLoaded then this.RegisteredCustomPropertyLayouts else [])
    ∧ (IssuedCalls Host (FVoxelEditorModule.ShutdownModule this Host).2).filterMap
        FModuleCall.unregisteredAssetTypeActions
      = (if Host.bAssetToolsLoaded then this.RegisteredAssetTypeActions else [])
    ∧ (IssuedCalls Host (FVoxelEditorModule.ShutdownModule this Host).2).filterMap
        FModuleCall.unregisteredThumbnailClass
      = (if Host.bUObjectInitialized then VoxelThumbnailClasses else []) := by
  have hlog := shutdownModule_callLog this Host
  simp only [List.append_assoc] at hlog
  rw [issuedCalls_of_append _ _ _ hlog]
  cases hS : this.StyleSet <;> cases h1 : Host.bUObjectInitialized <;>
    cases h2 : Host.bPlacementModeLoaded <;> cases h3 : Host.bPropertyEditorLoaded <;>
    cases h4 : Host.bAssetToolsLoaded <;>
    simp [FModuleCall.unregisteredClassLayout, FModuleCall.unregisteredPropertyLayout,
      FModuleCall.unregisteredAssetTypeActions, FModuleCall.unregisteredThumbnailClass,
      VoxelThumbnailClasses, List.filterMap_append, filterMap_unregisteredClassLayout_map,
      filterMap_unregisteredPropertyLayout_map, filterMap_unregisteredAssetTypeActions_map,
      -List.filterMap_map]

/-! ### Lifecycle: startup followed by shutdown -/

/-- The calls `ShutdownModule` makes right after `StartupModule` on a fresh
module, on a host whose object system is initialised. -/
theorem shutdown_after_startup_issuedCalls (Host : FVoxelHost)
    (hObjects : Host.bUObjectInitialized = true) :
    IssuedCalls (FVoxelEditorModule.StartupModule FVoxelEditorModule.Fresh Host).2
        (FVoxelEditorModule.ShutdownModule
          (FVoxelEditorModule.StartupModule FVoxelEditorModule.Fresh Host).1
          (FVoxelEditorModule.StartupModule FVoxelEditorModule.Fresh Host).2).2
      = [FModuleCall.UnregisterMode FEdModeVoxel.EM_Voxel]
        ++ VoxelThumbnailClasses.map FModuleCall.UnregisterCustomRenderer
        ++ [FModuleCall.UnregisterPlacementCategory "Voxel"]
        ++ VoxelClassLayoutNames.map FModuleCall.UnregisterCustomClassLayout
        ++ VoxelPropertyLayoutNames.map FModuleCall.UnregisterCustomPropertyTypeLayout
        ++ [FModuleCall.NotifyCustomizationModuleChanged]
        ++ (VoxelAssetTypeActions
              ((Host.AdvancedAssetCategories.lookup "Voxel").getD
                Host.NextAssetCategoryBit)).map FModuleCall.UnregisterAssetTypeActions
        ++ [FModuleCall.UnRegisterSlateStyle "VoxelStyle"] := by
  obtain ⟨-, -, -, -, -, -, -, -, hObj, hPM, hPE, hAT⟩ := startupModule_host_registries Host
  apply issuedCalls_of_append
  rw [shutdownModule_callLog, hObj, hPM, hPE, hAT, hObjects, startupModule_module]
  simp [FVoxelEditorModule.Fresh, FVoxelEditorModule.VoxelStyle]
set_option maxRecDepth 100000 in
set_option maxHeartbeats 4000000 in
/-- On a host that holds no entry under a key of the module and whose object
system is initialised, the seven registries are after `StartupModule` and
`ShutdownModule` on a fresh module what they were before. -/
theorem registriesRestored_after_startup_shutdown (Host : FVoxelHost)
    (hObjects : Host.bUObjectInitialized = true) (hFresh : Host.HoldsNoVoxelEntry) :
    RegistriesRestored Host
      (FVoxelEditorModule.ShutdownModule
        (FVoxelEditorModule.StartupModule FVoxelEditorModule.Fresh Host).1
        (FVoxelEditorModule.StartupModule FVoxelEditorModule.Fresh Host).2).2 := by
  obtain ⟨hCL, hPL, hATA, hTR, hSS, hEM, -, -, hObj, hPM, hPE, hAT⟩ :=
    startupModule_host_registries Host
  have hPC := startupModule_placementCategories Host hFresh.PlacementCategories
  have hfSS := hFresh.SlateStyles
  have hfTR := hFresh.ThumbnailRenderers
  have hfPC := hFresh.PlacementCategories
  have hfCL := hFresh.ClassLayouts
  have hfPL := hFresh.PropertyLayouts
  have hfATA := hFresh.AssetTypeActions
  have hfEM := hFresh.EditorModes
  have hHandle : FVoxelEditorModule.Fresh.PlacementCategoryInfo.UniqueHandle = "Voxel" := rfl
  have hSingle : CategoriesRemove
      [{ Info := FVoxelEditorModule.Fresh.PlacementCategoryInfo, Items := VoxelPlaceableItems }]
      "Voxel" = [] :=
    categoriesRemove_singleton
      { Info := FVoxelEditorModule.Fresh.PlacementCategoryInfo, Items := VoxelPlaceableItems }
  rw [startupModule_module]
  unfold RegistriesRestored
  refine ⟨?_, ?_, ?_, ?_, ?_, ?_, ?_⟩
  · simp [FVoxelEditorModule.ShutdownModule, FVoxelEditorModule.UnregisterAssetTools,
      FVoxelEditorModule.UnregisterClassLayout,
      FVoxelEditorModule.UnregisterPlacementModeExtensions, FVoxelHost.IsModuleLoaded,
      hObj, hPM, hPE, hAT, hObjects, hSS, VoxelAssetTypeActions, VoxelAssetTypeActionClasses,
      VoxelClassLayoutNames, VoxelPropertyLayoutNames, registryRemove_append,
      registryRemove_cons, registryRemove_nil, registryRemove_of_fresh hfSS,
      FVoxelEditorModule.VoxelStyle]
  · simp [FVoxelEditorModule.ShutdownModule, FVoxelEditorModule.UnregisterAssetTools,
      FVoxelEditorModule.UnregisterClassLayout,
      FVoxelEditorModule.UnregisterPlacementModeExtensions, FVoxelHost.IsModuleLoaded,
      hObj, hPM, hPE, hAT, hObjects, hTR, VoxelAssetTypeActions, VoxelAssetTypeActionClasses,
      VoxelClassLayoutNames, VoxelPropertyLayoutNames, VoxelThumbnailClasses,
      registryRemove_append, registryRemove_cons, registryRemove_nil,
      registryRemove_of_fresh_names hfTR, FVoxelEditorModule.VoxelStyle]
  · simp [FVoxelEditorModule.ShutdownModule, FVoxelEditorModule.UnregisterAssetTools,
      FVoxelEditorModule.UnregisterClassLayout,
      FVoxelEditorModule.UnregisterPlacementModeExtensions, FVoxelHost.IsModuleLoaded,
      hObj, hPM, hPE, hAT, hObjects, hPC, VoxelAssetTypeActions, VoxelAssetTypeActionClasses,
      VoxelClassLayoutNames, VoxelPropertyLayoutNames, categoriesRemove_append,
      categoriesRemove_of_fresh hfPC, hHandle, hSingle, FVoxelEditorModule.VoxelStyle]
  · simp [FVoxelEditorModule.ShutdownModule, FVoxelEditorModule.UnregisterAssetTools,
      FVoxelEditorModule.UnregisterClassLayout,
      FVoxelEditorModule.UnregisterPlacementModeExtensions, FVoxelHost.IsModuleLoaded,
      hObj, hPM, hPE, hAT, hObjects, hCL, VoxelAssetTypeActions, VoxelAssetTypeActionClasses,
      VoxelClassLayoutNames, VoxelPropertyLayoutNames, registryRemove_append,
      registryRemove_cons, registryRemove_nil, registryRemove_of_fresh_names hfCL,
      FVoxelEditorModule.VoxelStyle]
  · simp [FVoxelEditorModule.ShutdownModule, FVoxelEditorModule.UnregisterAssetTools,
      FVoxelEditorModule.UnregisterClassLayout,
      FVoxelEditorModule.UnregisterPlacementModeExtensions, FVoxelHost.IsModuleLoaded,
      hObj, hPM, hPE, hAT, hObjects, hPL, VoxelAssetTypeActions, VoxelAssetTypeActionClasses,
      VoxelClassLayoutNames, VoxelPropertyLayoutNames, registryRemove_append,
      registryRemove_cons, registryRemove_nil, registryRemove_of_fresh_names hfPL,
      FVoxelEditorModule.VoxelStyle]
  · simp [FVoxelEditorModule.ShutdownModule, FVoxelEditorModule.UnregisterAssetTools,
      FVoxelEditorModule.UnregisterClassLayout,
      FVoxelEditorModule.UnregisterPlacementModeExtensions, FVoxelHost.IsModuleLoaded,
      hObj, hPM, hPE, hAT, hObjects, hATA, VoxelAssetTypeActions, VoxelAssetTypeActionClasses,
      VoxelClassLayoutNames, VoxelPropertyLayoutNames, actionsRemove_append,
      actionsRemove_cons, actionsRemove_nil, actionsRemove_of_fresh hfATA,
      FVoxelEditorModule.VoxelStyle]
  · simp [FVoxelEditorModule.ShutdownModule, FVoxelEditorModule.UnregisterAssetTools,
      FVoxelEditorModule.UnregisterClassLayout,
      FVoxelEditorModule.UnregisterPlacementModeExtensions, FVoxelHost.IsModuleLoaded,
      hObj, hPM, hPE, hAT, hObjects, hEM, VoxelAssetTypeActions, VoxelAssetTypeActionClasses,
      VoxelClassLayoutNames, VoxelPropertyLayoutNames, registryRemove_append,
      registryRemove_cons, registryRemove_nil, registryRemove_of_fresh hfEM,
      FVoxelEditorModule.VoxelStyle]


set_option maxRecDepth 100000 in
set_option maxHeartbeats 4000000 in
/-- On a host whose object system is initialised, the unregistrations of
`ShutdownModule` match the registrations of `StartupModule` for the seven
kinds of `UnregistrationsMatch`. -/
theorem unregistrationsMatch_after_startup_shutdown (Host : FVoxelHost)
    (hObjects : Host.bUObjectInitialized = true) :
    UnregistrationsMatch
      (IssuedCalls Host (FVoxelEditorModule.StartupModule FVoxelEditorModule.Fresh Host).2)
      (IssuedCalls (FVoxelEditorModule.StartupModule FVoxelEditorModule.Fresh Host).2
        (FVoxelEditorModule.ShutdownModule
          (FVoxelEditorModule.StartupModule FVoxelEditorModule.Fresh Host).1
          (FVoxelEditorModule.StartupModule FVoxelEditorModule.Fresh Host).2).2) := by
  rw [shutdown_after_startup_issuedCalls Host hObjects,
    issuedCalls_of_append _ _ _ (startupModule_callLog Host)]
  unfold UnregistrationsMatch
  refine ⟨?_, ?_, ?_, ?_, ?_, ?_, ?_, ?_⟩ <;>
    simp [FModuleCall.registeredSlateStyle, FModuleCall.unregisteredSlateStyle,
      FModuleCall.registeredThumbnailClass, FModuleCall.unregisteredThumbnailClass,
      FModuleCall.registeredPlacementCategory, FModuleCall.unregisteredPlacementCategory,
      FModuleCall.placeableItemCategory,
      FModuleCall.registeredClassLayout, FModuleCall.unregisteredClassLayout,
      FModuleCall.registeredPropertyLayout, FModuleCall.unregisteredPropertyLayout,
      FModuleCall.registeredAssetTypeActions, FModuleCall.unregisteredAssetTypeActions,
      FModuleCall.registeredMode, FModuleCall.unregisteredMode,
      VoxelClassLayoutNames, VoxelPropertyLayoutNames, VoxelThumbnailClasses,
      VoxelAssetTypeActions, VoxelAssetTypeActionClasses]

/-- C8, counterexample: on the empty host, `StartupModule` followed by
`ShutdownModule` on a fresh module leaves the command context of the module
registered and its action mapped, so the global commands are not restored;
and on a host where a class layout is already registered under the name
VoxelWorld, the class layouts are not restored either: the earlier entry is
gone. -/
theorem startup_shutdown_restores_neither_commands_nor_taken_keys :
    (EmptyHost.CommandContexts = [] ∧ EmptyHost.GlobalLevelEditorActions = []
      ∧ (FVoxelEditorModule.ShutdownModule
          (FVoxelEditorModule.StartupModule FVoxelEditorModule.Fresh EmptyHost).1
          (FVoxelEditorModule.StartupModule FVoxelEditorModule.Fresh
            EmptyHost).2).2.CommandContexts = ["VoxelEditor"]
      ∧ (FVoxelEditorModule.ShutdownModule
          (FVoxelEditorModule.StartupModule FVoxelEditorModule.Fresh EmptyHost).1
          (FVoxelEditorModule.StartupModule FVoxelEditorModule.Fresh
            EmptyHost).2).2.GlobalLevelEditorActions
        = [{ Command := "RefreshVoxelWorlds", MatchingGenerator := none }])
    ∧ (HostWithVoxelWorldLayout.bUObjectInitialized = true
      ∧ HostWithVoxelWorldLayout.ClassLayouts = [("VoxelWorld", "FOtherVoxelWorldDetails")]
      ∧ (FVoxelEditorModule.ShutdownModule
          (FVoxelEditorModule.StartupModule FVoxelEditorModule.Fresh HostWithVoxelWorldLayout).1
          (FVoxelEditorModule.StartupModule FVoxelEditorModule.Fresh
            HostWithVoxelWorldLayout).2).2.ClassLayouts = []) := by
  refine ⟨⟨rfl, rfl, ?_, ?_⟩, rfl, rfl, ?_⟩ <;> rfl

/-- C8, amended: for each of styles, thumbnails, placement items, class
layouts, property layouts, asset type actions and the editor mode,
`ShutdownModule` performs the unregistration matching the registration of
`StartupModule`, so that, on a host whose object system is initialised and
which holds no entry under a key of the module beforehand (startup itself
loads the host modules), `StartupModule` followed by `ShutdownModule` on a
fresh module restores each of those seven registries to its content before
`StartupModule`. -/
theorem startup_then_shutdown_restores_registries (Host : FVoxelHost)
    (hObjects : Host.bUObjectInitialized = true) (hFresh : Host.HoldsNoVoxelEntry) :
    UnregistrationsMatch
        (IssuedCalls Host (FVoxelEditorModule.StartupModule FVoxelEditorModule.Fresh Host).2)
        (IssuedCalls (FVoxelEditorModule.StartupModule FVoxelEditorModule.Fresh Host).2
          (FVoxelEditorModule.ShutdownModule
            (FVoxelEditorModule.StartupModule FVoxelEditorModule.Fresh Host).1
            (FVoxelEditorModule.StartupModule FVoxelEditorModule.Fresh Host).2).2)
    ∧ RegistriesRestored Host
        (FVoxelEditorModule.ShutdownModule
          (FVoxelEditorModule.StartupModule FVoxelEditorModule.Fresh Host).1
          (FVoxelEditorModule.StartupModule FVoxelEditorModule.Fresh Host).2).2 :=
  ⟨unregistrationsMatch_after_startup_shutdown Host hObjects,
   registriesRestored_after_startup_shutdown Host hObjects hFresh⟩

/-- Witness for C8, amended: the sample host holds entries of the engine in
every registry and none under a key of the module; after startup and
shutdown its seven registries are as before, and the unregistrations match
the registrations. -/
theorem startup_then_shutdown_restores_registries_witness :
    SampleHost.bUObjectInitialized = true
    ∧ SampleHost.ClassLayouts = [("StaticMeshActor", "FStaticMeshActorDetails")]
    ∧ UnregistrationsMatch
        (IssuedCalls SampleHost
          (FVoxelEditorModule.StartupModule FVoxelEditorModule.Fresh SampleHost).2)
        (IssuedCalls (FVoxelEditorModule.StartupModule FVoxelEditorModule.Fresh SampleHost).2
          (FVoxelEditorModule.ShutdownModule
            (FVoxelEditorModule.StartupModule FVoxelEditorModule.Fresh SampleHost).1
            (FVoxelEditorModule.StartupModule FVoxelEditorModule.Fresh SampleHost).2).2)
    ∧ RegistriesRestored SampleHost
        (FVoxelEditorModule.ShutdownModule
          (FVoxelEditorModule.StartupModule FVoxelEditorModule.Fresh SampleHost).1
          (FVoxelEditorModule.StartupModule FVoxelEditorModule.Fresh SampleHost).2).2 :=
  ⟨rfl, rfl,
   startup_then_shutdown_restores_registries SampleHost rfl
    ⟨by decide, by decide, by decide, by decide, by decide, by decide, by decide⟩⟩

/-- C11: the class layout names and the property layout names `StartupModule`
registers on a fresh module are 7 and 8 distinct names; `ShutdownModule`, run
on the module that startup left with the property editor module loaded,
calls `UnregisterCustomClassLayout` for exactly those 7 names and
`UnregisterCustomPropertyTypeLayout` for exactly those 8 names, each once and
none with the call of the other kind; with the property editor module not
loaded it issues neither call. -/
theorem layouts_unregistered_exactly_as_registered (Host ShutdownHost : FVoxelHost) :
    ((IssuedCalls Host
          (FVoxelEditorModule.StartupModule FVoxelEditorModule.Fresh Host).2).filterMap
          FModuleCall.registeredClassLayout = VoxelClassLayoutNames
      ∧ (IssuedCalls Host
          (FVoxelEditorModule.StartupModule FVoxelEditorModule.Fresh Host).2).filterMap
          FModuleCall.registeredPropertyLayout = VoxelPropertyLayoutNames)
    ∧ (VoxelClassLayoutNames.length = 7 ∧ VoxelClassLayoutNames.Nodup
      ∧ VoxelPropertyLayoutNames.length = 8 ∧ VoxelPropertyLayoutNames.Nodup
      ∧ ∀ Name ∈ VoxelClassLayoutNames, Name ∉ VoxelPropertyLayoutNames)
    ∧ (ShutdownHost.IsModuleLoaded EHostModule.PropertyEditor = true →
      (IssuedCalls ShutdownHost
          (FVoxelEditorModule.ShutdownModule
            (FVoxelEditorModule.StartupModule FVoxelEditorModule.Fresh Host).1
            ShutdownHost).2).filterMap FModuleCall.unregisteredClassLayout
        = VoxelClassLayoutNames
      ∧ (IssuedCalls ShutdownHost
          (FVoxelEditorModule.ShutdownModule
            (FVoxelEditorModule.StartupModule FVoxelEditorModule.Fresh Host).1
            ShutdownHost).2).filterMap FModuleCall.unregisteredPropertyLayout
        = VoxelPropertyLayoutNames)
    ∧ (ShutdownHost.IsModuleLoaded EHostModule.PropertyEditor = false →
      (IssuedCalls ShutdownHost
          (FVoxelEditorModule.ShutdownModule
            (FVoxelEditorModule.StartupModule FVoxelEditorModule.Fresh Host).1
            ShutdownHost).2).filterMap FModuleCall.unregisteredClassLayout = []
      ∧ (IssuedCalls ShutdownHost
          (FVoxelEditorModule.ShutdownModule
            (FVoxelEditorModule.StartupModule FVoxelEditorModule.Fresh Host).1
            ShutdownHost).2).filterMap FModuleCall.unregisteredPropertyLayout = []) := by
  obtain ⟨hRC, hRP, -, -⟩ := startupModule_registered Host
  obtain ⟨hUC, hUP, -, -⟩ := shutdownModule_unregistered
    (FVoxelEditorModule.StartupModule FVoxelEditorModule.Fresh Host).1 ShutdownHost
  rw [startupModule_module] at hUC hUP
  rw [startupModule_module]
  refine ⟨⟨hRC, hRP⟩, ⟨by decide, by decide, by decide, by decide, by decide⟩, ?_, ?_⟩
  · intro hLoaded
    have hL : ShutdownHost.bPropertyEditorLoaded = true := hLoaded
    rw [hUC, hUP]
    simp [hL]
  · intro hLoaded
    have hL : ShutdownHost.bPropertyEditorLoaded = false := hLoaded
    rw [hUC, hUP]
    simp [hL]

/-- Witness for C11: after startup on the sample host, shutdown on the host
startup left unregisters the 7 class layouts and the 8 property layouts;
once the engine has unloaded the property editor module it unregisters
none. -/
theorem layouts_unregistered_exactly_as_registered_witness :
    (IssuedCalls (FVoxelEditorModule.StartupModule FVoxelEditorModule.Fresh SampleHost).2
        (FVoxelEditorModule.ShutdownModule
          (FVoxelEditorModule.StartupModule FVoxelEditorModule.Fresh SampleHost).1
          (FVoxelEditorModule.StartupModule FVoxelEditorModule.Fresh SampleHost).2).2).filterMap
        FModuleCall.unregisteredClassLayout
      = ["VoxelWorld", "VoxelMaterialCollection", "VoxelLandscapeImporter", "VoxelMeshImporter",
         "VoxelAssetActor", "VoxelNode_RangeAnalysisDebuggerFloat", "VoxelMeshSpawnerBase"]
    ∧ (IssuedCalls
        { (FVoxelEditorModule.StartupModule FVoxelEditorModule.Fresh SampleHost).2 with
          bPropertyEditorLoaded := false }
        (FVoxelEditorModule.ShutdownModule
          (FVoxelEditorModule.StartupModule FVoxelEditorModule.Fresh SampleHost).1
          { (FVoxelEditorModule.StartupModule FVoxelEditorModule.Fresh SampleHost).2 with
            bPropertyEditorLoaded := false }).2).filterMap
        FModuleCall.unregisteredPropertyLayout = [] :=
  ⟨((layouts_unregistered_exactly_as_registered SampleHost
      (FVoxelEditorModule.StartupModule FVoxelEditorModule.Fresh SampleHost).2).2.2.1 rfl).1,
   ((layouts_unregistered_exactly_as_registered SampleHost
      { (FVoxelEditorModule.StartupModule FVoxelEditorModule.Fresh SampleHost).2 with
        bPropertyEditorLoaded := false }).2.2.2 rfl).2⟩

/-- C12: `StartupModule` on a fresh module registers 13 distinct asset type
actions objects, each constructed with the category bit the host returned
from `RegisterAdvancedAssetCategory("Voxel")`, which is the bit the module
holds afterwards, whereas a fresh module holds `None`; `ShutdownModule`, run
on the module that startup left with the asset tools module loaded,
unregisters exactly those 13 objects, each once; with the asset tools module
not loaded it unregisters none. -/
theorem assetTypeActions_unregistered_exactly_as_registered (Host ShutdownHost : FVoxelHost) :
    ((IssuedCalls Host
          (FVoxelEditorModule.StartupModule FVoxelEditorModule.Fresh Host).2).filterMap
          FModuleCall.registeredAssetTypeActions
        = VoxelAssetTypeActions (Host.RegisterAdvancedAssetCategory "Voxel").1
      ∧ (VoxelAssetTypeActions (Host.RegisterAdvancedAssetCategory "Voxel").1).length = 13
      ∧ (VoxelAssetTypeActions (Host.RegisterAdvancedAssetCategory "Voxel").1).Nodup)
    ∧ (FVoxelEditorModule.Fresh.VoxelAssetCategoryBit = EAssetTypeCategories.None
      ∧ (FVoxelEditorModule.StartupModule FVoxelEditorModule.Fresh Host).1.VoxelAssetCategoryBit
        = (Host.RegisterAdvancedAssetCategory "Voxel").1
      ∧ ∀ Action ∈ (IssuedCalls Host
          (FVoxelEditorModule.StartupModule FVoxelEditorModule.Fresh Host).2).filterMap
          FModuleCall.registeredAssetTypeActions,
        Action.AssetCategory = (Host.RegisterAdvancedAssetCategory "Voxel").1)
    ∧ (ShutdownHost.IsModuleLoaded EHostModule.AssetTools = true →
      (IssuedCalls ShutdownHost
          (FVoxelEditorModule.ShutdownModule
            (FVoxelEditorModule.StartupModule FVoxelEditorModule.Fresh Host).1
            ShutdownHost).2).filterMap FModuleCall.unregisteredAssetTypeActions
        = (IssuedCalls Host
            (FVoxelEditorModule.StartupModule FVoxelEditorModule.Fresh Host).2).filterMap
            FModuleCall.registeredAssetTypeActions)
    ∧ (ShutdownHost.IsModuleLoaded EHostModule.AssetTools = false →
      (IssuedCalls ShutdownHost
          (FVoxelEditorModule.ShutdownModule
            (FVoxelEditorModule.StartupModule FVoxelEditorModule.Fresh Host).1
            ShutdownHost).2).filterMap FModuleCall.unregisteredAssetTypeActions = []) := by
  obtain ⟨-, -, -, hRA⟩ := startupModule_registered Host
  obtain ⟨-, -, hUA, -⟩ := shutdownModule_unregistered
    (FVoxelEditorModule.StartupModule FVoxelEditorModule.Fresh Host).1 ShutdownHost
  have hBit : (Host.RegisterAdvancedAssetCategory "Voxel").1
      = (Host.AdvancedAssetCategories.lookup "Voxel").getD Host.NextAssetCategoryBit := rfl
  rw [startupModule_module] at hUA
  rw [startupModule_module, hRA, hBit]
  refine ⟨⟨rfl, ?_, ?_⟩, ⟨rfl, rfl, ?_⟩, ?_, ?_⟩
  · simp [VoxelAssetTypeActions, VoxelAssetTypeActionClasses]
  · simp [VoxelAssetTypeActions, VoxelAssetTypeActionClasses]
  · intro Action hmem
    simp only [VoxelAssetTypeActions, List.mem_map] at hmem
    obtain ⟨ActionClass, -, rfl⟩ := hmem
    rfl
  · intro hLoaded
    have hL : ShutdownHost.bAssetToolsLoaded = true := hLoaded
    rw [hUA]
    simp [hL]
  · intro hLoaded
    have hL : ShutdownHost.bAssetToolsLoaded = false := hLoaded
    rw [hUA]
    simp [hL]

/-- Witness for C12: on the sample host the category bit returned for "Voxel"
is 2, not `None`; the data asset actions are registered with that bit, and
shutdown on the host startup left unregisters the 13 objects registered,
while it unregisters none once the asset tools module is unloaded. -/
theorem assetTypeActions_unregistered_exactly_as_registered_witness :
    (SampleHost.RegisterAdvancedAssetCategory "Voxel").1 = 2
    ∧ EAssetTypeCategories.None = 0
    ∧ (IssuedCalls (FVoxelEditorModule.StartupModule FVoxelEditorModule.Fresh SampleHost).2
        (FVoxelEditorModule.ShutdownModule
          (FVoxelEditorModule.StartupModule FVoxelEditorModule.Fresh SampleHost).1
          (FVoxelEditorModule.StartupModule FVoxelEditorModule.Fresh SampleHost).2).2).filterMap
        FModuleCall.unregisteredAssetTypeActions
      = (IssuedCalls SampleHost
          (FVoxelEditorModule.StartupModule FVoxelEditorModule.Fresh SampleHost).2).filterMap
          FModuleCall.registeredAssetTypeActions
    ∧ (IssuedCalls
        { (FVoxelEditorModule.StartupModule FVoxelEditorModule.Fresh SampleHost).2 with
          bAssetToolsLoaded := false }
        (FVoxelEditorModule.ShutdownModule
          (FVoxelEditorModule.StartupModule FVoxelEditorModule.Fresh SampleHost).1
          { (FVoxelEditorModule.StartupModule FVoxelEditorModule.Fresh SampleHost).2 with
            bAssetToolsLoaded := false }).2).filterMap
        FModuleCall.unregisteredAssetTypeActions = [] :=
  ⟨rfl, rfl,
   (assetTypeActions_unregistered_exactly_as_registered SampleHost
      (FVoxelEditorModule.StartupModule FVoxelEditorModule.Fresh SampleHost).2).2.2.1 rfl,
   (assetTypeActions_unregistered_exactly_as_registered SampleHost
      { (FVoxelEditorModule.StartupModule FVoxelEditorModule.Fresh SampleHost).2 with
        bAssetToolsLoaded := false }).2.2.2 rfl⟩

/-- C13: the asset classes `StartupModule` registers a custom thumbnail
renderer for are 7 distinct classes; `ShutdownModule`, with the object system
initialised, unregisters the renderer of exactly those classes, each once;
with the object system not initialised it unregisters no thumbnail
renderer. -/
theorem thumbnails_unregistered_exactly_as_registered
    (this : FVoxelEditorModule) (Host ShutdownHost : FVoxelHost) :
    ((IssuedCalls Host
          (FVoxelEditorModule.StartupModule FVoxelEditorModule.Fresh Host).2).filterMap
          FModuleCall.registeredThumbnailClass = VoxelThumbnailClasses
      ∧ VoxelThumbnailClasses.length = 7 ∧ VoxelThumbnailClasses.Nodup)
    ∧ (ShutdownHost.bUObjectInitialized = true →
      (IssuedCalls ShutdownHost
          (FVoxelEditorModule.ShutdownModule this ShutdownHost).2).filterMap
          FModuleCall.unregisteredThumbnailClass
        = (IssuedCalls Host
            (FVoxelEditorModule.StartupModule FVoxelEditorModule.Fresh Host).2).filterMap
            FModuleCall.registeredThumbnailClass)
    ∧ (ShutdownHost.bUObjectInitialized = false →
      (IssuedCalls ShutdownHost
          (FVoxelEditorModule.ShutdownModule this ShutdownHost).2).filterMap
          FModuleCall.unregisteredThumbnailClass = []) := by
  obtain ⟨-, -, hRT, -⟩ := startupModule_registered Host
  obtain ⟨-, -, -, hUT⟩ := shutdownModule_unregistered this ShutdownHost
  rw [hRT, hUT]
  refine ⟨⟨rfl, by decide, by decide⟩, ?_, ?_⟩
  · intro hInit
    simp [hInit]
  · intro hInit
    simp [hInit]

/-- Witness for C13: after startup on the sample host, whose object system is
initialised, shutdown unregisters the renderers of the 7 classes; once the
object system is torn down it unregisters none. -/
theorem thumbnails_unregistered_exactly_as_registered_witness :
    (IssuedCalls (FVoxelEditorModule.StartupModule FVoxelEditorModule.Fresh SampleHost).2
        (FVoxelEditorModule.ShutdownModule
          (FVoxelEditorModule.StartupModule FVoxelEditorModule.Fresh SampleHost).1
          (FVoxelEditorModule.StartupModule FVoxelEditorModule.Fresh SampleHost).2).2).filterMap
        FModuleCall.unregisteredThumbnailClass
      = (IssuedCalls SampleHost
          (FVoxelEditorModule.StartupModule FVoxelEditorModule.Fresh SampleHost).2).filterMap
          FModuleCall.registeredThumbnailClass
    ∧ (IssuedCalls
        { (FVoxelEditorModule.StartupModule FVoxelEditorModule.Fresh SampleHost).2 with
          bUObjectInitialized := false }
        (FVoxelEditorModule.ShutdownModule
          (FVoxelEditorModule.StartupModule FVoxelEditorModule.Fresh SampleHost).1
          { (FVoxelEditorModule.StartupModule FVoxelEditorModule.Fresh SampleHost).2 with
            bUObjectInitialized := false }).2).filterMap
        FModuleCall.unregisteredThumbnailClass = [] :=
  ⟨(thumbnails_unregistered_exactly_as_registered
      (FVoxelEditorModule.StartupModule FVoxelEditorModule.Fresh SampleHost).1 SampleHost
      (FVoxelEditorModule.StartupModule FVoxelEditorModule.Fresh SampleHost).2).2.1 rfl,
   (thumbnails_unregistered_exactly_as_registered
      (FVoxelEditorModule.StartupModule FVoxelEditorModule.Fresh SampleHost).1 SampleHost
      { (FVoxelEditorModule.StartupModule FVoxelEditorModule.Fresh SampleHost).2 with
        bUObjectInitialized := false }).2.2 rfl⟩

/-! ### Element customization -/

/-- The loop of `ArePhysicalMaterialsHidden` returns true exactly when some
outer object is a collection hiding the physical materials. -/
theorem arePhysicalMaterialsHidden_loop_iff (Outers : List (Option UObject)) :
    FVoxelMaterialCollectionElementCustomization.ArePhysicalMaterialsHidden_loop Outers = true
      ↔ ∃ Outer ∈ Outers, HidesPhysicalMaterials Outer := by
  induction Outers with
  | nil => simp [FVoxelMaterialCollectionElementCustomization.ArePhysicalMaterialsHidden_loop]
  | cons Outer Outers ih =>
    rw [FVoxelMaterialCollectionElementCustomization.ArePhysicalMaterialsHidden_loop,
      List.exists_mem_cons_iff]
    cases hCast : Cast_UVoxelMaterialCollection Outer with
    | none =>
      have hNot : ¬ HidesPhysicalMaterials Outer := by
        rintro ⟨Collection, rfl, -⟩
        simp [Cast_UVoxelMaterialCollection] at hCast
      simp only [ih]
      constructor
      · intro h
        exact Or.inr h
      · rintro (h | h)
        · exact absurd h hNot
        · exact h
    | some Collection =>
      have hOuter : Outer = some (UObject.VoxelMaterialCollection Collection) := by
        cases Outer with
        | none => simp [Cast_UVoxelMaterialCollection] at hCast
        | some Object =>
          cases Object <;> simp [Cast_UVoxelMaterialCollection] at hCast
          rw [hCast]
      subst hOuter
      by_cases hFlag : Collection.bHidePhysicalMaterials = true
      · simp only [if_pos hFlag, true_iff]
        exact Or.inl ⟨Collection, rfl, hFlag⟩
      · simp only [if_neg hFlag, ih]
        constructor
        · intro h
          exact Or.inr h
        · rintro (⟨Other, hEq, hSet⟩ | h)
          · simp only [Option.some.injEq, UObject.VoxelMaterialCollection.injEq] at hEq
            rw [← hEq] at hSet
            exact absurd hSet hFlag
          · exact h

/-- C14: `ArePhysicalMaterialsHidden` returns true exactly when at least one
outer object is a material collection whose `bHidePhysicalMaterials` flag is
set; it returns false when there is no outer object, when no outer object is
a material collection, and when every outer collection has the flag clear. -/
theorem arePhysicalMaterialsHidden_iff_some_outer_hides
    (this : FVoxelMaterialCollectionElementCustomization) :
    (this.ArePhysicalMaterialsHidden = true ↔ ∃ Outer ∈ this.Outers, HidesPhysicalMaterials Outer)
    ∧ (this.Outers = [] → this.ArePhysicalMaterialsHidden = false)
    ∧ ((∀ Outer ∈ this.Outers, Cast_UVoxelMaterialCollection Outer = none) →
      this.ArePhysicalMaterialsHidden = false)
    ∧ ((∀ Collection : UVoxelMaterialCollection,
        some (UObject.VoxelMaterialCollection Collection) ∈ this.Outers →
        Collection.bHidePhysicalMaterials = false) →
      this.ArePhysicalMaterialsHidden = false) := by
  have key := arePhysicalMaterialsHidden_loop_iff this.Outers
  have hFalse : (¬ ∃ Outer ∈ this.Outers, HidesPhysicalMaterials Outer) →
      this.ArePhysicalMaterialsHidden = false := by
    intro hNone
    cases hRes : this.ArePhysicalMaterialsHidden with
    | false => rfl
    | true => exact absurd (key.mp hRes) hNone
  refine ⟨key, ?_, ?_, ?_⟩
  · intro hEmpty
    apply hFalse
    rw [hEmpty]
    simp
  · intro hNoCollection
    apply hFalse
    rintro ⟨Outer, hmem, Collection, rfl, -⟩
    have := hNoCollection _ hmem
    simp [Cast_UVoxelMaterialCollection] at this
  · intro hClear
    apply hFalse
    rintro ⟨Outer, hmem, Collection, rfl, hSet⟩
    rw [hClear Collection hmem] at hSet
    exact absurd hSet (by decide)

/-- Witness for C14: the second sample state has a null outer, an outer of
another class and an outer collection with the flag set, so the physical
materials are hidden; a state whose only outer collection has the flag clear
does not hide them. -/
theorem arePhysicalMaterialsHidden_iff_some_outer_hides_witness :
    SampleElementStateB.ArePhysicalMaterialsHidden = true
    ∧ FVoxelMaterialCollectionElementCustomization.ArePhysicalMaterialsHidden
        { SampleElementStateA with
          Outers := [none, some (UObject.VoxelMaterialCollection SampleCollection)] } = false :=
  ⟨(arePhysicalMaterialsHidden_iff_some_outer_hides SampleElementStateB).1.mpr
      ⟨some (UObject.VoxelMaterialCollection
          { Name := "MC_Caves", bHidePhysicalMaterials := true, Materials := [] }),
        by simp [SampleElementStateB], _, rfl, rfl⟩,
   (arePhysicalMaterialsHidden_iff_some_outer_hides
      { SampleElementStateA with
        Outers := [none, some (UObject.VoxelMaterialCollection SampleCollection)] }).2.2.2 (by
      intro Collection hmem
      have hC : Collection = SampleCollection := by simpa using hmem
      rw [hC]
      rfl)⟩

/-- C15: the child row generated for an array index calls `Insert`,
`DeleteItem` and `DuplicateItem` with that same index from its insert, delete
and duplicate buttons, on the array behind the `Children` handle of the
element being customized; it shows exactly three value widgets, for the
instance index, the material instance and the physical material of the child
at that index, and none for nested children. The rows of an element are one
per child, the row at a position being the one generated for that
position. -/
theorem childRow_controls_act_on_own_index
    (this : FVoxelMaterialCollectionElementCustomization) :
    (∀ ArrayIndex : Nat,
      (FVoxelMaterialCollectionElementCustomization.GenerateArrayElementWidget
          ArrayIndex).InsertAction = EArrayCall.Insert ArrayIndex
      ∧ (FVoxelMaterialCollectionElementCustomization.GenerateArrayElementWidget
          ArrayIndex).DeleteAction = EArrayCall.DeleteItem ArrayIndex
      ∧ (FVoxelMaterialCollectionElementCustomization.GenerateArrayElementWidget
          ArrayIndex).DuplicateAction = EArrayCall.DuplicateItem ArrayIndex
      ∧ (FVoxelMaterialCollectionElementCustomization.GenerateArrayElementWidget
          ArrayIndex).ArrayHandle = EChildHandle.Children
      ∧ (FVoxelMaterialCollectionElementCustomization.GenerateArrayElementWidget
          ArrayIndex).ValueWidgets
        = [EChildHandle.InstanceIndex ArrayIndex, EChildHandle.MaterialInstance ArrayIndex,
           EChildHandle.ChildPhysicalMaterial ArrayIndex]
      ∧ EChildHandle.Children ∉
        (FVoxelMaterialCollectionElementCustomization.GenerateArrayElementWidget
          ArrayIndex).ValueWidgets)
    ∧ this.CustomizeChildren.length = this.PropertyHandle.Value.Children.length
    ∧ (∀ (ArrayIndex : Nat) (Row : FChildRow),
      this.CustomizeChildren[ArrayIndex]? = some Row →
      ArrayIndex < this.PropertyHandle.Value.Children.length
        ∧ Row = FVoxelMaterialCollectionElementCustomization.GenerateArrayElementWidget
            ArrayIndex) := by
  refine ⟨?_, ?_, ?_⟩
  · intro ArrayIndex
    simp [FVoxelMaterialCollectionElementCustomization.GenerateArrayElementWidget,
      FChildRow.ValueWidgets]
  · simp [FVoxelMaterialCollectionElementCustomization.CustomizeChildren]
  · intro ArrayIndex Row hRow
    simp only [FVoxelMaterialCollectionElementCustomization.CustomizeChildren, List.getElem?_map,
      Option.map_eq_some'] at hRow
    obtain ⟨Index, hIndex, rfl⟩ := hRow
    rw [List.getElem?_eq_some] at hIndex
    obtain ⟨hlt, hval⟩ := hIndex
    simp only [List.length_range] at hlt
    simp only [List.getElem_range] at hval
    subst hval
    exact ⟨hlt, rfl⟩

/-- Witness for C15: the second sample state has two children; its second
row is the one generated for index 1, and its delete button calls
`DeleteItem(1)`. -/
theorem childRow_controls_act_on_own_index_witness :
    SampleElementStateB.CustomizeChildren.length = 2
    ∧ SampleElementStateB.CustomizeChildren[1]?
        = some (FVoxelMaterialCollectionElementCustomization.GenerateArrayElementWidget 1)
    ∧ 1 < SampleElementStateB.PropertyHandle.Value.Children.length
    ∧ (FVoxelMaterialCollectionElementCustomization.GenerateArrayElementWidget 1).DeleteAction
        = EArrayCall.DeleteItem 1 :=
  ⟨(childRow_controls_act_on_own_index SampleElementStateB).2.1, rfl,
   ((childRow_controls_act_on_own_index SampleElementStateB).2.2 1
      (FVoxelMaterialCollectionElementCustomization.GenerateArrayElementWidget 1) rfl).1,
   ((childRow_controls_act_on_own_index SampleElementStateB).1 1).2.1⟩

/-! ### Confirmation of the triple generation -/

/-- C16: for the three answers of the Yes/No/Cancel confirmation,
`OnGenerateTripleMaterials` calls the material generation helper exactly when
the answer is Yes; when the answer is No or Cancel the handler only asks the
confirmation: the helper is not called, no notification is added, no OK-only
dialog is opened, and the details object and its collection stay as they
were. -/
theorem tripleGeneration_gated_by_confirmation
    (Helpers : FVoxelMaterialCollectionHelpers) (Open : EAppMsgType → FText → EAppReturnType)
    (this : FVoxelMaterialCollectionDetails) :
    ((Open EAppMsgType.YesNoCancel ThisWillTakeAWhile = EAppReturnType.Yes
        ∨ Open EAppMsgType.YesNoCancel ThisWillTakeAWhile = EAppReturnType.No
        ∨ Open EAppMsgType.YesNoCancel ThisWillTakeAWhile = EAppReturnType.Cancel) →
      ((∃ Call ∈ (OnGenerateTripleMaterials Helpers Open this).Calls, Call.isGenerate = true)
        ↔ Open EAppMsgType.YesNoCancel ThisWillTakeAWhile = EAppReturnType.Yes))
    ∧ ((Open EAppMsgType.YesNoCancel ThisWillTakeAWhile = EAppReturnType.No
        ∨ Open EAppMsgType.YesNoCancel ThisWillTakeAWhile = EAppReturnType.Cancel) →
      (OnGenerateTripleMaterials Helpers Open this).Calls
          = [MessageDialog_Open EAppMsgType.YesNoCancel ThisWillTakeAWhile]
        ∧ (OnGenerateTripleMaterials Helpers Open this).Calls.filter isGenerate = []
        ∧ (OnGenerateTripleMaterials Helpers Open this).Calls.filter isNotification = []
        ∧ (OnGenerateTripleMaterials Helpers Open this).Calls.filter isOkDialog = []
        ∧ (OnGenerateTripleMaterials Helpers Open this).Details = this
        ∧ (OnGenerateTripleMaterials Helpers Open this).Details.Collection = this.Collection) := by
  refine ⟨?_, ?_⟩
  · rintro (hAns | hAns | hAns)
    · cases h : (Helpers.GenerateTripleMaterials this.Collection.Get "").Result <;>
        simp [OnGenerateTripleMaterials, hAns, h, isGenerate]
    · simp [OnGenerateTripleMaterials, hAns, isGenerate]
    · simp [OnGenerateTripleMaterials, hAns, isGenerate]
  · rintro (hAns | hAns) <;>
      simp [OnGenerateTripleMaterials, hAns, isGenerate, isNotification, isOkDialog]

/-- Witness for C16: with the user answering No, the triple handler on the
sample details object only asks the confirmation and leaves the details
object as it was, although the helpers would fail; with the user answering
Yes the helper is called. -/
theorem tripleGeneration_gated_by_confirmation_witness :
    (OnGenerateTripleMaterials FailingHelpers AnswerNo SampleDetails).Calls
        = [MessageDialog_Open EAppMsgType.YesNoCancel ThisWillTakeAWhile]
    ∧ (OnGenerateTripleMaterials FailingHelpers AnswerNo SampleDetails).Details = SampleDetails
    ∧ (∃ Call ∈ (OnGenerateTripleMaterials FailingHelpers AnswerYes SampleDetails).Calls,
        Call.isGenerate = true) :=
  ⟨((tripleGeneration_gated_by_confirmation FailingHelpers AnswerNo SampleDetails).2
      (Or.inl rfl)).1,
   ((tripleGeneration_gated_by_confirmation FailingHelpers AnswerNo SampleDetails).2
      (Or.inl rfl)).2.2.2.2.1,
   ((tripleGeneration_gated_by_confirmation FailingHelpers AnswerYes SampleDetails).1
      (Or.inl rfl)).mpr rfl⟩

/-! ### Retoggle outside an editor world -/

/-- The first loop of `RefreshVoxelWorlds_Execute` makes no `UpdatePreview`
call. -/
theorem updatePreview_count_voxelWorlds (MatchingGenerator : Option FName) (It : Nat) :
    ∀ (Actors : List AVoxelWorld) (Start : Nat),
      (RefreshVoxelWorlds_Execute_VoxelWorlds MatchingGenerator Start Actors).count
          (FActorCall.UpdatePreview It) = 0 := by
  intro Actors
  induction Actors with
  | nil =>
    intro Start
    simp [RefreshVoxelWorlds_Execute_VoxelWorlds]
  | cons Actor Actors ih =>
    intro Start
    rw [RefreshVoxelWorlds_Execute_VoxelWorlds, List.count_append, ih (Start + 1)]
    split <;> simp [List.count_cons]

/-- Number of `UpdatePreview` calls the second loop makes on the asset actor
at an iteration position, the loop starting at position `Start`. -/
theorem updatePreview_count_assetActors (It : Nat) :
    ∀ (Actors : List AVoxelAssetActor) (Start : Nat),
      (RefreshVoxelWorlds_Execute_AssetActors Start Actors).count (FActorCall.UpdatePreview It)
        = if Start ≤ It ∧ It < Start + Actors.length then 1 else 0 := by
  intro Actors
  induction Actors with
  | nil =>
    intro Start
    have h : ¬ (Start ≤ It ∧ It < Start + ([] : List AVoxelAssetActor).length) := by
      simp only [List.length_nil]
      omega
    rw [if_neg h]
    rfl
  | cons Actor Actors ih =>
    intro Start
    rw [RefreshVoxelWorlds_Execute_AssetActors, List.count_cons, ih (Start + 1)]
    simp only [List.length_cons, beq_iff_eq, FActorCall.UpdatePreview.injEq]
    by_cases h1 : Start = It
    · subst h1
      have h2 : ¬ (Start + 1 ≤ Start ∧ Start < Start + 1 + Actors.length) := by omega
      have h3 : Start ≤ Start ∧ Start < Start + (Actors.length + 1) := by omega
      rw [if_neg h2, if_pos h3]
      simp
    · by_cases h2 : Start + 1 ≤ It ∧ It < Start + 1 + Actors.length
      · have h3 : Start ≤ It ∧ It < Start + (Actors.length + 1) := by omega
        rw [if_pos h2, if_pos h3]
        simp [h1]
      · have h3 : ¬ (Start ≤ It ∧ It < Start + (Actors.length + 1)) := by omega
        rw [if_neg h2, if_neg h3]
        simp [h1]

/-- C17: without an active viewport, with a viewport that has no client, with
a client that has no world, and in a world whose type is neither Editor nor
EditorPreview, `RefreshVoxelWorlds_Execute` makes no call at all, so no
`Toggle` and no `UpdatePreview`; in a world of type Editor or EditorPreview
it calls `UpdatePreview` exactly once on every asset actor, whatever
`MatchingGenerator` is. -/
theorem refreshVoxelWorlds_noop_outside_editor_world (MatchingGenerator : Option FName) :
    RefreshVoxelWorlds_Execute none MatchingGenerator = []
    ∧ RefreshVoxelWorlds_Execute (some { Client := none }) MatchingGenerator = []
    ∧ RefreshVoxelWorlds_Execute (some { Client := some { World := none } }) MatchingGenerator
        = []
    ∧ (∀ World : UWorld, World.WorldType ≠ EWorldType.Editor →
        World.WorldType ≠ EWorldType.EditorPreview →
        RefreshVoxelWorlds_Execute (ViewportOn World) MatchingGenerator = [])
    ∧ (∀ World : UWorld,
        World.WorldType = EWorldType.Editor ∨ World.WorldType = EWorldType.EditorPreview →
        ∀ (It : Nat) (Actor : AVoxelAssetActor), World.VoxelAssetActors[It]? = some Actor →
          (RefreshVoxelWorlds_Execute (ViewportOn World) MatchingGenerator).count
            (FActorCall.UpdatePreview It) = 1) := by
  refine ⟨rfl, rfl, rfl, ?_, ?_⟩
  · intro World hEditor hPreview
    simp [RefreshVoxelWorlds_Execute, ViewportOn, hEditor, hPreview]
  · intro World hEditor It Actor hActor
    have hType : (World.WorldType == EWorldType.Editor
        || World.WorldType == EWorldType.EditorPreview) = true := by
      rcases hEditor with h | h <;> simp [h]
    have hlt : It < World.VoxelAssetActors.length := by
      rw [List.getElem?_eq_some] at hActor
      exact hActor.1
    simp only [RefreshVoxelWorlds_Execute, ViewportOn, hType, if_true, List.count_append,
      updatePreview_count_voxelWorlds, updatePreview_count_assetActors, Nat.zero_le,
      Nat.zero_add, true_and, hlt]

/-- Witness for C17: in the sample world turned into a game world nothing is
called; in the sample editor world the one asset actor gets one
`UpdatePreview`, with or without a matching generator. -/
theorem refreshVoxelWorlds_noop_outside_editor_world_witness :
    RefreshVoxelWorlds_Execute
        (ViewportOn { SampleWorld with WorldType := EWorldType.Other 3 }) (some "G_Hills") = []
    ∧ (RefreshVoxelWorlds_Execute (ViewportOn SampleWorld) (some "G_Hills")).count
        (FActorCall.UpdatePreview 0) = 1
    ∧ (RefreshVoxelWorlds_Execute (ViewportOn SampleWorld) none).count
        (FActorCall.UpdatePreview 0) = 1 :=
  ⟨(refreshVoxelWorlds_noop_outside_editor_world (some "G_Hills")).2.2.2.1
      { SampleWorld with WorldType := EWorldType.Other 3 } (by decide) (by decide),
   (refreshVoxelWorlds_noop_outside_editor_world (some "G_Hills")).2.2.2.2 SampleWorld
      (Or.inl rfl) 0 { Name := "AssetActor_0" } rfl,
   (refreshVoxelWorlds_noop_outside_editor_world none).2.2.2.2 SampleWorld
      (Or.inl rfl) 0 { Name := "AssetActor_0" } rfl⟩

/-! ### Editor delegates -/

/-- The delegates after `BindEditorDelegates` on non-null pointers: each of
the five gains a binding to the object unless it holds one. -/
theorem bindEditorDelegates_eq (Interface Object : FName) (Delegates : FEditorDelegates) :
    BindEditorDelegates (some Interface) (some Object) Delegates
      = some
        { PreSaveWorld :=
            if Object ∈ Delegates.PreSaveWorld then Delegates.PreSaveWorld
            else Delegates.PreSaveWorld ++ [Object],
          PreBeginPIE :=
            if Object ∈ Delegates.PreBeginPIE then Delegates.PreBeginPIE
            else Delegates.PreBeginPIE ++ [Object],
          EndPIE :=
            if Object ∈ Delegates.EndPIE then Delegates.EndPIE
            else Delegates.EndPIE ++ [Object],
          PrepareToCleanseEditorObject :=
            if Object ∈ Delegates.PrepareToCleanseEditorObject then
              Delegates.PrepareToCleanseEditorObject
            else Delegates.PrepareToCleanseEditorObject ++ [Object],
          OnPreExit :=
            if Object ∈ Delegates.OnPreExit then Delegates.OnPreExit
            else Delegates.OnPreExit ++ [Object] } := by
  by_cases h1 : Object ∈ Delegates.PreSaveWorld <;>
    by_cases h2 : Object ∈ Delegates.PreBeginPIE <;>
    by_cases h3 : Object ∈ Delegates.EndPIE <;>
    by_cases h4 : Object ∈ Delegates.PrepareToCleanseEditorObject <;>
    by_cases h5 : Object ∈ Delegates.OnPreExit <;>
    simp [BindEditorDelegates, IsBoundToObject, AddWeakLambda, h1, h2, h3, h4, h5]

/-- One delegate after the conditional binding of `BindEditorDelegates`. -/
theorem boundOnce_of_conditional_add (Object : FName) (Delegate : List FName) :
    BoundOnce Object Delegate (if Object ∈ Delegate then Delegate else Delegate ++ [Object]) := by
  by_cases h : Object ∈ Delegate
  · simp [BoundOnce, h]
  · refine ⟨?_, ?_, ?_⟩
    · intro _
      simp [h, List.count_append, List.count_eq_zero_of_not_mem h]
    · intro hmem
      exact absurd hmem h
    · intro Other hOther
      simp [h, List.count_append, List.count_cons, hOther.symm]

/-- C18: for a non-null interface and object, `BindEditorDelegates` succeeds
and leaves each of the five delegates (PreSaveWorld, PreBeginPIE, EndPIE,
PrepareToCleanseEditorObject, OnPreExit) with exactly one binding to the
object if it held none before and unchanged if it was already bound to the
object; a second call with the same object, for any interface, changes none
of the five delegates. -/
theorem bindEditorDelegates_idempotent_per_object (Interface Object : FName)
    (Delegates : FEditorDelegates) :
    ∃ Bound : FEditorDelegates,
      BindEditorDelegates (some Interface) (some Object) Delegates = some Bound
      ∧ BoundOnce Object Delegates.PreSaveWorld Bound.PreSaveWorld
      ∧ BoundOnce Object Delegates.PreBeginPIE Bound.PreBeginPIE
      ∧ BoundOnce Object Delegates.EndPIE Bound.EndPIE
      ∧ BoundOnce Object Delegates.PrepareToCleanseEditorObject
          Bound.PrepareToCleanseEditorObject
      ∧ BoundOnce Object Delegates.OnPreExit Bound.OnPreExit
      ∧ ∀ Again : FName, BindEditorDelegates (some Again) (some Object) Bound = some Bound := by
  refine ⟨_, bindEditorDelegates_eq Interface Object Delegates,
    boundOnce_of_conditional_add _ _, boundOnce_of_conditional_add _ _,
    boundOnce_of_conditional_add _ _, boundOnce_of_conditional_add _ _,
    boundOnce_of_conditional_add _ _, ?_⟩
  intro Again
  rw [bindEditorDelegates_eq]
  by_cases h1 : Object ∈ Delegates.PreSaveWorld <;>
    by_cases h2 : Object ∈ Delegates.PreBeginPIE <;>
    by_cases h3 : Object ∈ Delegates.EndPIE <;>
    by_cases h4 : Object ∈ Delegates.PrepareToCleanseEditorObject <;>
    by_cases h5 : Object ∈ Delegates.OnPreExit <;>
    simp [h1, h2, h3, h4, h5]

/-- Witness for C18: binding a voxel world on delegates without bindings
gives each of the five one binding to it, and binding it again changes
nothing; on a delegate already bound to it no binding is added. -/
theorem bindEditorDelegates_idempotent_per_object_witness :
    BindEditorDelegates (some "VoxelWorld_0") (some "VoxelWorld_0") NoDelegateBound
        = some { PreSaveWorld := ["VoxelWorld_0"], PreBeginPIE := ["VoxelWorld_0"],
                 EndPIE := ["VoxelWorld_0"],
                 PrepareToCleanseEditorObject := ["VoxelWorld_0"],
                 OnPreExit := ["VoxelWorld_0"] }
    ∧ (∃ Bound : FEditorDelegates,
        BindEditorDelegates (some "VoxelWorld_0") (some "VoxelWorld_0")
            { NoDelegateBound with EndPIE := ["VoxelWorld_1", "VoxelWorld_0"] } = some Bound
        ∧ BoundOnce "VoxelWorld_0" ["VoxelWorld_1", "VoxelWorld_0"] Bound.EndPIE
        ∧ BindEditorDelegates (some "VoxelWorld_0") (some "VoxelWorld_0") Bound = some Bound) :=
  ⟨rfl,
   (bindEditorDelegates_idempotent_per_object "VoxelWorld_0" "VoxelWorld_0"
      { NoDelegateBound with EndPIE := ["VoxelWorld_1", "VoxelWorld_0"] }).imp
      (fun _ h => ⟨h.1, h.2.2.2.1, h.2.2.2.2.2.2 "VoxelWorld_0"⟩)⟩
end VoxelEditor
